import Mathlib

/-!
# jit.boids3d: a shallow embedding of the flocking simulation

The definitions below follow `src/11-04_CODE/jit.boids3d.c` function by function.

Modelling conventions.

* `double` and `float` values live in an arbitrary linearly ordered field `F`; the
  host's `sqrt`, `sin` and `cos` are supplied through a `Host F` record.  Theorems that
  need exact square roots instantiate `F` with the real numbers.
* C `int`/`long` values are mathematical integers; signed overflow (undefined behaviour
  in C) is outside the model.
* The per-flock arrays of length `MAX_FLOCKS` are functions on `Fin 6`.  An access
  whose index comes from data (`iterator->flockID`) and falls outside `0..5` is
  undefined behaviour in C and makes the embedded function return `none`.
* Linked lists are Lean lists, head first.  `malloc` always succeeds, `free` is dropped.
* `jit_rand()` is a stream `Nat → Int` of the values the host will return next.
-/

namespace Boids3d

/-! ## Constants -/

abbrev MAX_FLOCKS : Nat := 6

def kMaxNeighbors : Int := 200

def kMaxNeighborLines : Nat := 272

def kMaxNumBoids : Int := 1000

/-- The value a C `int` (32 bits, two's complement) holds when the mathematical result is
`x`: `x` wrapped into `[-2^31, 2^31)`, which is what signed addition yields on the
machine when the result leaves the range; also the conversion `(int)` of a `long`. -/
def wrap32 (x : Int) : Int := (x + 2147483648) % 4294967296 - 2147483648

/-! ## Data model -/

/-- Host math library: `sqrt`/`jit_math_sqrt`, `jit_math_sin`, `jit_math_cos`. -/
structure Host (F : Type) where
  sqrt : F → F
  sin : F → F
  cos : F → F

/-- A `double[3]` indexed by the `x`, `y`, `z` defines. -/
structure Vec3 (F : Type) where
  x : F
  y : F
  z : F

/-- The `double flyrect[6]` array, indexed by the `left` .. `back` defines. -/
structure FlyRect (F : Type) where
  left : F
  right : F
  top : F
  bottom : F
  front : F
  back : F

/-- The `struct Attractor` node (the `nextAttractor` link is the list structure). -/
structure Attractor (F : Type) where
  loc : Vec3 F
  attractorRadius : F
  id : Int
  onlyAttractedFlockID : Int

/-- The `struct Boid` node (the `nextBoid` link is the list structure; the `neighbor` and
`neighborDistSqr` arrays are only zero-filled by `InitBoid` and never read). -/
structure Boid (F : Type) where
  flockID : Int
  age : Int
  globalID : Int
  oldPos : Vec3 F
  newPos : Vec3 F
  oldDir : Vec3 F
  newDir : Vec3 F
  speed : F

/-- The `struct NeighborLine`; `flockIDA`, `flockIDB` are `flockID[0]`, `flockID[1]`. -/
structure NeighborLine (F : Type) where
  boidA : Vec3 F
  aID : Int
  boidB : Vec3 F
  bID : Int
  flockIDA : Int
  flockIDB : Int

/-- The `t_jit_boids3d` object.  `neighborhoodConnections` holds the first
`sizeOfNeighborhoodConnections` entries of the C array (later entries are never read).
The counters `newBoidID` and `boidCount[i]`, which move by one per agent created or removed,
are kept as mathematical integers; the arithmetic of the resize guard is done in wrapped
32-bit `int`s (`wrap32`). -/
structure t_jit_boids3d (F : Type) where
  mode : Int
  number : Int
  numAttractors : Int
  neighbors : Int
  flyrect : FlyRect F
  flyRectCount : Int
  allowNeighborsFromDiffFlock : Int
  birthLoc : Vec3 F
  newBoidID : Int
  boidCount : Fin MAX_FLOCKS → Int
  minspeed : Fin MAX_FLOCKS → F
  maxspeed : Fin MAX_FLOCKS → F
  center : Fin MAX_FLOCKS → F
  attract : Fin MAX_FLOCKS → F
  «match» : Fin MAX_FLOCKS → F
  sepwt : Fin MAX_FLOCKS → F
  sepdist : Fin MAX_FLOCKS → F
  speed : Fin MAX_FLOCKS → F
  inertia : Fin MAX_FLOCKS → F
  accel : Fin MAX_FLOCKS → F
  neighborRadius : Fin MAX_FLOCKS → F
  age : Fin MAX_FLOCKS → F
  tempCenterPt : Vec3 F
  neighborhoodConnections : List (NeighborLine F)
  drawingNeighbors : Int
  flockLL : Fin MAX_FLOCKS → List (Boid F)
  attractorLL : List (Attractor F)
  d2r : F
  r2d : F

/-- The local arrays declared at the top of `FlightStep`; they live across all agents
of one tick. -/
structure FlightLocals (F : Type) where
  goCenterVel : Vec3 F
  goAttractVel : Vec3 F
  matchNeighborVel : Vec3 F
  separationNeighborVel : Vec3 F

/-- The local variables of the scan loop in `CalcFlockCenterAndNeighborVel`, together
with the adjacency store the loop appends to. -/
structure NeighborScan (F : Type) where
  totalH : F
  totalV : F
  totalD : F
  matchNeighborVel : Vec3 F
  separationNeighborVel : Vec3 F
  avoidSpeed : F
  neighborsCount : Int
  lines : List (NeighborLine F)

section defs

variable {F : Type} [LinearOrderedField F]

/-- The loop header `for (int i=0; i<MAX_FLOCKS; i++)`. -/
def flockSlots : List (Fin MAX_FLOCKS) := [0, 1, 2, 3, 4, 5]

/-- An array index taken from data: `some` slot when it lies in `0..5`. -/
def flockIndex (id : Int) : Option (Fin MAX_FLOCKS) :=
  if h : 0 ≤ id ∧ id < 6 then
    some ⟨id.toNat, by have h1 := h.1; have h2 := h.2; show id.toNat < 6; omega⟩
  else none

/-- The field `sizeOfNeighborhoodConnections`. -/
def sizeOfNeighborhoodConnections (s : t_jit_boids3d F) : Nat :=
  s.neighborhoodConnections.length

/-! ## Helper methods -/

/-- `NormalizeVelocity`: divides by the length unless the length is zero. -/
def NormalizeVelocity (H : Host F) (direction : Vec3 F) : Vec3 F :=
  let hypot := H.sqrt (direction.x * direction.x + direction.y * direction.y
    + direction.z * direction.z)
  if hypot ≠ 0 then
    { x := direction.x / hypot, y := direction.y / hypot, z := direction.z / hypot }
  else direction

/-- `RandomInt`, with `r` the value returned by `jit_rand()`. -/
def RandomInt (r : Int) (minRange maxRange : F) : F :=
  let t : F := ((r % 65536 : Int) : F) / 65535
  t * (maxRange - minRange) + minRange

/-- `DistSqrToPt`: squared distance between two points. -/
def DistSqrToPt (firstPoint secondPoint : Vec3 F) : F :=
  let a := firstPoint.x - secondPoint.x
  let b := firstPoint.y - secondPoint.y
  let c := firstPoint.z - secondPoint.z
  a * a + b * b + c * c

/-! ## Initialization -/

def kMinSpeed : F := 15 / 100

def kMaxSpeed : F := 25 / 100

def kFlyRectScalingFactor : F := 10

/-- `CalcNumBoids`: the sum of the six tracked counts `boidCount[i]`, accumulated in the
`int boidsCounter`. -/
def CalcNumBoids (s : t_jit_boids3d F) : Int :=
  flockSlots.foldl (fun boidsCounter i => wrap32 (boidsCounter + s.boidCount i)) 0

/-- `InitBoid`, with `r` the value `jit_rand()` returns.  The field `flockID` is left
unset by the C function; it is `0` here and every caller overwrites it. -/
def InitBoid (H : Host F) (s : t_jit_boids3d F) (r : Int) : Boid F × t_jit_boids3d F :=
  let rndAngle : F := RandomInt r 0 360 * s.d2r
  ({ flockID := 0
     age := 0
     globalID := s.newBoidID
     oldPos := s.birthLoc
     newPos := s.birthLoc
     oldDir := { x := 0, y := 0, z := 0 }
     newDir := { x := H.sin rndAngle, y := H.cos rndAngle,
                 z := (H.cos rndAngle + H.sin rndAngle) * (1 / 2) }
     speed := (kMaxSpeed + kMinSpeed) * (1 / 2) },
   { s with newBoidID := s.newBoidID + 1 })

/-- `InitAttractor`.  The field `id` is left unset by the C function; it is `0` here and the
caller overwrites it. -/
def InitAttractor : Attractor F :=
  { loc := { x := 0, y := 0, z := 0 }
    attractorRadius := 0
    id := 0
    onlyAttractedFlockID := -1 }

/-- `InitNeighborhoodLine`: the line record joining two agents. -/
def InitNeighborhoodLine (theBoid theOtherBoid : Boid F) : NeighborLine F :=
  { boidA := theBoid.newPos
    aID := theBoid.globalID
    boidB := theOtherBoid.newPos
    bID := theOtherBoid.globalID
    flockIDA := theBoid.flockID
    flockIDB := theOtherBoid.flockID }

/-- The decimal literal `3.14159...` (99 decimals) written in `jit_boids3d_new`. -/
def piLiteral : F :=
  3141592653589793238462643383279502884197169399375105820974944592307816406286208998628034825342117068
    / 1000000000000000000000000000000000000000000000000000000000000000000000000000000000000000000000000000

/-- `jit_boids3d_new` followed by `InitFlock`.  `jit_object_alloc` returns zero-filled
memory and `kNumBoids == 0` makes `InitFlock` skip every per-flock assignment, so the
per-flock parameters, counts and lists start as zero / `NULL`. -/
def jit_boids3d_new : t_jit_boids3d F :=
  { mode := 0
    number := 0
    numAttractors := 0
    neighbors := 10
    flyrect := { left := -1, right := 1, top := 1, bottom := -1, front := 1, back := -1 }
    flyRectCount := 6
    allowNeighborsFromDiffFlock := 0
    birthLoc := { x := 0, y := 0, z := 0 }
    newBoidID := 0
    boidCount := fun _ => 0
    minspeed := fun _ => 0
    maxspeed := fun _ => 0
    center := fun _ => 0
    attract := fun _ => 0
    «match» := fun _ => 0
    sepwt := fun _ => 0
    sepdist := fun _ => 0
    speed := fun _ => 0
    inertia := fun _ => 0
    accel := fun _ => 0
    neighborRadius := fun _ => 0
    age := fun _ => 0
    tempCenterPt := { x := 0, y := 0, z := 0 }
    neighborhoodConnections := []
    drawingNeighbors := 0
    flockLL := fun _ => []
    attractorLL := []
    d2r := piLiteral / 180
    r2d := 180 / piLiteral }

/-! ## Attribute methods -/

/-- The scan loop of `jit_boids3d_addattractor`: returns `(idAlreadyExists, maxID)`;
the `break` stops the scan at the first attractor holding `newID`. -/
def addattractorScan (newID : Int) : List (Attractor F) → Int → Bool × Int
  | [], maxID => (false, maxID)
  | a :: rest, maxID =>
    let maxID1 := if a.id > maxID then a.id else maxID
    if a.id = newID then (true, maxID1) else addattractorScan newID rest maxID1

/-- `jit_boids3d_addattractor` with `argv[0] = newID`; the return value is always
`JIT_ERR_NONE`. -/
def jit_boids3d_addattractor (s : t_jit_boids3d F) (newID : Int) : t_jit_boids3d F :=
  let newAttractor : Attractor F :=
    if newID = 0 then { (InitAttractor : Attractor F) with onlyAttractedFlockID := 0 }
    else InitAttractor
  let s1 := { s with numAttractors := s.numAttractors + 1 }
  match s.attractorLL with
  | [] => { s1 with attractorLL := [{ newAttractor with id := newID }] }
  | a :: rest =>
    let scan := addattractorScan newID (a :: rest) 0
    let assigned := if scan.1 = false then newID else scan.2 + 1
    { s1 with attractorLL := { newAttractor with id := assigned } :: a :: rest }

/-- The deletion loop of `jit_boids3d_number` on one flock:
`while (boidChanges[i] < 0) { if (!toBeDeleted) break; ... boidCount[i]--; boidChanges[i]++; }`.
Returns the remaining list and the updated count. -/
def deleteBoids : Int → List (Boid F) → Int → List (Boid F) × Int
  | _, [], count => ([], count)
  | changes, b :: rest, count =>
    if changes < 0 then deleteBoids (changes + 1) rest (count - 1) else (b :: rest, count)

/-- The creation loop of `jit_boids3d_number` on flock `i`, run `n` times. -/
def addBoids (H : Host F) (i : Fin MAX_FLOCKS) :
    Nat → t_jit_boids3d F → (Nat → Int) → t_jit_boids3d F × (Nat → Int)
  | 0, s, rng => (s, rng)
  | n + 1, s, rng =>
    let created := InitBoid H s (rng 0)
    let newBoid : Boid F := { created.1 with flockID := ((i : Nat) : Int) }
    let s1 := created.2
    let s2 := { s1 with
      flockLL := Function.update s1.flockLL i (newBoid :: s1.flockLL i)
      boidCount := Function.update s1.boidCount i (s1.boidCount i + 1) }
    addBoids H i n s2 (fun k => rng (k + 1))

/-- One iteration of the loop `for (i ...)` that applies the changes of
`jit_boids3d_number` to flock `i`. -/
def numberFlock (H : Host F) (boidChanges : Fin MAX_FLOCKS → Int)
    (acc : t_jit_boids3d F × (Nat → Int)) (i : Fin MAX_FLOCKS) :
    t_jit_boids3d F × (Nat → Int) :=
  if boidChanges i = 0 then acc
  else if boidChanges i < 0 then
    let r := deleteBoids (boidChanges i) (acc.1.flockLL i) (acc.1.boidCount i)
    ({ acc.1 with
        flockLL := Function.update acc.1.flockLL i r.1
        boidCount := Function.update acc.1.boidCount i r.2 }, acc.2)
  else addBoids H i (boidChanges i).toNat acc.1 acc.2

/-- The first loop of `jit_boids3d_number`: returns `(changed, totalChanges)`.
`totalChanges += boidChanges[i]` is an addition of `int`s. -/
def numberTotals (boidChanges : Fin MAX_FLOCKS → Int) : Bool × Int :=
  flockSlots.foldl
    (fun acc i => if boidChanges i ≠ 0 then (true, wrap32 (acc.2 + boidChanges i)) else acc)
    (false, 0)

/-- The guard `changed == 0 || totalChanges+CalcNumBoids(flockPtr)>kMaxNumBoids`; the sum
is an addition of `int`s. -/
def numberRejected (s : t_jit_boids3d F) (boidChanges : Fin MAX_FLOCKS → Int) : Prop :=
  (numberTotals boidChanges).1 = false ∨
    wrap32 ((numberTotals boidChanges).2 + CalcNumBoids s) > kMaxNumBoids

instance (s : t_jit_boids3d F) (boidChanges : Fin MAX_FLOCKS → Int) :
    Decidable (numberRejected s boidChanges) := by
  unfold numberRejected; infer_instance

/-- `jit_boids3d_number` with `boidChanges` the six values stored in the array
`int boidChanges[]` from `argv[0..5]` (`argv[6]` is read into `newNumBoids` and never
used).  Returns the new object and the rest of the random stream; the C return value is `0`
on every path. -/
def jit_boids3d_number (H : Host F) (s : t_jit_boids3d F) (boidChanges : Fin MAX_FLOCKS → Int)
    (rng : Nat → Int) : t_jit_boids3d F × (Nat → Int) :=
  if numberRejected s boidChanges then (s, rng)
  else flockSlots.foldl (numberFlock H boidChanges) (s, rng)

/-! ## The simulation step -/

/-- `SeekPoint`: normalized direction from the agent's `oldPos` to `seekPt`. -/
def SeekPoint (H : Host F) (theBoid : Boid F) (seekPt : Vec3 F) : Vec3 F :=
  NormalizeVelocity H
    { x := seekPt.x - theBoid.oldPos.x
      y := seekPt.y - theBoid.oldPos.y
      z := seekPt.z - theBoid.oldPos.z }

/-- The loop of `SeekAttractors`; `seekDir` is updated with `+=` and is not cleared. -/
def seekAttractorsLoop (H : Host F) (theBoid : Boid F) :
    List (Attractor F) → Vec3 F → Vec3 F
  | [], seekDir => seekDir
  | a :: rest, seekDir =>
    let dist := H.sqrt (DistSqrToPt a.loc theBoid.oldPos)
    if dist < a.attractorRadius ∧
        (a.onlyAttractedFlockID = -1 ∨ a.onlyAttractedFlockID = theBoid.flockID) then
      seekAttractorsLoop H theBoid rest
        { x := seekDir.x + (a.loc.x - theBoid.oldPos.x)
          y := seekDir.y + (a.loc.y - theBoid.oldPos.y)
          z := seekDir.z + (a.loc.z - theBoid.oldPos.z) }
    else seekAttractorsLoop H theBoid rest seekDir

/-- `SeekAttractors`; `seekDir` is the caller's array as it stands on entry. -/
def SeekAttractors (H : Host F) (s : t_jit_boids3d F) (theBoid : Boid F)
    (seekDir : Vec3 F) : Vec3 F :=
  NormalizeVelocity H (seekAttractorsLoop H theBoid s.attractorLL seekDir)

/-- `AvoidWalls` applied to `wallVel = theBoid->newDir`; returns the new `newDir`.
`f` is the slot `theBoid->flockID`. -/
def AvoidWalls (s : t_jit_boids3d F) (theBoid : Boid F) (f : Fin MAX_FLOCKS) : Vec3 F :=
  let wallVel := theBoid.newDir
  let testPoint : Vec3 F :=
    { x := theBoid.oldPos.x + theBoid.newDir.x * (theBoid.speed * (s.speed f / 100))
      y := theBoid.oldPos.y + theBoid.newDir.y * (theBoid.speed * (s.speed f / 100))
      z := theBoid.oldPos.z + theBoid.newDir.z * (theBoid.speed * (s.speed f / 100)) }
  { x :=
      if testPoint.x < s.flyrect.left * kFlyRectScalingFactor then |wallVel.x|
      else if testPoint.x > s.flyrect.right * kFlyRectScalingFactor then - |wallVel.x|
      else wallVel.x
    y :=
      if testPoint.y > s.flyrect.top * kFlyRectScalingFactor then - |wallVel.y|
      else if testPoint.y < s.flyrect.bottom * kFlyRectScalingFactor then |wallVel.y|
      else wallVel.y
    z :=
      if testPoint.z > s.flyrect.front * kFlyRectScalingFactor then - |wallVel.z|
      else if testPoint.z < s.flyrect.back * kFlyRectScalingFactor then |wallVel.z|
      else wallVel.z }

/-- The half-plane test of `InFront` on one coordinate plane (`u` horizontal, `v`
vertical): direction `(du, dv)`, own position `(pu, pv)`, neighbor `(nu, nv)`. -/
def inFrontPlane (du dv pu pv nu nv : F) : Bool :=
  if du ≠ 0 then
    let grad := -dv / du
    let intercept := pv - grad * pu
    if nu ≥ (nv - intercept) / grad then decide (du > 0) else decide (du < 0)
  else if dv > 0 then decide (nv > pv)
  else decide (nv < pv)

/-- `InFront`: the xy-plane test, then (label `next`) the yz-plane test. -/
def InFront (theBoid neighbor : Boid F) : Bool :=
  if inFrontPlane theBoid.oldDir.x theBoid.oldDir.y theBoid.oldPos.x theBoid.oldPos.y
      neighbor.oldPos.x neighbor.oldPos.y = false then false
  else
    inFrontPlane theBoid.oldDir.y theBoid.oldDir.z theBoid.oldPos.y theBoid.oldPos.z
      neighbor.oldPos.y neighbor.oldPos.z

/-- The test of the inner `for` loop: a stored line already joins the two agents. -/
def lineAlreadyExists (lines : List (NeighborLine F)) (theBoid iterator : Boid F) : Bool :=
  lines.any fun l =>
    decide ((l.bID = theBoid.globalID ∧ l.aID = iterator.globalID) ∨
      (l.aID = theBoid.globalID ∧ l.bID = iterator.globalID))

/-- The body of the `while (iterator)` loop of `CalcFlockCenterAndNeighborVel` for one
scanned agent `iterator`; `f` is the slot `theBoid->flockID`. -/
def scanBoid (H : Host F) (s : t_jit_boids3d F) (theBoid : Boid F) (f : Fin MAX_FLOCKS)
    (acc : NeighborScan F) (iterator : Boid F) : NeighborScan F :=
  let dist := H.sqrt (DistSqrToPt theBoid.oldPos iterator.oldPos)
  if dist < s.neighborRadius f ∧ dist > 0 ∧ acc.neighborsCount < kMaxNeighbors then
    if s.allowNeighborsFromDiffFlock = 0 ∧ iterator.flockID ≠ theBoid.flockID then acc
    else
      let sep : Vec3 F :=
        if dist < s.sepdist f then
          { x := acc.separationNeighborVel.x + (theBoid.oldPos.x - iterator.oldPos.x) / dist
            y := acc.separationNeighborVel.y + (theBoid.oldPos.y - iterator.oldPos.y) / dist
            z := acc.separationNeighborVel.z + (theBoid.oldPos.z - iterator.oldPos.z) / dist }
        else acc.separationNeighborVel
      let avoidSpeed :=
        if InFront theBoid iterator then acc.avoidSpeed / (s.accel f / 100)
        else acc.avoidSpeed * (s.accel f / 100)
      let lines :=
        if acc.lines.length < kMaxNeighborLines ∧ s.drawingNeighbors ≠ 0 then
          if lineAlreadyExists acc.lines theBoid iterator then acc.lines
          else acc.lines ++ [InitNeighborhoodLine theBoid iterator]
        else acc.lines
      { totalH := acc.totalH + iterator.oldPos.x
        totalV := acc.totalV + iterator.oldPos.y
        totalD := acc.totalD + iterator.oldPos.z
        matchNeighborVel :=
          { x := acc.matchNeighborVel.x + iterator.oldDir.x
            y := acc.matchNeighborVel.y + iterator.oldDir.y
            z := acc.matchNeighborVel.z + iterator.oldDir.z }
        separationNeighborVel := sep
        avoidSpeed := avoidSpeed
        neighborsCount := acc.neighborsCount + 1 + 1
        lines := lines }
  else acc

/-- Every agent of every flock in scan order (flock 0 first, each list head first). -/
def allBoids (s : t_jit_boids3d F) : List (Boid F) :=
  flockSlots.flatMap s.flockLL

/-- `CalcFlockCenterAndNeighborVel`.  `separationNeighborVel` is the caller's array as
it stands on entry (`matchNeighborVel` is cleared by the function).  Returns the object
(with `tempCenterPt` and the adjacency store updated), `matchNeighborVel` and
`separationNeighborVel`. -/
def CalcFlockCenterAndNeighborVel (H : Host F) (s : t_jit_boids3d F) (theBoid : Boid F)
    (f : Fin MAX_FLOCKS) (separationNeighborVel : Vec3 F) :
    t_jit_boids3d F × Vec3 F × Vec3 F :=
  let scan := (allBoids s).foldl (scanBoid H s theBoid f)
    { totalH := 0, totalV := 0, totalD := 0
      matchNeighborVel := { x := 0, y := 0, z := 0 }
      separationNeighborVel := separationNeighborVel
      avoidSpeed := theBoid.speed
      neighborsCount := 0
      lines := s.neighborhoodConnections }
  let center : Vec3 F :=
    if scan.neighborsCount > 0 then
      { x := scan.totalH / (scan.neighborsCount : F)
        y := scan.totalV / (scan.neighborsCount : F)
        z := scan.totalD / (scan.neighborsCount : F) }
    else theBoid.oldPos
  ({ s with tempCenterPt := center, neighborhoodConnections := scan.lines },
    NormalizeVelocity H scan.matchNeighborVel,
    NormalizeVelocity H scan.separationNeighborVel)

/-- The heading composed from inertia and the four weighted steering vectors, before it
is normalized (the three assignments to `iterator->newDir`). -/
def composeHeading (s : t_jit_boids3d F) (f : Fin MAX_FLOCKS) (oldDir : Vec3 F)
    (L : FlightLocals F) : Vec3 F :=
  { x := s.inertia f * oldDir.x +
      (s.center f * L.goCenterVel.x + s.attract f * L.goAttractVel.x +
        s.«match» f * L.matchNeighborVel.x + s.sepwt f * L.separationNeighborVel.x) /
        s.inertia f
    y := s.inertia f * oldDir.y +
      (s.center f * L.goCenterVel.y + s.attract f * L.goAttractVel.y +
        s.«match» f * L.matchNeighborVel.y + s.sepwt f * L.separationNeighborVel.y) /
        s.inertia f
    z := s.inertia f * oldDir.z +
      (s.center f * L.goCenterVel.z + s.attract f * L.goAttractVel.z +
        s.«match» f * L.matchNeighborVel.z + s.sepwt f * L.separationNeighborVel.z) /
        s.inertia f }

/-- The speed bounded by `minspeed` and `maxspeed`. -/
def clampSpeed (s : t_jit_boids3d F) (f : Fin MAX_FLOCKS) (newSpeed : F) : F :=
  if newSpeed ≥ s.minspeed f ∧ newSpeed ≤ s.maxspeed f then newSpeed
  else if newSpeed > s.maxspeed f then s.maxspeed f
  else s.minspeed f

/-- The part of the `while` body of `FlightStep` from the snapshot of position and heading
to the calls of `CalcFlockCenterAndNeighborVel`, `SeekPoint` and `SeekAttractors`, for a
surviving agent `b` (its age already incremented) of slot `i`, stored between `done` and
`rest` in flock `i`'s list.  Returns the snapshotted agent, the object after the neighbor
scan, and the locals. -/
def steerPrepare (H : Host F) (i f : Fin MAX_FLOCKS) (done : List (Boid F)) (b : Boid F)
    (rest : List (Boid F)) (s : t_jit_boids3d F) (L : FlightLocals F) :
    Boid F × t_jit_boids3d F × FlightLocals F :=
  let b1 : Boid F := { b with oldPos := b.newPos, oldDir := b.newDir }
  let s1 := { s with flockLL := Function.update s.flockLL i (done ++ b1 :: rest) }
  let nb := CalcFlockCenterAndNeighborVel H s1 b1 f L.separationNeighborVel
  let s2 := nb.1
  let L1 : FlightLocals F :=
    { goCenterVel := SeekPoint H b1 s2.tempCenterPt
      goAttractVel := SeekAttractors H s2 b1 L.goAttractVel
      matchNeighborVel := nb.2.1
      separationNeighborVel := nb.2.2 }
  (b1, s2, L1)

/-- The heading composed for the agent in this tick, before it is normalized. -/
def steerComposed (H : Host F) (i f : Fin MAX_FLOCKS) (done : List (Boid F)) (b : Boid F)
    (rest : List (Boid F)) (s : t_jit_boids3d F) (L : FlightLocals F) : Vec3 F :=
  let p := steerPrepare H i f done b rest s L
  composeHeading p.2.1 f p.1.oldDir p.2.2

/-- The part of the `while` body of `FlightStep` that follows the age test, for a
surviving agent `b` (its age already incremented) of slot `i`, stored between `done` and
`rest` in flock `i`'s list; `f` is the slot `b.flockID`.  Returns the updated agent, the
object with that agent stored in place, and the locals. -/
def steerBoid (H : Host F) (i f : Fin MAX_FLOCKS) (done : List (Boid F)) (b : Boid F)
    (rest : List (Boid F)) (s : t_jit_boids3d F) (L : FlightLocals F) :
    Boid F × t_jit_boids3d F × FlightLocals F :=
  let p := steerPrepare H i f done b rest s L
  let b1 := p.1
  let s2 := p.2.1
  let L1 := p.2.2
  let composed := steerComposed H i f done b rest s L
  let newSpeed := H.sqrt (composed.x ^ 2 + composed.y ^ 2 + composed.z ^ 2)
  let b2 : Boid F :=
    { b1 with newDir := NormalizeVelocity H composed, speed := clampSpeed s2 f newSpeed }
  let b3 : Boid F := { b2 with newDir := AvoidWalls s2 b2 f }
  let b4 : Boid F :=
    { b3 with newPos :=
        { x := b3.newPos.x + b3.newDir.x * (1 / 2 * b3.speed) * (s2.speed f / 100)
          y := b3.newPos.y + b3.newDir.y * (1 / 2 * b3.speed) * (s2.speed f / 100)
          z := b3.newPos.z + b3.newDir.z * (1 / 2 * b3.speed) * (s2.speed f / 100) } }
  (b4, { s2 with flockLL := Function.update s2.flockLL i (done ++ b4 :: rest) }, L1)

/-- The `while (iterator)` loop of `FlightStep` on flock `i`: `done` are the agents of
the list already visited and kept, the explicit list argument those still to visit; the
object's list for slot `i` is `done` followed by them.  `none` when an agent's `flockID`
is not a valid array index. -/
def flightLoop (H : Host F) (i : Fin MAX_FLOCKS) :
    List (Boid F) → List (Boid F) → t_jit_boids3d F → FlightLocals F →
      Option (t_jit_boids3d F × FlightLocals F)
  | [], _, s, L => some (s, L)
  | b :: rest, done, s, L =>
    let b1 : Boid F := { b with age := b.age + 1 }
    match flockIndex b1.flockID with
    | none => none
    | some f =>
      if ((b1.age : Int) : F) > s.age f ∧ s.age f ≠ -1 then
        flightLoop H i rest done
          { s with
            flockLL := Function.update s.flockLL i (done ++ rest)
            boidCount := Function.update s.boidCount i (s.boidCount i - 1) } L
      else
        let r := steerBoid H i f done b1 rest s L
        flightLoop H i rest (done ++ [r.1]) r.2.1 r.2.2

/-- One iteration of the loop over flocks in `FlightStep`. -/
def flightFlock (H : Host F) (acc : Option (t_jit_boids3d F × FlightLocals F))
    (i : Fin MAX_FLOCKS) : Option (t_jit_boids3d F × FlightLocals F) :=
  match acc with
  | none => none
  | some (s, L) => flightLoop H i (s.flockLL i) [] s L

/-- `FlightStep`: one tick. -/
def FlightStep (H : Host F) (s : t_jit_boids3d F) : Option (t_jit_boids3d F) :=
  let zero : Vec3 F := { x := 0, y := 0, z := 0 }
  let L : FlightLocals F :=
    { goCenterVel := zero, goAttractVel := zero, matchNeighborVel := zero,
      separationNeighborVel := zero }
  (flockSlots.foldl (flightFlock H) (some ({ s with neighborhoodConnections := [] }, L))).map
    Prod.fst

/-! ## Reachable states -/

/-- States reachable from the initial empty simulation by resize requests
(`jit_boids3d_number`), ticks (`FlightStep`) and, in between, any request that writes no
field of the agent store: the twelve per-flock parameter setters, `birthloc`, the attractor
requests and the host's attribute writes leave `flockLL`, `boidCount` and `newBoidID` as
they are. -/
inductive Reachable (H : Host F) : t_jit_boids3d F → Prop
  | init : Reachable H jit_boids3d_new
  | number (s : t_jit_boids3d F) (boidChanges : Fin MAX_FLOCKS → Int) (rng : Nat → Int) :
      Reachable H s → Reachable H (jit_boids3d_number H s boidChanges rng).1
  | tick (s s1 : t_jit_boids3d F) :
      Reachable H s → FlightStep H s = some s1 → Reachable H s1
  | request (s s1 : t_jit_boids3d F) :
      Reachable H s → s1.flockLL = s.flockLL → s1.boidCount = s.boidCount →
      s1.newBoidID = s.newBoidID → Reachable H s1

/-- The number of live agents over the six flock lists. -/
def totalLive (s : t_jit_boids3d F) : Nat :=
  (allBoids s).length

/-! ## Specification vocabulary -/

/-- Every field except the agent store, the ID counter and the per-tick scratch fields
(`tempCenterPt`, the adjacency store) is the same in `s` and `s1`. -/
def Frame (s s1 : t_jit_boids3d F) : Prop :=
  s1 = { s with
    flockLL := s1.flockLL, boidCount := s1.boidCount, newBoidID := s1.newBoidID,
    tempCenterPt := s1.tempCenterPt, neighborhoodConnections := s1.neighborhoodConnections }

/-- The effect of a resize by `d` on slot `i`, from `s` to `r`: `min (-d) n` agents are
dropped from the head, `d` fresh agents are put in front. -/
def SlotResized (d : Int) (i : Fin MAX_FLOCKS) (s r : t_jit_boids3d F) : Prop :=
  ∃ news : List (Boid F),
    r.flockLL i = news ++ (s.flockLL i).drop (min (-d).toNat (s.flockLL i).length) ∧
    news.length = d.toNat ∧
    r.boidCount i = s.boidCount i + d.toNat - min (-d).toNat (s.flockLL i).length ∧
    (∀ b ∈ news, b.age = 0 ∧ b.flockID = ((i : Nat) : Int) ∧ b.oldPos = s.birthLoc ∧ b.newPos = s.birthLoc ∧
      s.newBoidID ≤ b.globalID ∧ b.globalID < r.newBoidID) ∧
    news.Pairwise (fun a b => b.globalID < a.globalID)

/-- The age test of `FlightStep` passes for agent `b` (whose age is still the pre-tick
one) under the per-flock maximum ages `maxAge`: it is kept. -/
def survivesTick (maxAge : Fin MAX_FLOCKS → F) (b : Boid F) : Bool :=
  match flockIndex b.flockID with
  | none => true
  | some f => !decide ((((b.age + 1 : Int)) : F) > maxAge f ∧ maxAge f ≠ -1)

/-- Agent `b1` is what the steering part of a tick on slot `i` makes of the pre-tick agent
`b`, at some moment of a tick started in `s`. -/
def SteeredFrom (H : Host F) (s : t_jit_boids3d F) (i : Fin MAX_FLOCKS) (b b1 : Boid F) :
    Prop :=
  ∃ (f : Fin MAX_FLOCKS) (done rest : List (Boid F)) (s0 : t_jit_boids3d F)
    (L0 : FlightLocals F),
    flockIndex b.flockID = some f ∧ Frame s s0 ∧
      b1 = (steerBoid H i f done { b with age := b.age + 1 } rest s0 L0).1

/-- The effect of one tick on slot `i`, from `s` to `r`: the agents that pass the age test
are kept in order, each replaced by its steered successor, and the tracked count drops by
the number of agents removed. -/
def TickedSlot (H : Host F) (s r : t_jit_boids3d F) (i : Fin MAX_FLOCKS) : Prop :=
  List.Forall₂ (SteeredFrom H s i) ((s.flockLL i).filter (survivesTick s.age)) (r.flockLL i) ∧
    r.boidCount i = s.boidCount i - (s.flockLL i).length + (r.flockLL i).length

/-- The squared Euclidean length of a vector. -/
def normSq (v : Vec3 F) : F := v.x * v.x + v.y * v.y + v.z * v.z

/-- The store invariant kept by resize requests and ticks: tracked counts equal list
lengths, every list is in strictly decreasing order of global ID (newest first), every
agent carries the flock ID of its slot and an ID below the counter, and agents of different
slots have different IDs. -/
def StoreInv (s : t_jit_boids3d F) : Prop :=
  (∀ i, s.boidCount i = ((s.flockLL i).length : Int)) ∧
  (∀ i, (s.flockLL i).Pairwise (fun a b => b.globalID < a.globalID)) ∧
  (∀ i, ∀ b ∈ s.flockLL i, b.flockID = ((i : Nat) : Int) ∧ b.globalID < s.newBoidID) ∧
  (∀ i j, i ≠ j → ∀ a ∈ s.flockLL i, ∀ b ∈ s.flockLL j, a.globalID ≠ b.globalID)

/-- The survival condition of an agent of slot `i` in one tick: its age plus one does not
exceed the slot's maximum age, or the maximum age is `-1`. -/
def keptByAge (s : t_jit_boids3d F) (i : Fin MAX_FLOCKS) (b : Boid F) : Bool :=
  decide ((((b.age + 1 : Int)) : F) ≤ s.age i ∨ s.age i = -1)

/-- Example agent: flock 0, the given age and global ID, at rest at the origin. -/
def demoBoid (age globalID : Int) : Boid F :=
  { flockID := 0
    age := age
    globalID := globalID
    oldPos := { x := 0, y := 0, z := 0 }
    newPos := { x := 0, y := 0, z := 0 }
    oldDir := { x := 0, y := 0, z := 0 }
    newDir := { x := 1, y := 0, z := 0 }
    speed := 0 }

/-- Example state: the initial simulation with maximum age 2 and inertia 1 in every flock
and two agents in flock 0, the newer one (ID 1) of age 2 and the older one (ID 0) of
age 0. -/
def demoAgingState : t_jit_boids3d F :=
  { (jit_boids3d_new : t_jit_boids3d F) with
    age := fun _ => 2
    inertia := fun _ => 1
    newBoidID := 2
    boidCount := fun i => if i = 0 then 2 else 0
    flockLL := fun i => if i = 0 then [demoBoid 2 1, demoBoid 0 0] else [] }

/-! ## Attractor and parameter requests -/

/-- The error code `JIT_ERR_NONE` of the host SDK (success). -/
def JIT_ERR_NONE : Int := 0

/-- The host SDK macro `MAX(a, b)`, `((a) > (b) ? (a) : (b))`. -/
def MAX (a b : F) : F := if a > b then a else b

/-- The floor `0.000001` written in the parameter setters. -/
def kParamFloor : F := 1 / 1000000

/-- The value returned by `jit_boids3d_addattractor`: both `return` statements return
`JIT_ERR_NONE`. -/
def jit_boids3d_addattractor_err (s : t_jit_boids3d F) (_newID : Int) : Int :=
  match s.attractorLL with
  | [] => JIT_ERR_NONE
  | _ :: _ => JIT_ERR_NONE

/-- The loop of `jit_boids3d_attractpt`: the first attractor holding `attractorID` gets the
new location and radius, then the function returns. -/
def attractptLoop (attractorID : Int) (loc : Vec3 F) (radius : F) :
    List (Attractor F) → List (Attractor F)
  | [] => []
  | a :: rest =>
    if attractorID = a.id then { a with loc := loc, attractorRadius := radius } :: rest
    else a :: attractptLoop attractorID loc radius rest

/-- `jit_boids3d_attractpt` with `argv[0..2] = loc`, `argv[3] = radius` and
`(int)argv[4] = attractorID`.  Returns the error code and the object. -/
def jit_boids3d_attractpt (s : t_jit_boids3d F) (loc : Vec3 F) (radius : F)
    (attractorID : Int) : Int × t_jit_boids3d F :=
  (JIT_ERR_NONE, { s with attractorLL := attractptLoop attractorID loc radius s.attractorLL })

/-- The loop of `jit_boids3d_deleteattractor`: unlinks the first attractor holding
`attractorID`; `none` when the loop ends without finding one. -/
def deleteattractorScan (attractorID : Int) : List (Attractor F) → Option (List (Attractor F))
  | [] => none
  | a :: rest =>
    if a.id = attractorID then some rest
    else (deleteattractorScan attractorID rest).map (fun l => a :: l)

/-- `jit_boids3d_deleteattractor` with `argv[0] = attractorID`.  After unlinking, the count
is decremented and the list is set to `NULL` when the count is `<= 0`.  Returns the error
code and the object. -/
def jit_boids3d_deleteattractor (s : t_jit_boids3d F) (attractorID : Int) :
    Int × t_jit_boids3d F :=
  match deleteattractorScan attractorID s.attractorLL with
  | none => (JIT_ERR_NONE, s)
  | some l =>
    (JIT_ERR_NONE,
      { s with
        attractorLL := if s.numAttractors - 1 ≤ 0 then [] else l
        numAttractors := s.numAttractors - 1 })

/-- `jit_boids3d_nradius` with `argv[0] = v`, `(int)argv[1] = flockID`.  Like every setter
below it writes `array[flockID]` without a range check: `none` when `flockID` is not a
valid index. -/
def jit_boids3d_nradius (s : t_jit_boids3d F) (v : F) (flockID : Int) :
    Option (Int × t_jit_boids3d F) :=
  match flockIndex flockID with
  | none => none
  | some f =>
    some (JIT_ERR_NONE, { s with neighborRadius := Function.update s.neighborRadius f (MAX v 0) })

/-- `jit_boids3d_minspeed`. -/
def jit_boids3d_minspeed (s : t_jit_boids3d F) (v : F) (flockID : Int) :
    Option (Int × t_jit_boids3d F) :=
  match flockIndex flockID with
  | none => none
  | some f =>
    some (JIT_ERR_NONE, { s with minspeed := Function.update s.minspeed f (MAX v kParamFloor) })

/-- `jit_boids3d_maxspeed`. -/
def jit_boids3d_maxspeed (s : t_jit_boids3d F) (v : F) (flockID : Int) :
    Option (Int × t_jit_boids3d F) :=
  match flockIndex flockID with
  | none => none
  | some f =>
    some (JIT_ERR_NONE, { s with maxspeed := Function.update s.maxspeed f (MAX v kParamFloor) })

/-- `jit_boids3d_center`. -/
def jit_boids3d_center (s : t_jit_boids3d F) (v : F) (flockID : Int) :
    Option (Int × t_jit_boids3d F) :=
  match flockIndex flockID with
  | none => none
  | some f =>
    some (JIT_ERR_NONE, { s with center := Function.update s.center f (MAX v kParamFloor) })

/-- `jit_boids3d_attract`. -/
def jit_boids3d_attract (s : t_jit_boids3d F) (v : F) (flockID : Int) :
    Option (Int × t_jit_boids3d F) :=
  match flockIndex flockID with
  | none => none
  | some f =>
    some (JIT_ERR_NONE, { s with attract := Function.update s.attract f (MAX v kParamFloor) })

/-- `jit_boids3d_match`. -/
def jit_boids3d_match (s : t_jit_boids3d F) (v : F) (flockID : Int) :
    Option (Int × t_jit_boids3d F) :=
  match flockIndex flockID with
  | none => none
  | some f =>
    some (JIT_ERR_NONE, { s with «match» := Function.update s.«match» f (MAX v kParamFloor) })

/-- `jit_boids3d_sepwt`. -/
def jit_boids3d_sepwt (s : t_jit_boids3d F) (v : F) (flockID : Int) :
    Option (Int × t_jit_boids3d F) :=
  match flockIndex flockID with
  | none => none
  | some f =>
    some (JIT_ERR_NONE, { s with sepwt := Function.update s.sepwt f (MAX v kParamFloor) })

/-- `jit_boids3d_sepdist`. -/
def jit_boids3d_sepdist (s : t_jit_boids3d F) (v : F) (flockID : Int) :
    Option (Int × t_jit_boids3d F) :=
  match flockIndex flockID with
  | none => none
  | some f =>
    some (JIT_ERR_NONE, { s with sepdist := Function.update s.sepdist f (MAX v kParamFloor) })

/-- `jit_boids3d_speed`. -/
def jit_boids3d_speed (s : t_jit_boids3d F) (v : F) (flockID : Int) :
    Option (Int × t_jit_boids3d F) :=
  match flockIndex flockID with
  | none => none
  | some f =>
    some (JIT_ERR_NONE, { s with speed := Function.update s.speed f (MAX v kParamFloor) })

/-- `jit_boids3d_inertia`: exactly `0` is replaced by `0.000001`, every other value is
stored as it is. -/
def jit_boids3d_inertia (s : t_jit_boids3d F) (val : F) (flockID : Int) :
    Option (Int × t_jit_boids3d F) :=
  match flockIndex flockID with
  | none => none
  | some f =>
    if val = 0 then
      some (JIT_ERR_NONE, { s with inertia := Function.update s.inertia f kParamFloor })
    else some (JIT_ERR_NONE, { s with inertia := Function.update s.inertia f val })

/-- `jit_boids3d_accel`. -/
def jit_boids3d_accel (s : t_jit_boids3d F) (v : F) (flockID : Int) :
    Option (Int × t_jit_boids3d F) :=
  match flockIndex flockID with
  | none => none
  | some f =>
    some (JIT_ERR_NONE, { s with accel := Function.update s.accel f (MAX v kParamFloor) })

/-- `jit_boids3d_age`: the value is stored without clamping. -/
def jit_boids3d_age (s : t_jit_boids3d F) (v : F) (flockID : Int) :
    Option (Int × t_jit_boids3d F) :=
  match flockIndex flockID with
  | none => none
  | some f => some (JIT_ERR_NONE, { s with age := Function.update s.age f v })

/-- Attractor stores reachable from an empty store (empty list, count 0) by add, delete and
move/update requests. -/
inductive AttractorReachable : t_jit_boids3d F → Prop
  | empty (s : t_jit_boids3d F) :
      s.attractorLL = [] → s.numAttractors = 0 → AttractorReachable s
  | add (s : t_jit_boids3d F) (newID : Int) :
      AttractorReachable s → AttractorReachable (jit_boids3d_addattractor s newID)
  | delete (s : t_jit_boids3d F) (attractorID : Int) :
      AttractorReachable s → AttractorReachable (jit_boids3d_deleteattractor s attractorID).2
  | move (s : t_jit_boids3d F) (loc : Vec3 F) (radius : F) (attractorID : Int) :
      AttractorReachable s → AttractorReachable (jit_boids3d_attractpt s loc radius attractorID).2

/-- Example attractor store: the requests add 5, add 1, add 7 on the initial simulation;
its IDs are `[7, 1, 5]`. -/
def demoAttractorStore : t_jit_boids3d F :=
  jit_boids3d_addattractor (jit_boids3d_addattractor (jit_boids3d_addattractor
    (jit_boids3d_new : t_jit_boids3d F) 5) 1) 7

/-! ## Example inputs for the neighbor scan -/

/-- The object `s` with every agent whose `flockID` differs from `fid` removed from the six
lists. -/
def dropOtherFlocks (s : t_jit_boids3d F) (fid : Int) : t_jit_boids3d F :=
  { s with flockLL := fun i => (s.flockLL i).filter (fun b => decide (b.flockID = fid)) }

/-- Example agent of age 0 and speed 0 with the given flock ID, global ID, previous and
current position, previous and current heading. -/
def demoBoidAt (flockID globalID : Int) (oldPos newPos oldDir newDir : Vec3 F) : Boid F :=
  { flockID := flockID
    age := 0
    globalID := globalID
    oldPos := oldPos
    newPos := newPos
    oldDir := oldDir
    newDir := newDir
    speed := 0 }

/-- Example parameters: the initial simulation with immortal agents (`age = -1`) and
inertia 1 in every flock; every other weight, speed and radius is 0, so agents do not
move. -/
def demoParams : t_jit_boids3d F :=
  { (jit_boids3d_new : t_jit_boids3d F) with
    age := fun _ => -1
    inertia := fun _ => 1 }

/-- Example state: flock 0 holds agent 1 at `(1, 0, 0)` and, after it, agent 0 at the
origin, both heading `(1, 0, 0)`; neighbor radius 2; adjacency drawing on. -/
def demoPairState : t_jit_boids3d F :=
  { (demoParams : t_jit_boids3d F) with
    neighborRadius := fun _ => 2
    drawingNeighbors := 1
    newBoidID := 2
    boidCount := fun i => if i = 0 then 2 else 0
    flockLL := fun i =>
      if i = 0 then
        [demoBoidAt 0 1 { x := 1, y := 0, z := 0 } { x := 1, y := 0, z := 0 }
            { x := 1, y := 0, z := 0 } { x := 1, y := 0, z := 0 },
          demoBoidAt 0 0 { x := 0, y := 0, z := 0 } { x := 0, y := 0, z := 0 }
            { x := 1, y := 0, z := 0 } { x := 1, y := 0, z := 0 }]
      else [] }

/-- Example state: one attractor (ID 1, all flocks) at the origin with radius 5, attract
weight 2; flock 0 holds agent 1 at `(1, 0, 0)`, inside the radius, and after it agent 0 at
`(9, 0, 0)`, outside the radius; both head `(1, 0, 0)`. -/
def demoAttractState : t_jit_boids3d F :=
  { (jit_boids3d_attractpt (jit_boids3d_addattractor (demoParams : t_jit_boids3d F) 1)
        { x := 0, y := 0, z := 0 } 5 1).2 with
    attract := fun _ => 2
    newBoidID := 2
    boidCount := fun i => if i = 0 then 2 else 0
    flockLL := fun i =>
      if i = 0 then
        [demoBoidAt 0 1 { x := 1, y := 0, z := 0 } { x := 1, y := 0, z := 0 }
            { x := 1, y := 0, z := 0 } { x := 1, y := 0, z := 0 },
          demoBoidAt 0 0 { x := 9, y := 0, z := 0 } { x := 9, y := 0, z := 0 }
            { x := 1, y := 0, z := 0 } { x := 1, y := 0, z := 0 }]
      else [] }

/-- Example state: cross-flock neighbors allowed, separation weight 2 and separation
distance 2 everywhere; flock 0 (neighbor radius 2) holds agent 0 at the origin, flock 1
(neighbor radius 0) holds agent 1 at `(1, 0, 0)`; both head `(1, 0, 0)`. -/
def demoCarryState : t_jit_boids3d F :=
  { (demoParams : t_jit_boids3d F) with
    allowNeighborsFromDiffFlock := 1
    neighborRadius := fun i => if i = 0 then 2 else 0
    sepdist := fun _ => 2
    sepwt := fun _ => 2
    newBoidID := 2
    boidCount := fun i => if i = 0 then 1 else if i = 1 then 1 else 0
    flockLL := fun i =>
      if i = 0 then
        [demoBoidAt 0 0 { x := 0, y := 0, z := 0 } { x := 0, y := 0, z := 0 }
            { x := 1, y := 0, z := 0 } { x := 1, y := 0, z := 0 }]
      else if i = 1 then
        [demoBoidAt 1 1 { x := 1, y := 0, z := 0 } { x := 1, y := 0, z := 0 }
            { x := 1, y := 0, z := 0 } { x := 1, y := 0, z := 0 }]
      else [] }

/-- Example agent A: ID 0, at rest at the origin (previous and current position), heading
`(1, 0, 0)` before and now. -/
def demoOrderA : Boid F :=
  demoBoidAt 0 0 { x := 0, y := 0, z := 0 } { x := 0, y := 0, z := 0 }
    { x := 1, y := 0, z := 0 } { x := 1, y := 0, z := 0 }

/-- Example agent B: ID 1, now at `(9, 0, 0)` heading `(1, 0, 0)`; its previous position and
heading, left from the tick before, are `(2, 0, 0)` and `(-1, 0, 0)`. -/
def demoOrderB : Boid F :=
  demoBoidAt 0 1 { x := 2, y := 0, z := 0 } { x := 9, y := 0, z := 0 }
    { x := -1, y := 0, z := 0 } { x := 1, y := 0, z := 0 }

/-- Example state: flock 0 holds the given two agents in the given order; neighbor radius 3
and match weight 2. -/
def demoOrderState (first second : Boid F) : t_jit_boids3d F :=
  { (demoParams : t_jit_boids3d F) with
    neighborRadius := fun _ => 3
    «match» := fun _ => 2
    newBoidID := 2
    boidCount := fun i => if i = 0 then 2 else 0
    flockLL := fun i => if i = 0 then [first, second] else [] }

/-- Example agent of the crowd: flock 0, ID `k + 1`, at `(1, 0, 0)`, heading `(1, 0, 0)`. -/
def demoCrowdBoid (k : Nat) : Boid F :=
  demoBoidAt 0 ((k : Int) + 1) { x := 1, y := 0, z := 0 } { x := 1, y := 0, z := 0 }
    { x := 1, y := 0, z := 0 } { x := 1, y := 0, z := 0 }

/-- Example agent: flock 0, ID 101, at `(1, 0, 0)`, heading `(0, 1, 0)`. -/
def demoCrowdLast : Boid F :=
  demoBoidAt 0 101 { x := 1, y := 0, z := 0 } { x := 1, y := 0, z := 0 }
    { x := 0, y := 1, z := 0 } { x := 0, y := 1, z := 0 }

/-- Example state: flock 0 holds agent 0 at the origin, then 100 agents at `(1, 0, 0)`
heading `(1, 0, 0)`, then agent 101 at `(1, 0, 0)` heading `(0, 1, 0)`; neighbor radius 2. -/
def demoCrowdState : t_jit_boids3d F :=
  { (demoParams : t_jit_boids3d F) with
    neighborRadius := fun _ => 2
    newBoidID := 102
    boidCount := fun i => if i = 0 then 102 else 0
    flockLL := fun i =>
      if i = 0 then
        demoOrderA :: ((List.range 100).map demoCrowdBoid ++ [demoCrowdLast])
      else [] }

/-- The neighbor test of the scan apart from the cap: the distance from `theBoid` is below
the neighbor radius of slot `f` and above 0, and the cross-flock rule allows `it`. -/
def qualifies (H : Host F) (s : t_jit_boids3d F) (theBoid : Boid F) (f : Fin MAX_FLOCKS)
    (it : Boid F) : Bool :=
  decide (H.sqrt (DistSqrToPt theBoid.oldPos it.oldPos) < s.neighborRadius f ∧
    H.sqrt (DistSqrToPt theBoid.oldPos it.oldPos) > 0 ∧
    ¬ (s.allowNeighborsFromDiffFlock = 0 ∧ it.flockID ≠ theBoid.flockID))

/-- The agents that pass the neighbor test for `theBoid`, in scan order. -/
def qualifyingNeighbors (H : Host F) (s : t_jit_boids3d F) (theBoid : Boid F)
    (f : Fin MAX_FLOCKS) : List (Boid F) :=
  (allBoids s).filter (qualifies H s theBoid f)

/-- Sum of the previous positions of the listed agents. -/
def sumOldPos (l : List (Boid F)) : Vec3 F :=
  { x := (l.map fun b => b.oldPos.x).sum
    y := (l.map fun b => b.oldPos.y).sum
    z := (l.map fun b => b.oldPos.z).sum }

/-- Sum of the previous headings of the listed agents. -/
def sumOldDir (l : List (Boid F)) : Vec3 F :=
  { x := (l.map fun b => b.oldDir.x).sum
    y := (l.map fun b => b.oldDir.y).sum
    z := (l.map fun b => b.oldDir.z).sum }

/-- Two line records join the same unordered pair of agent IDs. -/
def samePair (l1 l2 : NeighborLine F) : Prop :=
  ({l1.aID, l1.bID} : Finset Int) = {l2.aID, l2.bID}

/-- Modelled from the spec: `speed` is `raw` clamped to `[lo, hi]`: `raw` itself when it
lies in the interval, `hi` when it is larger, `lo` when it is smaller; so it lies in the
interval. -/
def ClampedTo (lo hi raw speed : F) : Prop :=
  (lo ≤ raw ∧ raw ≤ hi → speed = raw) ∧ (hi < raw → speed = hi) ∧ (raw < lo → speed = lo) ∧
    lo ≤ speed ∧ speed ≤ hi

/-- Example state: the initial simulation with the left and right bounds of the flight
rectangle exchanged (`left = 1`, `right = -1`). -/
def demoInvertedRect : t_jit_boids3d F :=
  { (jit_boids3d_new : t_jit_boids3d F) with
    flyrect := { left := 1, right := -1, top := 1, bottom := -1, front := 1, back := -1 } }

/-- Example state: flock 0 holds one agent (ID 0) at the origin with heading `(3, 0, 4)`;
inertia 2, speed bounds `[0, 20]`, no age limit, no attractor. -/
def demoLoneState : t_jit_boids3d F :=
  { (jit_boids3d_new : t_jit_boids3d F) with
    age := fun _ => -1
    inertia := fun _ => 2
    maxspeed := fun _ => 20
    newBoidID := 1
    boidCount := fun i => if i = 0 then 1 else 0
    flockLL := fun i =>
      if i = 0 then
        [demoBoidAt 0 0 { x := 0, y := 0, z := 0 } { x := 0, y := 0, z := 0 }
            { x := 0, y := 0, z := 0 } { x := 3, y := 0, z := 4 }]
      else [] }

/-- Example state: the initial simulation after the request `age -1 0`, which removes the
age limit of flock 0 (the object `jit_boids3d_age` returns). -/
def demoNoAgeLimit : t_jit_boids3d F :=
  { (jit_boids3d_new : t_jit_boids3d F) with
    age := Function.update (jit_boids3d_new : t_jit_boids3d F).age 0 (-1) }

/-- Example state: `demoNoAgeLimit` after the resize request `[+3, 0, 0, 0, 0, 0]`; one tick
from it keeps all three agents. -/
def demoSurvivors (H : Host F) : t_jit_boids3d F :=
  (jit_boids3d_number H demoNoAgeLimit ![3, 0, 0, 0, 0, 0] (fun _ => 0)).1

end defs

end Boids3d

namespace Boids3d

section lemmas

variable {F : Type} [LinearOrderedField F]

set_option linter.unusedSectionVars false

/-! ## Frame lemmas -/

theorem Frame.refl (s : t_jit_boids3d F) : Frame s s := rfl

theorem Frame.trans {s s1 s2 : t_jit_boids3d F} (h1 : Frame s s1) (h2 : Frame s1 s2) :
    Frame s s2 := by
  unfold Frame at *
  cases s; cases s1; cases s2
  simp only [t_jit_boids3d.mk.injEq] at *
  simp_all

theorem Frame.age {s s1 : t_jit_boids3d F} (h : Frame s s1) : s1.age = s.age := by
  have h1 := h
  unfold Frame at h1
  rw [h1]

theorem Frame.birthLoc {s s1 : t_jit_boids3d F} (h : Frame s s1) : s1.birthLoc = s.birthLoc := by
  have h1 := h
  unfold Frame at h1
  rw [h1]

theorem Frame.inertia {s s1 : t_jit_boids3d F} (h : Frame s s1) : s1.inertia = s.inertia := by
  have h1 := h
  unfold Frame at h1
  rw [h1]

/-! ## The resize request -/

theorem wrap32_of_range (x : Int) (h1 : -2147483648 ≤ x) (h2 : x < 2147483648) :
    wrap32 x = x := by
  unfold wrap32
  omega

theorem wrap32_range (x : Int) : -2147483648 ≤ wrap32 x ∧ wrap32 x < 2147483648 := by
  unfold wrap32
  omega

theorem numberTotals_fold (d : Fin MAX_FLOCKS → Int) (l : List (Fin MAX_FLOCKS))
    (c : Bool) (t : Int) :
    (l.foldl (fun (acc : Bool × Int) i =>
        if d i ≠ 0 then (true, wrap32 (acc.2 + d i)) else acc) (c, t)).1
      = (c || l.any (fun i => decide (d i ≠ 0))) := by
  induction l generalizing c t with
  | nil => simp
  | cons i l ih =>
    rw [List.foldl_cons]
    by_cases h : d i = 0
    · rw [if_neg (by simpa using h), ih]
      simp [h]
    · rw [if_pos h, ih]
      simp [h]

/-- Without overflow the first loop of `jit_boids3d_number` computes the sum of the deltas:
`n` bounds the number of deltas already added into `t`. -/
theorem numberTotals_fold_bounded (d : Fin MAX_FLOCKS → Int)
    (hd : ∀ i, -100000000 ≤ d i ∧ d i ≤ 100000000) (l : List (Fin MAX_FLOCKS))
    (c : Bool) (t : Int) (n : Nat)
    (ht : -(n * 100000000 : Int) ≤ t ∧ t ≤ n * 100000000) (hn : n + l.length ≤ 6) :
    (l.foldl (fun (acc : Bool × Int) i =>
        if d i ≠ 0 then (true, wrap32 (acc.2 + d i)) else acc) (c, t)).2
      = t + (l.map d).sum := by
  induction l generalizing c t n with
  | nil => simp
  | cons i l ih =>
    rw [List.foldl_cons]
    have hi := hd i
    simp only [List.length_cons] at hn
    by_cases h : d i = 0
    · rw [if_neg (by simpa using h), ih c t n ht (by omega)]
      simp [h]
    · rw [if_pos h]
      have hw : wrap32 (t + d i) = t + d i := wrap32_of_range _ (by omega) (by omega)
      simp only [hw]
      rw [ih true (t + d i) (n + 1) (by push_cast; omega) (by omega)]
      simp [add_assoc]

theorem mem_flockSlots (i : Fin MAX_FLOCKS) : i ∈ flockSlots := by
  fin_cases i <;> decide

theorem nodup_flockSlots : flockSlots.Nodup := by decide

theorem numberTotals_snd (d : Fin MAX_FLOCKS → Int)
    (hd : ∀ i, -100000000 ≤ d i ∧ d i ≤ 100000000) : (numberTotals d).2 = ∑ i, d i := by
  unfold numberTotals
  rw [numberTotals_fold_bounded d hd flockSlots false 0 0 (by simp) (by decide)]
  simp [flockSlots, Fin.sum_univ_six, add_assoc]

theorem numberTotals_fst (d : Fin MAX_FLOCKS → Int) :
    (numberTotals d).1 = false ↔ ∀ i, d i = 0 := by
  unfold numberTotals
  rw [numberTotals_fold]
  simp only [Bool.false_or, List.any_eq_false, decide_eq_true_eq]
  constructor
  · intro h i
    by_contra hi
    exact h i (mem_flockSlots i) hi
  · intro h i _ hi
    exact hi (h i)

theorem deleteBoids_eq (c : Int) (l : List (Boid F)) (n : Int) :
    deleteBoids c l n
      = (l.drop (min (-c).toNat l.length), n - (min (-c).toNat l.length : Nat)) := by
  induction l generalizing c n with
  | nil => simp [deleteBoids]
  | cons b l ih =>
    unfold deleteBoids
    by_cases h : c < 0
    · rw [if_pos h, ih]
      have h1 : (-c).toNat = (-(c + 1)).toNat + 1 := by omega
      rw [h1, List.length_cons, Nat.succ_min_succ]
      simp only [List.drop_succ_cons, Nat.cast_add, Nat.cast_one]
      refine Prod.ext rfl ?_
      simp only
      omega
    · rw [if_neg h]
      have h1 : (-c).toNat = 0 := by omega
      simp [h1]

theorem addBoids_spec (H : Host F) (i : Fin MAX_FLOCKS) (n : Nat) (s : t_jit_boids3d F)
    (rng : Nat → Int) :
    Frame s (addBoids H i n s rng).1 ∧
    (addBoids H i n s rng).1.newBoidID = s.newBoidID + n ∧
    (∀ j, j ≠ i → (addBoids H i n s rng).1.flockLL j = s.flockLL j ∧
      (addBoids H i n s rng).1.boidCount j = s.boidCount j) ∧
    (addBoids H i n s rng).1.boidCount i = s.boidCount i + n ∧
    ∃ news : List (Boid F),
      (addBoids H i n s rng).1.flockLL i = news ++ s.flockLL i ∧ news.length = n ∧
      (∀ b ∈ news, b.age = 0 ∧ b.flockID = ((i : Nat) : Int) ∧ b.oldPos = s.birthLoc ∧
        b.newPos = s.birthLoc ∧ s.newBoidID ≤ b.globalID ∧ b.globalID < s.newBoidID + n) ∧
      news.Pairwise (fun a b => b.globalID < a.globalID) := by
  induction n generalizing s rng with
  | zero =>
    refine ⟨Frame.refl s, by simp [addBoids], fun j _ => ⟨rfl, rfl⟩, by simp [addBoids],
      [], rfl, rfl, ?_, List.Pairwise.nil⟩
    intro b hb
    cases hb
  | succ n ih =>
    rw [addBoids]
    simp only
    generalize hs2 : ({ (InitBoid H s (rng 0)).2 with
      flockLL := Function.update (InitBoid H s (rng 0)).2.flockLL i
        ({ (InitBoid H s (rng 0)).1 with flockID := ((i : Nat) : Int) } ::
          (InitBoid H s (rng 0)).2.flockLL i)
      boidCount := Function.update (InitBoid H s (rng 0)).2.boidCount i
        ((InitBoid H s (rng 0)).2.boidCount i + 1) } : t_jit_boids3d F) = s2
    have hfr : Frame s s2 := by subst hs2; rfl
    have hid : s2.newBoidID = s.newBoidID + 1 := by subst hs2; rfl
    have hll : s2.flockLL = Function.update s.flockLL i
        ({ (InitBoid H s (rng 0)).1 with flockID := ((i : Nat) : Int) } :: s.flockLL i) := by
      subst hs2; rfl
    have hbc : s2.boidCount = Function.update s.boidCount i (s.boidCount i + 1) := by
      subst hs2; rfl
    obtain ⟨h1, h2, h3, h4, news, h5, h6, h7, h8⟩ := ih s2 (fun k => rng (k + 1))
    refine ⟨hfr.trans h1, ?_, ?_, ?_, news ++ [{ (InitBoid H s (rng 0)).1 with flockID := ((i : Nat) : Int) }],
      ?_, ?_, ?_, ?_⟩
    · rw [h2, hid]; push_cast; ring
    · intro j hj
      rw [(h3 j hj).1, (h3 j hj).2, hll, hbc]
      simp [Function.update_noteq hj]
    · rw [h4, hbc]; simp; ring
    · rw [h5, hll]; simp
    · simp [h6]
    · intro b hb
      rw [List.mem_append] at hb
      rcases hb with hb | hb
      · obtain ⟨a1, a2, a3, a4, a5, a6⟩ := h7 b hb
        rw [hfr.birthLoc] at a3 a4
        rw [hid] at a5 a6
        refine ⟨a1, a2, a3, a4, by omega, by push_cast; omega⟩
      · rw [List.mem_singleton] at hb
        subst hb
        refine ⟨rfl, rfl, rfl, rfl, ?_, ?_⟩
        · show s.newBoidID ≤ s.newBoidID
          exact le_refl _
        · show s.newBoidID < s.newBoidID + ((n + 1 : Nat) : Int)
          push_cast; omega
    · rw [List.pairwise_append]
      refine ⟨h8, List.pairwise_singleton _ _, ?_⟩
      intro a ha b hb
      rw [List.mem_singleton] at hb
      subst hb
      have := (h7 a ha).2.2.2.2.1
      rw [hid] at this
      show s.newBoidID < a.globalID
      omega

theorem numberFlock_spec (H : Host F) (d : Fin MAX_FLOCKS → Int)
    (acc : t_jit_boids3d F × (Nat → Int)) (i : Fin MAX_FLOCKS) :
    Frame acc.1 (numberFlock H d acc i).1 ∧
    acc.1.newBoidID ≤ (numberFlock H d acc i).1.newBoidID ∧
    (∀ j, j ≠ i → (numberFlock H d acc i).1.flockLL j = acc.1.flockLL j ∧
      (numberFlock H d acc i).1.boidCount j = acc.1.boidCount j) ∧
    SlotResized (d i) i acc.1 (numberFlock H d acc i).1 := by
  unfold numberFlock
  by_cases h0 : d i = 0
  · rw [if_pos h0]
    refine ⟨Frame.refl _, le_refl _, fun j _ => ⟨rfl, rfl⟩, [], ?_, ?_, ?_, ?_, List.Pairwise.nil⟩
    · simp [h0]
    · simp [h0]
    · simp [h0]
    · intro b hb; cases hb
  · rw [if_neg h0]
    by_cases hneg : d i < 0
    · rw [if_pos hneg, deleteBoids_eq]
      refine ⟨rfl, le_refl _, ?_, [], ?_, ?_, ?_, ?_, List.Pairwise.nil⟩
      · intro j hj
        simp [Function.update_noteq hj]
      · simp
      · simp only [List.length_nil]; omega
      · have h1 : (d i).toNat = 0 := by omega
        simp [h1]
      · intro b hb; cases hb
    · rw [if_neg hneg]
      obtain ⟨h1, h2, h3, h4, news, h5, h6, h7, h8⟩ :=
        addBoids_spec H i (d i).toNat acc.1 acc.2
      have hm : (-(d i)).toNat = 0 := by omega
      refine ⟨h1, by rw [h2]; omega, h3, news, ?_, h6, ?_, ?_, h8⟩
      · simp [h5, hm]
      · simp [h4, hm]
      · intro b hb
        obtain ⟨a1, a2, a3, a4, a5, a6⟩ := h7 b hb
        exact ⟨a1, a2, a3, a4, a5, by rw [h2]; exact a6⟩

theorem SlotResized.resized_after {d : Int} {i : Fin MAX_FLOCKS} {s s1 s2 : t_jit_boids3d F}
    (h : SlotResized d i s s1) (hl : s2.flockLL i = s1.flockLL i)
    (hc : s2.boidCount i = s1.boidCount i) (hn : s1.newBoidID ≤ s2.newBoidID) :
    SlotResized d i s s2 := by
  obtain ⟨news, h1, h2, h3, h4, h5⟩ := h
  refine ⟨news, by rw [hl, h1], h2, by rw [hc, h3], ?_, h5⟩
  intro b hb
  obtain ⟨a1, a2, a3, a4, a5, a6⟩ := h4 b hb
  exact ⟨a1, a2, a3, a4, a5, lt_of_lt_of_le a6 hn⟩

theorem SlotResized.resized_before {d : Int} {i : Fin MAX_FLOCKS} {s s1 s2 : t_jit_boids3d F}
    (h : SlotResized d i s1 s2) (hl : s1.flockLL i = s.flockLL i)
    (hc : s1.boidCount i = s.boidCount i) (hb : s1.birthLoc = s.birthLoc)
    (hn : s.newBoidID ≤ s1.newBoidID) :
    SlotResized d i s s2 := by
  obtain ⟨news, h1, h2, h3, h4, h5⟩ := h
  refine ⟨news, by rw [← hl, h1], h2, by rw [← hl, ← hc, h3], ?_, h5⟩
  intro b hb1
  obtain ⟨a1, a2, a3, a4, a5, a6⟩ := h4 b hb1
  exact ⟨a1, a2, by rw [← hb, a3], by rw [← hb, a4], le_trans hn a5, a6⟩

theorem numberFold_spec (H : Host F) (d : Fin MAX_FLOCKS → Int) (l : List (Fin MAX_FLOCKS))
    (hl : l.Nodup) (acc : t_jit_boids3d F × (Nat → Int)) :
    Frame acc.1 (l.foldl (numberFlock H d) acc).1 ∧
    acc.1.newBoidID ≤ (l.foldl (numberFlock H d) acc).1.newBoidID ∧
    (∀ j, j ∉ l → (l.foldl (numberFlock H d) acc).1.flockLL j = acc.1.flockLL j ∧
      (l.foldl (numberFlock H d) acc).1.boidCount j = acc.1.boidCount j) ∧
    (∀ i, i ∈ l → SlotResized (d i) i acc.1 (l.foldl (numberFlock H d) acc).1) := by
  induction l generalizing acc with
  | nil =>
    refine ⟨Frame.refl _, le_refl _, fun j _ => ⟨rfl, rfl⟩, ?_⟩
    intro i hi; cases hi
  | cons k l ih =>
    rw [List.nodup_cons] at hl
    obtain ⟨f1, f2, f3, f4⟩ := numberFlock_spec H d acc k
    obtain ⟨g1, g2, g3, g4⟩ := ih hl.2 (numberFlock H d acc k)
    rw [List.foldl_cons]
    refine ⟨f1.trans g1, le_trans f2 g2, ?_, ?_⟩
    · intro j hj
      rw [List.mem_cons, not_or] at hj
      rw [(g3 j hj.2).1, (g3 j hj.2).2]
      exact f3 j hj.1
    · intro i hi
      rw [List.mem_cons] at hi
      rcases hi with hi | hi
      · subst hi
        exact f4.resized_after (g3 i hl.1).1 (g3 i hl.1).2 g2
      · have hik : i ≠ k := fun h => hl.1 (h ▸ hi)
        exact (g4 i hi).resized_before (f3 i hik).1 (f3 i hik).2 f1.birthLoc f2

/-- The effect of an accepted resize request on every slot. -/
theorem number_accepted_spec (H : Host F) (s : t_jit_boids3d F) (d : Fin MAX_FLOCKS → Int)
    (rng : Nat → Int) (hacc : ¬ numberRejected s d) :
    Frame s (jit_boids3d_number H s d rng).1 ∧
    s.newBoidID ≤ (jit_boids3d_number H s d rng).1.newBoidID ∧
    ∀ i, SlotResized (d i) i s (jit_boids3d_number H s d rng).1 := by
  unfold jit_boids3d_number
  rw [if_neg hacc]
  obtain ⟨h1, h2, _, h4⟩ := numberFold_spec H d flockSlots nodup_flockSlots (s, rng)
  exact ⟨h1, h2, fun i => h4 i (mem_flockSlots i)⟩

theorem number_rejected_eq (H : Host F) (s : t_jit_boids3d F) (d : Fin MAX_FLOCKS → Int)
    (rng : Nat → Int) (hrej : numberRejected s d) :
    jit_boids3d_number H s d rng = (s, rng) := by
  unfold jit_boids3d_number
  rw [if_pos hrej]

/-! ## The tick -/

theorem steerBoid_frame (H : Host F) (i f : Fin MAX_FLOCKS) (done : List (Boid F)) (b : Boid F)
    (rest : List (Boid F)) (s : t_jit_boids3d F) (L : FlightLocals F) :
    Frame s (steerBoid H i f done b rest s L).2.1 := rfl

theorem steerBoid_flockLL (H : Host F) (i f : Fin MAX_FLOCKS) (done : List (Boid F))
    (b : Boid F) (rest : List (Boid F)) (s : t_jit_boids3d F) (L : FlightLocals F) :
    (steerBoid H i f done b rest s L).2.1.flockLL
      = Function.update s.flockLL i (done ++ (steerBoid H i f done b rest s L).1 :: rest) := by
  simp [steerBoid, steerPrepare, CalcFlockCenterAndNeighborVel]

theorem steerBoid_boidCount (H : Host F) (i f : Fin MAX_FLOCKS) (done : List (Boid F))
    (b : Boid F) (rest : List (Boid F)) (s : t_jit_boids3d F) (L : FlightLocals F) :
    (steerBoid H i f done b rest s L).2.1.boidCount = s.boidCount := rfl

theorem steerBoid_newBoidID (H : Host F) (i f : Fin MAX_FLOCKS) (done : List (Boid F))
    (b : Boid F) (rest : List (Boid F)) (s : t_jit_boids3d F) (L : FlightLocals F) :
    (steerBoid H i f done b rest s L).2.1.newBoidID = s.newBoidID := rfl

theorem SteeredFrom.mono {H : Host F} {s s1 : t_jit_boids3d F} {i : Fin MAX_FLOCKS}
    {b b1 : Boid F} (hf : Frame s s1) (h : SteeredFrom H s1 i b b1) : SteeredFrom H s i b b1 := by
  obtain ⟨f, done, rest, s0, L0, h1, h2, h3⟩ := h
  exact ⟨f, done, rest, s0, L0, h1, hf.trans h2, h3⟩

theorem flightLoop_spec (H : Host F) (i : Fin MAX_FLOCKS) (todo : List (Boid F)) :
    ∀ (done : List (Boid F)) (s : t_jit_boids3d F) (L : FlightLocals F)
      (r : t_jit_boids3d F × FlightLocals F),
      flightLoop H i todo done s L = some r → s.flockLL i = done ++ todo →
      Frame s r.1 ∧ r.1.newBoidID = s.newBoidID ∧
      (∀ j, j ≠ i → r.1.flockLL j = s.flockLL j ∧ r.1.boidCount j = s.boidCount j) ∧
      ∃ kept : List (Boid F),
        r.1.flockLL i = done ++ kept ∧
        List.Forall₂ (SteeredFrom H s i) (todo.filter (survivesTick s.age)) kept ∧
        r.1.boidCount i = s.boidCount i - todo.length + kept.length := by
  induction todo with
  | nil =>
    intro done s L r h hll
    simp only [flightLoop, Option.some.injEq] at h
    subst h
    refine ⟨Frame.refl s, rfl, fun j _ => ⟨rfl, rfl⟩, [], by simpa using hll, ?_, by simp⟩
    simp
  | cons b rest ih =>
    intro done s L r h hll
    rw [flightLoop] at h
    simp only at h
    cases hfi : flockIndex b.flockID with
    | none => rw [hfi] at h; simp at h
    | some f =>
      rw [hfi] at h
      simp only at h
      by_cases hdie : (((b.age + 1 : Int)) : F) > s.age f ∧ s.age f ≠ -1
      · rw [if_pos hdie] at h
        obtain ⟨h1, h2, h3, kept, h4, h5, h6⟩ := ih done _ L r h (by simp)
        have hfr : Frame s { s with
            flockLL := Function.update s.flockLL i (done ++ rest)
            boidCount := Function.update s.boidCount i (s.boidCount i - 1) } := rfl
        refine ⟨hfr.trans h1, h2, ?_, kept, h4, ?_, ?_⟩
        · intro j hj
          rw [(h3 j hj).1, (h3 j hj).2]
          simp [Function.update_noteq hj]
        · have hs : survivesTick s.age b = false := by
            simp only [survivesTick, hfi]
            rw [Bool.not_eq_false', decide_eq_true_eq]
            exact hdie
          rw [List.filter_cons_of_neg (by simp [hs])]
          exact h5.imp (fun _ _ hab => SteeredFrom.mono hfr hab)
        · rw [h6]
          simp only [Function.update_same, List.length_cons, Nat.cast_add, Nat.cast_one]
          ring
      · rw [if_neg hdie] at h
        have hfr := steerBoid_frame H i f done { b with age := b.age + 1 } rest s L
        obtain ⟨h1, h2, h3, kept, h4, h5, h6⟩ := ih _ _ _ r h (by
          rw [steerBoid_flockLL]; simp)
        refine ⟨hfr.trans h1, by rw [h2, steerBoid_newBoidID], ?_,
          (steerBoid H i f done { b with age := b.age + 1 } rest s L).1 :: kept, ?_, ?_, ?_⟩
        · intro j hj
          rw [(h3 j hj).1, (h3 j hj).2, steerBoid_flockLL, steerBoid_boidCount]
          simp [Function.update_noteq hj]
        · rw [h4]; simp
        · have hs : survivesTick s.age b = true := by
            simp only [survivesTick, hfi]
            rw [Bool.not_eq_true', decide_eq_false_iff_not]
            exact hdie
          rw [List.filter_cons_of_pos hs]
          refine List.Forall₂.cons ⟨f, done, rest, s, L, hfi, Frame.refl s, rfl⟩ ?_
          rw [hfr.age] at h5
          exact h5.imp (fun _ _ hab => SteeredFrom.mono hfr hab)
        · rw [h6, steerBoid_boidCount]
          simp only [List.length_cons, Nat.cast_add, Nat.cast_one]
          ring

theorem flightFold_none (H : Host F) (l : List (Fin MAX_FLOCKS)) :
    l.foldl (flightFlock H) none = none := by
  induction l with
  | nil => rfl
  | cons k l ih => simpa [flightFlock] using ih

theorem TickedSlot.ticked_before {H : Host F} {s s1 r : t_jit_boids3d F} {i : Fin MAX_FLOCKS}
    (h : TickedSlot H s1 r i) (hf : Frame s s1) (hl : s1.flockLL i = s.flockLL i)
    (hc : s1.boidCount i = s.boidCount i) : TickedSlot H s r i := by
  unfold TickedSlot at *
  rw [hl, hc, hf.age] at h
  exact ⟨h.1.imp (fun _ _ hab => SteeredFrom.mono hf hab), h.2⟩

theorem flightFold_spec (H : Host F) (l : List (Fin MAX_FLOCKS)) (hl : l.Nodup) :
    ∀ (s : t_jit_boids3d F) (L : FlightLocals F) (r : t_jit_boids3d F × FlightLocals F),
      l.foldl (flightFlock H) (some (s, L)) = some r →
      Frame s r.1 ∧ r.1.newBoidID = s.newBoidID ∧
      (∀ j, j ∉ l → r.1.flockLL j = s.flockLL j ∧ r.1.boidCount j = s.boidCount j) ∧
      (∀ i, i ∈ l → TickedSlot H s r.1 i) := by
  induction l with
  | nil =>
    intro s L r h
    simp only [List.foldl_nil, Option.some.injEq] at h
    subst h
    exact ⟨Frame.refl s, rfl, fun j _ => ⟨rfl, rfl⟩, fun i hi => by cases hi⟩
  | cons k l ih =>
    intro s L r h
    rw [List.nodup_cons] at hl
    rw [List.foldl_cons] at h
    cases hk : flightFlock H (some (s, L)) k with
    | none => rw [hk, flightFold_none] at h; cases h
    | some r0 =>
      rw [hk] at h
      obtain ⟨f1, f2, f3, kept, f4, f5, f6⟩ :=
        flightLoop_spec H k (s.flockLL k) [] s L r0 hk (by simp)
      obtain ⟨g1, g2, g3, g4⟩ := ih hl.2 r0.1 r0.2 r h
      refine ⟨f1.trans g1, by rw [g2, f2], ?_, ?_⟩
      · intro j hj
        rw [List.mem_cons, not_or] at hj
        rw [(g3 j hj.2).1, (g3 j hj.2).2]
        exact f3 j hj.1
      · intro i hi
        rw [List.mem_cons] at hi
        rcases hi with hi | hi
        · subst hi
          unfold TickedSlot
          rw [(g3 i hl.1).1, (g3 i hl.1).2, f4, f6]
          simp only [List.nil_append]
          exact ⟨f5, trivial⟩
        · have hik : i ≠ k := fun h => hl.1 (h ▸ hi)
          exact (g4 i hi).ticked_before f1 (f3 i hik).1 (f3 i hik).2

/-- What one tick does to the agent store. -/
theorem FlightStep_spec (H : Host F) (s s1 : t_jit_boids3d F) (h : FlightStep H s = some s1) :
    Frame s s1 ∧ s1.newBoidID = s.newBoidID ∧ ∀ i, TickedSlot H s s1 i := by
  unfold FlightStep at h
  simp only [Option.map_eq_some', Prod.exists, exists_and_right, exists_eq_right] at h
  obtain ⟨L1, h⟩ := h
  obtain ⟨g1, g2, _, g4⟩ := flightFold_spec H flockSlots nodup_flockSlots _ _ _ h
  have hf : Frame s { s with neighborhoodConnections := [] } := rfl
  exact ⟨hf.trans g1, g2, fun i => (g4 i (mem_flockSlots i)).ticked_before hf rfl rfl⟩

theorem flightLoop_isSome (H : Host F) (i : Fin MAX_FLOCKS) (todo : List (Boid F)) :
    ∀ (done : List (Boid F)) (s : t_jit_boids3d F) (L : FlightLocals F),
      (∀ b ∈ todo, ∃ f, flockIndex b.flockID = some f) →
      ∃ r, flightLoop H i todo done s L = some r := by
  induction todo with
  | nil => intro done s L _; exact ⟨(s, L), rfl⟩
  | cons b rest ih =>
    intro done s L hv
    obtain ⟨f, hf⟩ := hv b (List.mem_cons_self _ _)
    have hrest : ∀ b1 ∈ rest, ∃ f, flockIndex b1.flockID = some f :=
      fun b1 hb1 => hv b1 (List.mem_cons_of_mem _ hb1)
    rw [flightLoop]
    simp only [hf]
    split_ifs
    · exact ih _ _ _ hrest
    · exact ih _ _ _ hrest

theorem flightFold_isSome (H : Host F) (l : List (Fin MAX_FLOCKS)) (hl : l.Nodup) :
    ∀ (s : t_jit_boids3d F) (L : FlightLocals F),
      (∀ i, i ∈ l → ∀ b ∈ s.flockLL i, ∃ f, flockIndex b.flockID = some f) →
      ∃ r, l.foldl (flightFlock H) (some (s, L)) = some r := by
  induction l with
  | nil => intro s L _; exact ⟨(s, L), rfl⟩
  | cons k l ih =>
    intro s L hv
    rw [List.nodup_cons] at hl
    obtain ⟨r0, hr0⟩ := flightLoop_isSome H k (s.flockLL k) [] s L
      (hv k (List.mem_cons_self _ _))
    obtain ⟨_, _, f3, _⟩ := flightLoop_spec H k (s.flockLL k) [] s L r0 hr0 (by simp)
    rw [List.foldl_cons]
    have hk : flightFlock H (some (s, L)) k = some r0 := hr0
    rw [hk]
    apply ih hl.2
    intro i hi b hb
    have hik : i ≠ k := fun h => hl.1 (h ▸ hi)
    rw [(f3 i hik).1] at hb
    exact hv i (List.mem_cons_of_mem _ hi) b hb

/-- A tick is defined whenever every stored agent's `flockID` is a valid slot. -/
theorem FlightStep_isSome (H : Host F) (s : t_jit_boids3d F)
    (hv : ∀ i, ∀ b ∈ s.flockLL i, ∃ f, flockIndex b.flockID = some f) :
    ∃ s1, FlightStep H s = some s1 := by
  obtain ⟨r, hr⟩ := flightFold_isSome H flockSlots nodup_flockSlots
    { s with neighborhoodConnections := [] }
    { goCenterVel := { x := 0, y := 0, z := 0 }, goAttractVel := { x := 0, y := 0, z := 0 },
      matchNeighborVel := { x := 0, y := 0, z := 0 },
      separationNeighborVel := { x := 0, y := 0, z := 0 } }
    (fun i _ => hv i)
  exact ⟨r.1, by unfold FlightStep; simp only [hr]; rfl⟩

/-! ## The store invariant -/

theorem steerBoid_ids (H : Host F) (i f : Fin MAX_FLOCKS) (done : List (Boid F)) (b : Boid F)
    (rest : List (Boid F)) (s : t_jit_boids3d F) (L : FlightLocals F) :
    (steerBoid H i f done b rest s L).1.globalID = b.globalID ∧
    (steerBoid H i f done b rest s L).1.flockID = b.flockID ∧
    (steerBoid H i f done b rest s L).1.age = b.age := ⟨rfl, rfl, rfl⟩

theorem SteeredFrom.ids {H : Host F} {s : t_jit_boids3d F} {i : Fin MAX_FLOCKS} {b b1 : Boid F}
    (h : SteeredFrom H s i b b1) :
    b1.globalID = b.globalID ∧ b1.flockID = b.flockID ∧ b1.age = b.age + 1 := by
  obtain ⟨f, done, rest, s0, L0, _, _, h3⟩ := h
  subst h3
  exact ⟨rfl, rfl, rfl⟩

theorem forall₂_mem_right {α β : Type} {R : α → β → Prop} {l1 : List α} {l2 : List β}
    (h : List.Forall₂ R l1 l2) : ∀ y ∈ l2, ∃ x ∈ l1, R x y := by
  induction h with
  | nil => intro y hy; cases hy
  | cons hab _ ih =>
    intro y hy
    rw [List.mem_cons] at hy
    rcases hy with hy | hy
    · subst hy
      exact ⟨_, List.mem_cons_self _ _, hab⟩
    · obtain ⟨x, hx, hr⟩ := ih y hy
      exact ⟨x, List.mem_cons_of_mem _ hx, hr⟩

theorem forall₂_map_eq {α β γ : Type} {R : α → β → Prop} (g : α → γ) (g1 : β → γ)
    {l1 : List α} {l2 : List β} (h : List.Forall₂ R l1 l2)
    (hR : ∀ a b, R a b → g1 b = g a) : l2.map g1 = l1.map g := by
  induction h with
  | nil => rfl
  | cons hab _ ih => simp [hR _ _ hab, ih]

/-- After a tick, the global IDs stored in a slot are those of the agents that passed the
age test, in the same order. -/
theorem TickedSlot.map_globalID {H : Host F} {s r : t_jit_boids3d F} {i : Fin MAX_FLOCKS}
    (h : TickedSlot H s r i) :
    (r.flockLL i).map Boid.globalID
      = ((s.flockLL i).filter (survivesTick s.age)).map Boid.globalID :=
  forall₂_map_eq Boid.globalID Boid.globalID h.1 (fun _ _ hab => hab.ids.1)

theorem TickedSlot.mem {H : Host F} {s r : t_jit_boids3d F} {i : Fin MAX_FLOCKS}
    (h : TickedSlot H s r i) (b1 : Boid F) (hb : b1 ∈ r.flockLL i) :
    ∃ b ∈ s.flockLL i, SteeredFrom H s i b b1 := by
  obtain ⟨b, hb1, hr⟩ := forall₂_mem_right h.1 b1 hb
  exact ⟨b, (List.mem_filter.mp hb1).1, hr⟩

theorem storeInv_new : StoreInv (jit_boids3d_new : t_jit_boids3d F) := by
  refine ⟨fun i => rfl, fun i => List.Pairwise.nil, ?_, ?_⟩
  · intro i b hb; cases hb
  · intro i j _ a ha; cases ha

theorem storeInv_numberFlock (H : Host F) (d : Fin MAX_FLOCKS → Int)
    (acc : t_jit_boids3d F × (Nat → Int)) (k : Fin MAX_FLOCKS) (h : StoreInv acc.1) :
    StoreInv (numberFlock H d acc k).1 := by
  obtain ⟨_, f2, f3, news, g1, g2, g3, g4, g5⟩ := numberFlock_spec H d acc k
  obtain ⟨i1, i2, i3, i4⟩ := h
  have hmem : ∀ i, ∀ b ∈ (numberFlock H d acc k).1.flockLL i,
      b.flockID = ((i : Nat) : Int) ∧
      (b ∈ acc.1.flockLL i ∨ (i = k ∧ acc.1.newBoidID ≤ b.globalID ∧
        b.globalID < (numberFlock H d acc k).1.newBoidID)) := by
    intro i b hb
    by_cases hik : i = k
    · subst hik
      rw [g1, List.mem_append] at hb
      rcases hb with hb | hb
      · obtain ⟨_, a2, _, _, a5, a6⟩ := g4 b hb
        exact ⟨a2, Or.inr ⟨rfl, a5, a6⟩⟩
      · have hb1 := List.mem_of_mem_drop hb
        exact ⟨(i3 i b hb1).1, Or.inl hb1⟩
    · rw [(f3 i hik).1] at hb
      exact ⟨(i3 i b hb).1, Or.inl hb⟩
  refine ⟨?_, ?_, ?_, ?_⟩
  · intro i
    by_cases hik : i = k
    · subst hik
      rw [g3, g1, i1 i, List.length_append, List.length_drop, g2]
      have := Nat.min_le_right (-(d i)).toNat (acc.1.flockLL i).length
      push_cast
      omega
    · rw [(f3 i hik).1, (f3 i hik).2]
      exact i1 i
  · intro i
    by_cases hik : i = k
    · subst hik
      rw [g1, List.pairwise_append]
      refine ⟨g5, (i2 i).sublist (List.drop_sublist _ _), ?_⟩
      intro a ha b hb
      have h1 := (g4 a ha).2.2.2.2.1
      have h2 := (i3 i b (List.mem_of_mem_drop hb)).2
      omega
    · rw [(f3 i hik).1]
      exact i2 i
  · intro i b hb
    obtain ⟨h1, h2⟩ := hmem i b hb
    refine ⟨h1, ?_⟩
    rcases h2 with h2 | ⟨_, _, h2⟩
    · exact lt_of_lt_of_le (i3 i b h2).2 f2
    · exact h2
  · intro i j hij a ha b hb
    obtain ⟨_, h2⟩ := hmem i a ha
    obtain ⟨_, h4⟩ := hmem j b hb
    rcases h2 with h2 | ⟨e1, l1, _⟩ <;> rcases h4 with h4 | ⟨e2, l2, _⟩
    · exact i4 i j hij a h2 b h4
    · have := (i3 i a h2).2
      omega
    · have := (i3 j b h4).2
      omega
    · exact absurd (e1.trans e2.symm) hij

theorem storeInv_numberFold (H : Host F) (d : Fin MAX_FLOCKS → Int) (l : List (Fin MAX_FLOCKS))
    (acc : t_jit_boids3d F × (Nat → Int)) (h : StoreInv acc.1) :
    StoreInv (l.foldl (numberFlock H d) acc).1 := by
  induction l generalizing acc with
  | nil => exact h
  | cons k l ih =>
    rw [List.foldl_cons]
    exact ih _ (storeInv_numberFlock H d acc k h)

theorem storeInv_number (H : Host F) (s : t_jit_boids3d F) (d : Fin MAX_FLOCKS → Int)
    (rng : Nat → Int) (h : StoreInv s) : StoreInv (jit_boids3d_number H s d rng).1 := by
  unfold jit_boids3d_number
  split_ifs
  · exact h
  · exact storeInv_numberFold H d flockSlots (s, rng) h

theorem storeInv_tick (H : Host F) (s s1 : t_jit_boids3d F) (hs : FlightStep H s = some s1)
    (h : StoreInv s) : StoreInv s1 := by
  obtain ⟨_, f2, f3⟩ := FlightStep_spec H s s1 hs
  obtain ⟨i1, i2, i3, i4⟩ := h
  have hmem : ∀ i, ∀ b1 ∈ s1.flockLL i, ∃ b ∈ s.flockLL i,
      b1.globalID = b.globalID ∧ b1.flockID = b.flockID := by
    intro i b1 hb1
    obtain ⟨b, hb, hr⟩ := (f3 i).mem b1 hb1
    exact ⟨b, hb, hr.ids.1, hr.ids.2.1⟩
  refine ⟨?_, ?_, ?_, ?_⟩
  · intro i
    rw [(f3 i).2, i1 i]
    ring
  · intro i
    have h1 : ((s1.flockLL i).map Boid.globalID).Pairwise (fun a b => b < a) := by
      rw [(f3 i).map_globalID]
      have h2 : ((s.flockLL i).map Boid.globalID).Pairwise (fun a b => b < a) :=
        (List.pairwise_map).mpr (i2 i)
      exact h2.sublist ((List.filter_sublist _).map _)
    exact (List.pairwise_map).mp h1
  · intro i b1 hb1
    obtain ⟨b, hb, e1, e2⟩ := hmem i b1 hb1
    rw [e1, e2, f2]
    exact i3 i b hb
  · intro i j hij a1 ha1 b1 hb1
    obtain ⟨a, ha, e1, _⟩ := hmem i a1 ha1
    obtain ⟨b, hb, e2, _⟩ := hmem j b1 hb1
    rw [e1, e2]
    exact i4 i j hij a ha b hb

/-- Every reachable state satisfies the store invariant. -/
theorem Reachable.storeInv {H : Host F} {s : t_jit_boids3d F} (h : Reachable H s) :
    StoreInv s := by
  induction h with
  | init => exact storeInv_new
  | number s d rng _ ih => exact storeInv_number H s d rng ih
  | tick s s1 _ hs ih => exact storeInv_tick H s s1 hs ih
  | request s s1 _ h1 h2 h3 ih =>
    unfold StoreInv at ih ⊢
    rw [h1, h2, h3]
    exact ih

/-- Without overflow `CalcNumBoids` is the sum of the six tracked counts. -/
theorem CalcNumBoids_eq (s : t_jit_boids3d F)
    (hb : ∀ i, 0 ≤ s.boidCount i ∧ s.boidCount i ≤ 100000000) :
    CalcNumBoids s = ∑ i, s.boidCount i := by
  have h0 := hb 0
  have h1 := hb 1
  have h2 := hb 2
  have h3 := hb 3
  have h4 := hb 4
  have h5 := hb 5
  simp only [CalcNumBoids, flockSlots, List.foldl, Fin.sum_univ_six, wrap32]
  omega

theorem totalLive_eq (s : t_jit_boids3d F) :
    totalLive s = ∑ i, (s.flockLL i).length := by
  simp [totalLive, allBoids, flockSlots, Fin.sum_univ_six, add_assoc]

theorem CalcNumBoids_eq_totalLive (s : t_jit_boids3d F)
    (hc : ∀ i, s.boidCount i = ((s.flockLL i).length : Int))
    (hb : ∀ i, s.boidCount i ≤ 100000000) :
    CalcNumBoids s = (totalLive s : Int) := by
  rw [CalcNumBoids_eq s (fun i => ⟨by rw [hc i]; exact Int.natCast_nonneg _, hb i⟩),
    totalLive_eq]
  push_cast
  exact Finset.sum_congr rfl (fun i _ => hc i)

theorem numberRejected_iff (s : t_jit_boids3d F) (d : Fin MAX_FLOCKS → Int) :
    numberRejected s d ↔
      ((∀ i, d i = 0) ∨ wrap32 ((numberTotals d).2 + CalcNumBoids s) > kMaxNumBoids) := by
  unfold numberRejected
  rw [numberTotals_fst]

/-- Without overflow the guard of `jit_boids3d_number` compares the tracked total plus the
sum of the deltas with `kMaxNumBoids`. -/
theorem numberRejected_iff_of_bounded (s : t_jit_boids3d F) (d : Fin MAX_FLOCKS → Int)
    (hd : ∀ i, -100000000 ≤ d i ∧ d i ≤ 100000000)
    (hb : ∀ i, 0 ≤ s.boidCount i ∧ s.boidCount i ≤ 100000000) :
    numberRejected s d ↔
      ((∀ i, d i = 0) ∨ (∑ i, s.boidCount i) + ∑ i, d i > kMaxNumBoids) := by
  rw [numberRejected_iff, numberTotals_snd d hd, CalcNumBoids_eq s hb]
  have e : wrap32 ((∑ i, d i) + ∑ i, s.boidCount i) = (∑ i, s.boidCount i) + ∑ i, d i := by
    have h0 := hb 0
    have h1 := hb 1
    have h2 := hb 2
    have h3 := hb 3
    have h4 := hb 4
    have h5 := hb 5
    have g0 := hd 0
    have g1 := hd 1
    have g2 := hd 2
    have g3 := hd 3
    have g4 := hd 4
    have g5 := hd 5
    rw [wrap32_of_range]
    · ring
    · simp only [Fin.sum_univ_six]
      omega
    · simp only [Fin.sum_univ_six]
      omega
  rw [e]

theorem flockIndex_coe (i : Fin MAX_FLOCKS) : flockIndex (((i : Nat) : Int)) = some i := by
  have h : 0 ≤ ((i : Nat) : Int) ∧ ((i : Nat) : Int) < 6 := by
    have h6 : (i : Nat) < 6 := i.isLt
    omega
  unfold flockIndex
  rw [dif_pos h]
  simp

theorem SteeredFrom.snapshot {H : Host F} {s : t_jit_boids3d F} {i : Fin MAX_FLOCKS}
    {b b1 : Boid F} (h : SteeredFrom H s i b b1) :
    b1.oldPos = b.newPos ∧ b1.oldDir = b.newDir := by
  obtain ⟨f, done, rest, s0, L0, _, _, h3⟩ := h
  subst h3
  exact ⟨rfl, rfl⟩

theorem survivesTick_eq_keptByAge (s : t_jit_boids3d F) (i : Fin MAX_FLOCKS) (b : Boid F)
    (hb : b.flockID = ((i : Nat) : Int)) : survivesTick s.age b = keptByAge s i b := by
  unfold survivesTick keptByAge
  rw [hb, flockIndex_coe]
  simp only
  by_cases h1 : s.age i = -1
  · simp [h1]
  · by_cases h2 : ((b.age : F) + 1) ≤ s.age i
    · simp [h1, h2, not_lt.mpr h2]
    · simp [h1, h2, not_le.mp h2]

theorem demoAgingState_owned (i : Fin MAX_FLOCKS) :
    ∀ b ∈ (demoAgingState : t_jit_boids3d F).flockLL i, b.flockID = ((i : Nat) : Int) := by
  intro b hb
  by_cases h : i = 0
  · subst h
    simp only [demoAgingState, if_true, List.mem_cons, List.mem_singleton, List.not_mem_nil,
      or_false] at hb
    rcases hb with rfl | rfl <;> rfl
  · simp [demoAgingState, h] at hb

theorem demoAgingState_kept :
    ((demoAgingState : t_jit_boids3d F).flockLL 0).filter (keptByAge demoAgingState 0)
      = [demoBoid 0 0] := by
  have h1 : keptByAge (demoAgingState : t_jit_boids3d F) 0 (demoBoid 2 1) = false := by
    simp only [keptByAge, demoAgingState, demoBoid]
    norm_num
  have h2 : keptByAge (demoAgingState : t_jit_boids3d F) 0 (demoBoid 0 0) = true := by
    simp only [keptByAge, demoAgingState, demoBoid]
    norm_num
  show List.filter (keptByAge demoAgingState 0) [demoBoid 2 1, demoBoid 0 0] = _
  simp [List.filter, h1, h2]

theorem demoAgingState_removed :
    ((demoAgingState : t_jit_boids3d F).flockLL 0).filter
      (fun b => !keptByAge demoAgingState 0 b) = [demoBoid 2 1] := by
  have h1 : keptByAge (demoAgingState : t_jit_boids3d F) 0 (demoBoid 2 1) = false := by
    simp only [keptByAge, demoAgingState, demoBoid]
    norm_num
  have h2 : keptByAge (demoAgingState : t_jit_boids3d F) 0 (demoBoid 0 0) = true := by
    simp only [keptByAge, demoAgingState, demoBoid]
    norm_num
  show List.filter (fun b => !keptByAge demoAgingState 0 b) [demoBoid 2 1, demoBoid 0 0] = _
  simp [List.filter, h1, h2]

/-! ## Headings -/

theorem NormalizeVelocity_zero (H : Host F) :
    NormalizeVelocity H ({ x := 0, y := 0, z := 0 } : Vec3 F) = { x := 0, y := 0, z := 0 } := by
  simp only [NormalizeVelocity]
  split_ifs <;> simp

theorem normSq_pos_of_ne_zero (v : Vec3 F) (hv : v ≠ { x := 0, y := 0, z := 0 }) :
    0 < normSq v := by
  unfold normSq
  by_contra hle
  have hx := mul_self_nonneg v.x
  have hy := mul_self_nonneg v.y
  have hz := mul_self_nonneg v.z
  have h0 : v.x * v.x = 0 ∧ v.y * v.y = 0 ∧ v.z * v.z = 0 := by
    refine ⟨?_, ?_, ?_⟩ <;> linarith
  apply hv
  cases v
  simp only [Vec3.mk.injEq]
  exact ⟨mul_self_eq_zero.mp h0.1, mul_self_eq_zero.mp h0.2.1, mul_self_eq_zero.mp h0.2.2⟩

theorem NormalizeVelocity_unit (H : Host ℝ) (hsqrt : H.sqrt = Real.sqrt) (v : Vec3 ℝ)
    (hv : v ≠ { x := 0, y := 0, z := 0 }) : normSq (NormalizeVelocity H v) = 1 := by
  have hpos := normSq_pos_of_ne_zero v hv
  have hne : Real.sqrt (normSq v) ≠ 0 := (Real.sqrt_pos.mpr hpos).ne'
  have hsq : Real.sqrt (normSq v) * Real.sqrt (normSq v) = normSq v :=
    Real.mul_self_sqrt hpos.le
  have hn : v.x * v.x + v.y * v.y + v.z * v.z = normSq v := rfl
  simp only [NormalizeVelocity, hsqrt, hn, if_pos hne]
  have e : normSq (Vec3.mk (v.x / Real.sqrt (normSq v)) (v.y / Real.sqrt (normSq v))
      (v.z / Real.sqrt (normSq v)))
      = (v.x * v.x + v.y * v.y + v.z * v.z)
        / (Real.sqrt (normSq v) * Real.sqrt (normSq v)) := by
    simp only [normSq]
    field_simp
  rw [e, hsq, hn]
  exact div_self hpos.ne'

theorem AvoidWalls_normSq (s : t_jit_boids3d F) (b : Boid F) (f : Fin MAX_FLOCKS) :
    normSq (AvoidWalls s b f) = normSq b.newDir := by
  unfold AvoidWalls normSq
  simp only
  split_ifs <;> simp only [neg_mul_neg, abs_mul_abs_self]

theorem AvoidWalls_zero (s : t_jit_boids3d F) (b : Boid F) (f : Fin MAX_FLOCKS)
    (hb : b.newDir = { x := 0, y := 0, z := 0 }) :
    AvoidWalls s b f = { x := 0, y := 0, z := 0 } := by
  unfold AvoidWalls
  simp only [hb]
  split_ifs <;> simp

theorem steerBoid_newDir (H : Host F) (i f : Fin MAX_FLOCKS) (done : List (Boid F)) (b : Boid F)
    (rest : List (Boid F)) (s : t_jit_boids3d F) (L : FlightLocals F) :
    ∃ (s2 : t_jit_boids3d F) (b2 : Boid F),
      b2.newDir = NormalizeVelocity H (steerComposed H i f done b rest s L) ∧
      (steerBoid H i f done b rest s L).1.newDir = AvoidWalls s2 b2 f :=
  ⟨_, _, rfl, rfl⟩

/-- One tick of the example state, evaluated: the agent of age 2 dies, the other one keeps
its heading `(1, 0, 0)`. -/
theorem demoAgingState_tick :
    ∃ s1, FlightStep ⟨Real.sqrt, Real.sin, Real.cos⟩ (demoAgingState : t_jit_boids3d ℝ)
        = some s1 ∧
      (s1.flockLL 0).map Boid.newDir = [{ x := 1, y := 0, z := 0 }] := by
  have hi : flockIndex (0 : Int) = some (0 : Fin MAX_FLOCKS) := by decide
  simp only [FlightStep, flockSlots, List.foldl_cons, List.foldl_nil, flightFlock,
    demoAgingState, jit_boids3d_new, if_true, flightLoop, demoBoid, hi]
  norm_num [flightLoop, steerBoid, steerPrepare, steerComposed, composeHeading,
    CalcFlockCenterAndNeighborVel, allBoids, flockSlots, scanBoid, DistSqrToPt,
    NormalizeVelocity, SeekPoint, SeekAttractors, seekAttractorsLoop, AvoidWalls, clampSpeed,
    kFlyRectScalingFactor, Function.update]

/-! ## Attractor requests -/

theorem addattractorScan_no_collision (newID : Int) (l : List (Attractor F)) (maxID : Int)
    (h : ∀ a ∈ l, a.id ≠ newID) : (addattractorScan newID l maxID).1 = false := by
  induction l generalizing maxID with
  | nil => rfl
  | cons a rest ih =>
    rw [addattractorScan, if_neg (h a (List.mem_cons_self _ _))]
    exact ih _ (fun x hx => h x (List.mem_cons_of_mem _ hx))

theorem deleteattractorScan_not_found (attractorID : Int) (l : List (Attractor F))
    (h : ∀ a ∈ l, a.id ≠ attractorID) : deleteattractorScan attractorID l = none := by
  induction l with
  | nil => rfl
  | cons a rest ih =>
    rw [deleteattractorScan, if_neg (h a (List.mem_cons_self _ _)),
      ih (fun x hx => h x (List.mem_cons_of_mem _ hx))]
    rfl

theorem deleteattractorScan_found (attractorID : Int) (l : List (Attractor F))
    (h : ∃ a ∈ l, a.id = attractorID) :
    ∃ (pre : List (Attractor F)) (a : Attractor F) (post : List (Attractor F)),
      l = pre ++ a :: post ∧ a.id = attractorID ∧ (∀ x ∈ pre, x.id ≠ attractorID) ∧
      deleteattractorScan attractorID l = some (pre ++ post) := by
  induction l with
  | nil =>
    obtain ⟨a, ha, _⟩ := h
    cases ha
  | cons b rest ih =>
    by_cases hb : b.id = attractorID
    · refine ⟨[], b, rest, rfl, hb, ?_, ?_⟩
      · intro x hx; cases hx
      · rw [deleteattractorScan, if_pos hb]
        rfl
    · have hrest : ∃ a ∈ rest, a.id = attractorID := by
        obtain ⟨a, ha, e⟩ := h
        rw [List.mem_cons] at ha
        rcases ha with ha | ha
        · subst ha
          exact absurd e hb
        · exact ⟨a, ha, e⟩
      obtain ⟨pre, a, post, e1, e2, e3, e4⟩ := ih hrest
      refine ⟨b :: pre, a, post, by rw [e1]; rfl, e2, ?_, ?_⟩
      · intro x hx
        rw [List.mem_cons] at hx
        rcases hx with hx | hx
        · subst hx
          exact hb
        · exact e3 x hx
      · rw [deleteattractorScan, if_neg hb, e4]
        rfl

theorem deleteattractorScan_length (attractorID : Int) (l l1 : List (Attractor F))
    (h : deleteattractorScan attractorID l = some l1) : l1.length + 1 = l.length := by
  induction l generalizing l1 with
  | nil => simp [deleteattractorScan] at h
  | cons b rest ih =>
    rw [deleteattractorScan] at h
    by_cases hb : b.id = attractorID
    · rw [if_pos hb] at h
      simp only [Option.some.injEq] at h
      subst h
      rfl
    · rw [if_neg hb] at h
      cases hr : deleteattractorScan attractorID rest with
      | none => rw [hr] at h; simp at h
      | some l2 =>
        rw [hr] at h
        simp only [Option.map_some', Option.some.injEq] at h
        subst h
        simp [ih l2 hr]

theorem attractptLoop_not_found (attractorID : Int) (loc : Vec3 F) (radius : F)
    (l : List (Attractor F)) (h : ∀ a ∈ l, a.id ≠ attractorID) :
    attractptLoop attractorID loc radius l = l := by
  induction l with
  | nil => rfl
  | cons a rest ih =>
    rw [attractptLoop, if_neg (fun e => h a (List.mem_cons_self _ _) e.symm),
      ih (fun x hx => h x (List.mem_cons_of_mem _ hx))]

theorem attractptLoop_found (attractorID : Int) (loc : Vec3 F) (radius : F)
    (l : List (Attractor F)) (h : ∃ a ∈ l, a.id = attractorID) :
    ∃ (pre : List (Attractor F)) (a : Attractor F) (post : List (Attractor F)),
      l = pre ++ a :: post ∧ a.id = attractorID ∧ (∀ x ∈ pre, x.id ≠ attractorID) ∧
      attractptLoop attractorID loc radius l
        = pre ++ { a with loc := loc, attractorRadius := radius } :: post := by
  induction l with
  | nil =>
    obtain ⟨a, ha, _⟩ := h
    cases ha
  | cons b rest ih =>
    by_cases hb : b.id = attractorID
    · refine ⟨[], b, rest, rfl, hb, ?_, ?_⟩
      · intro x hx; cases hx
      · rw [attractptLoop, if_pos hb.symm]
        rfl
    · have hrest : ∃ a ∈ rest, a.id = attractorID := by
        obtain ⟨a, ha, e⟩ := h
        rw [List.mem_cons] at ha
        rcases ha with ha | ha
        · subst ha
          exact absurd e hb
        · exact ⟨a, ha, e⟩
      obtain ⟨pre, a, post, e1, e2, e3, e4⟩ := ih hrest
      refine ⟨b :: pre, a, post, by rw [e1]; rfl, e2, ?_, ?_⟩
      · intro x hx
        rw [List.mem_cons] at hx
        rcases hx with hx | hx
        · subst hx
          exact hb
        · exact e3 x hx
      · rw [attractptLoop, if_neg (fun e => hb e.symm), e4]
        rfl

theorem attractptLoop_length (attractorID : Int) (loc : Vec3 F) (radius : F)
    (l : List (Attractor F)) : (attractptLoop attractorID loc radius l).length = l.length := by
  induction l with
  | nil => rfl
  | cons a rest ih =>
    rw [attractptLoop]
    split_ifs
    · rfl
    · simp [ih]

theorem addattractor_length (s : t_jit_boids3d F) (newID : Int) :
    (jit_boids3d_addattractor s newID).attractorLL.length = s.attractorLL.length + 1 ∧
    (jit_boids3d_addattractor s newID).numAttractors = s.numAttractors + 1 := by
  unfold jit_boids3d_addattractor
  cases s.attractorLL with
  | nil => exact ⟨rfl, rfl⟩
  | cons a rest => exact ⟨rfl, rfl⟩

/-- Every reachable attractor store has its tracked count equal to its list length. -/
theorem AttractorReachable.count_eq {s : t_jit_boids3d F} (h : AttractorReachable s) :
    s.numAttractors = (s.attractorLL.length : Int) := by
  induction h with
  | empty s h1 h2 => rw [h1, h2]; rfl
  | add s newID _ ih =>
    rw [(addattractor_length s newID).1, (addattractor_length s newID).2, ih]
    push_cast
    rfl
  | delete s attractorID _ ih =>
    unfold jit_boids3d_deleteattractor
    cases hs : deleteattractorScan attractorID s.attractorLL with
    | none => exact ih
    | some l =>
      have hl := deleteattractorScan_length attractorID s.attractorLL l hs
      simp only
      split_ifs with hz
      · simp only [List.length_nil, Nat.cast_zero]
        rw [ih] at hz ⊢
        omega
      · rw [ih]
        omega
  | move s loc radius attractorID _ ih =>
    show s.numAttractors = ((attractptLoop attractorID loc radius s.attractorLL).length : Int)
    rw [attractptLoop_length]
    exact ih

theorem MAX_eq_max (a b : F) : MAX a b = max a b := by
  unfold MAX
  split_ifs with h
  · exact (max_eq_left h.le).symm
  · exact (max_eq_right (not_lt.mp h)).symm

theorem kParamFloor_pos : (0 : F) < kParamFloor := by
  unfold kParamFloor
  norm_num

theorem flockIndex_out_of_range (id : Int) (h : ¬ (0 ≤ id ∧ id < 6)) :
    flockIndex id = none := by
  unfold flockIndex
  rw [dif_neg h]

/-! ## The adjacency store during a tick -/

theorem Frame.drawingNeighbors {s s1 : t_jit_boids3d F} (h : Frame s s1) :
    s1.drawingNeighbors = s.drawingNeighbors := by
  have h1 := h
  unfold Frame at h1
  rw [h1]

theorem Frame.allowNeighbors {s s1 : t_jit_boids3d F} (h : Frame s s1) :
    s1.allowNeighborsFromDiffFlock = s.allowNeighborsFromDiffFlock := by
  have h1 := h
  unfold Frame at h1
  rw [h1]

theorem scanFold_lines (H : Host F) (s : t_jit_boids3d F) (theBoid : Boid F)
    (f : Fin MAX_FLOCKS) (Q : List (NeighborLine F) → Prop)
    (hQ : ∀ (acc : NeighborScan F) (it : Boid F),
      Q acc.lines → Q (scanBoid H s theBoid f acc it).lines)
    (l : List (Boid F)) (acc : NeighborScan F) (h : Q acc.lines) :
    Q (l.foldl (scanBoid H s theBoid f) acc).lines := by
  induction l generalizing acc with
  | nil => exact h
  | cons b l ih =>
    rw [List.foldl_cons]
    exact ih _ (hQ acc b h)

theorem steerBoid_lines (H : Host F) (i f : Fin MAX_FLOCKS) (done : List (Boid F)) (b : Boid F)
    (rest : List (Boid F)) (s : t_jit_boids3d F) (L : FlightLocals F) :
    ∃ (s1 : t_jit_boids3d F) (theBoid : Boid F) (init : NeighborScan F) (l : List (Boid F)),
      Frame s s1 ∧ init.lines = s.neighborhoodConnections ∧
      (steerBoid H i f done b rest s L).2.1.neighborhoodConnections
        = (l.foldl (scanBoid H s1 theBoid f) init).lines :=
  ⟨{ s with flockLL := (Function.update s.flockLL i
      (done ++ { b with oldPos := b.newPos, oldDir := b.newDir } :: rest)) },
    { b with oldPos := b.newPos, oldDir := b.newDir },
    { totalH := 0, totalV := 0, totalD := 0
      matchNeighborVel := { x := 0, y := 0, z := 0 }
      separationNeighborVel := L.separationNeighborVel
      avoidSpeed := b.speed
      neighborsCount := 0
      lines := s.neighborhoodConnections },
    allBoids { s with flockLL := (Function.update s.flockLL i
      (done ++ { b with oldPos := b.newPos, oldDir := b.newDir } :: rest)) },
    rfl, rfl, rfl⟩

theorem flightLoop_lines (H : Host F) (i : Fin MAX_FLOCKS) (Q : List (NeighborLine F) → Prop)
    (s0 : t_jit_boids3d F)
    (hQ : ∀ (s : t_jit_boids3d F) (theBoid : Boid F) (f : Fin MAX_FLOCKS)
      (acc : NeighborScan F) (it : Boid F), Frame s0 s →
      Q acc.lines → Q (scanBoid H s theBoid f acc it).lines)
    (todo : List (Boid F)) :
    ∀ (done : List (Boid F)) (s : t_jit_boids3d F) (L : FlightLocals F)
      (r : t_jit_boids3d F × FlightLocals F),
      flightLoop H i todo done s L = some r → Frame s0 s → Q s.neighborhoodConnections →
      Frame s0 r.1 ∧ Q r.1.neighborhoodConnections := by
  induction todo with
  | nil =>
    intro done s L r h hf hq
    simp only [flightLoop, Option.some.injEq] at h
    subst h
    exact ⟨hf, hq⟩
  | cons b rest ih =>
    intro done s L r h hf hq
    rw [flightLoop] at h
    simp only at h
    cases hfi : flockIndex b.flockID with
    | none => rw [hfi] at h; simp at h
    | some f =>
      rw [hfi] at h
      simp only at h
      split_ifs at h with hdie
      · exact ih done _ L r h (hf.trans rfl) hq
      · have hfr := steerBoid_frame H i f done { b with age := b.age + 1 } rest s L
        obtain ⟨s1, theBoid, init, l, g1, g2, g3⟩ :=
          steerBoid_lines H i f done { b with age := b.age + 1 } rest s L
        refine ih _ _ _ r h (hf.trans hfr) ?_
        rw [g3]
        apply scanFold_lines H s1 theBoid f Q (fun acc it => hQ s1 theBoid f acc it (hf.trans g1))
        rw [g2]
        exact hq

theorem flightFold_lines (H : Host F) (Q : List (NeighborLine F) → Prop)
    (s0 : t_jit_boids3d F)
    (hQ : ∀ (s : t_jit_boids3d F) (theBoid : Boid F) (f : Fin MAX_FLOCKS)
      (acc : NeighborScan F) (it : Boid F), Frame s0 s →
      Q acc.lines → Q (scanBoid H s theBoid f acc it).lines)
    (l : List (Fin MAX_FLOCKS)) :
    ∀ (s : t_jit_boids3d F) (L : FlightLocals F) (r : t_jit_boids3d F × FlightLocals F),
      l.foldl (flightFlock H) (some (s, L)) = some r → Frame s0 s →
      Q s.neighborhoodConnections → Q r.1.neighborhoodConnections := by
  induction l with
  | nil =>
    intro s L r h _ hq
    simp only [List.foldl_nil, Option.some.injEq] at h
    subst h
    exact hq
  | cons k l ih =>
    intro s L r h hf hq
    rw [List.foldl_cons] at h
    cases hk : flightFlock H (some (s, L)) k with
    | none => rw [hk, flightFold_none] at h; cases h
    | some r0 =>
      rw [hk] at h
      obtain ⟨g1, g2⟩ := flightLoop_lines H k Q s0 hQ (s.flockLL k) [] s L r0 hk hf hq
      exact ih r0.1 r0.2 r h g1 g2

/-- A property of the adjacency store that holds for the empty store and is kept by every
step of the neighbor scan holds after the tick. -/
theorem FlightStep_lines (H : Host F) (Q : List (NeighborLine F) → Prop)
    (s s1 : t_jit_boids3d F)
    (hQ : ∀ (s2 : t_jit_boids3d F) (theBoid : Boid F) (f : Fin MAX_FLOCKS)
      (acc : NeighborScan F) (it : Boid F), Frame s s2 →
      Q acc.lines → Q (scanBoid H s2 theBoid f acc it).lines)
    (h0 : Q []) (h : FlightStep H s = some s1) : Q s1.neighborhoodConnections := by
  unfold FlightStep at h
  simp only [Option.map_eq_some', Prod.exists, exists_and_right, exists_eq_right] at h
  obtain ⟨L1, h⟩ := h
  exact flightFold_lines H Q s hQ flockSlots _ _ _ h rfl h0

theorem scanBoid_lines_cases (H : Host F) (s : t_jit_boids3d F) (theBoid : Boid F)
    (f : Fin MAX_FLOCKS) (acc : NeighborScan F) (it : Boid F) :
    (scanBoid H s theBoid f acc it).lines = acc.lines ∨
    ((scanBoid H s theBoid f acc it).lines = acc.lines ++ [InitNeighborhoodLine theBoid it] ∧
      acc.lines.length < kMaxNeighborLines ∧ s.drawingNeighbors ≠ 0 ∧
      lineAlreadyExists acc.lines theBoid it = false ∧
      ¬ (s.allowNeighborsFromDiffFlock = 0 ∧ it.flockID ≠ theBoid.flockID)) := by
  unfold scanBoid
  simp only
  by_cases h1 : H.sqrt (DistSqrToPt theBoid.oldPos it.oldPos) < s.neighborRadius f ∧
      H.sqrt (DistSqrToPt theBoid.oldPos it.oldPos) > 0 ∧ acc.neighborsCount < kMaxNeighbors
  · rw [if_pos h1]
    by_cases h2 : s.allowNeighborsFromDiffFlock = 0 ∧ it.flockID ≠ theBoid.flockID
    · rw [if_pos h2]
      exact Or.inl rfl
    · rw [if_neg h2]
      simp only
      by_cases h3 : acc.lines.length < kMaxNeighborLines ∧ s.drawingNeighbors ≠ 0
      · rw [if_pos h3]
        by_cases h4 : lineAlreadyExists acc.lines theBoid it = true
        · rw [if_pos h4]
          exact Or.inl rfl
        · rw [if_neg h4]
          exact Or.inr ⟨rfl, h3.1, h3.2, by simpa using h4, h2⟩
      · rw [if_neg h3]
        exact Or.inl rfl
  · rw [if_neg h1]
    exact Or.inl rfl

/-- One tick of the pair example, evaluated: one adjacency line (agent 1 to agent 0) is
stored, and the centroid left in `tempCenterPt` by the last agent is `(1/2, 0, 0)`. -/
theorem demoPairState_tick :
    ∃ s1, FlightStep ⟨Real.sqrt, Real.sin, Real.cos⟩ (demoPairState : t_jit_boids3d ℝ)
        = some s1 ∧
      s1.tempCenterPt = { x := 1 / 2, y := 0, z := 0 } ∧
      s1.neighborhoodConnections.map (fun l => (l.aID, l.bID)) = [(1, 0)] := by
  have hi : flockIndex (0 : Int) = some (0 : Fin MAX_FLOCKS) := by decide
  have e1 : ((1 : Fin MAX_FLOCKS) = 0) = False := by simp
  have e2 : ((2 : Fin MAX_FLOCKS) = 0) = False := by decide
  have e3 : ((3 : Fin MAX_FLOCKS) = 0) = False := by decide
  have e4 : ((4 : Fin MAX_FLOCKS) = 0) = False := by decide
  have e5 : ((5 : Fin MAX_FLOCKS) = 0) = False := by decide
  simp only [FlightStep, flockSlots, List.foldl_cons, List.foldl_nil, flightFlock,
    demoPairState, demoParams, jit_boids3d_new, if_true, flightLoop, demoBoidAt, hi]
  norm_num [flightLoop, steerBoid, steerPrepare, steerComposed, composeHeading,
    CalcFlockCenterAndNeighborVel, allBoids, flockSlots, scanBoid, DistSqrToPt,
    NormalizeVelocity, SeekPoint, SeekAttractors, seekAttractorsLoop, AvoidWalls, clampSpeed,
    kFlyRectScalingFactor, Function.update, InFront, inFrontPlane, lineAlreadyExists,
    InitNeighborhoodLine, kMaxNeighbors, kMaxNeighborLines, e1, e2, e3, e4, e5]

theorem demoPairState_valid (i : Fin MAX_FLOCKS) :
    ∀ b ∈ (demoPairState : t_jit_boids3d F).flockLL i, ∃ f, flockIndex b.flockID = some f := by
  intro b hb
  by_cases h : i = 0
  · subst h
    simp only [demoPairState, if_true, List.mem_cons, List.mem_singleton, List.not_mem_nil,
      or_false] at hb
    rcases hb with rfl | rfl <;> exact ⟨0, rfl⟩
  · simp [demoPairState, h] at hb

theorem RandomInt_unit (r : Int) :
    (0 : F) ≤ ((r % 65536 : Int) : F) / 65535 ∧ ((r % 65536 : Int) : F) / 65535 ≤ 1 ∧
    (((r % 65536 : Int) : F) / 65535 = 1 ↔ r % 65536 = 65535) := by
  have h0 : (0 : Int) ≤ r % 65536 := Int.emod_nonneg r (by norm_num)
  have h1 : r % 65536 < 65536 := Int.emod_lt_of_pos r (by norm_num)
  have h0F : (0 : F) ≤ ((r % 65536 : Int) : F) := by exact_mod_cast h0
  have h1F : ((r % 65536 : Int) : F) ≤ 65535 := by
    have : r % 65536 ≤ 65535 := by omega
    exact_mod_cast this
  refine ⟨div_nonneg h0F (by norm_num), (div_le_one (by norm_num)).mpr h1F, ?_⟩
  rw [div_eq_one_iff_eq (by norm_num)]
  constructor
  · intro h
    exact_mod_cast h
  · intro h
    rw [h]
    norm_num

theorem foldl_filter_skip {α β : Type} (g : β → α → β) (p : α → Bool)
    (hskip : ∀ acc a, p a = false → g acc a = acc) (l : List α) (acc : β) :
    l.foldl g acc = (l.filter p).foldl g acc := by
  induction l generalizing acc with
  | nil => rfl
  | cons a l ih =>
    cases hp : p a with
    | true => rw [List.filter_cons_of_pos hp, List.foldl_cons, List.foldl_cons, ih]
    | false =>
      rw [List.filter_cons_of_neg (by simp [hp]), List.foldl_cons, hskip acc a hp, ih]

theorem scanBoid_other_flock (H : Host F) (s : t_jit_boids3d F) (theBoid : Boid F)
    (f : Fin MAX_FLOCKS) (acc : NeighborScan F) (it : Boid F)
    (hallow : s.allowNeighborsFromDiffFlock = 0) (hne : it.flockID ≠ theBoid.flockID) :
    scanBoid H s theBoid f acc it = acc := by
  unfold scanBoid
  simp only
  by_cases h1 : H.sqrt (DistSqrToPt theBoid.oldPos it.oldPos) < s.neighborRadius f ∧
      H.sqrt (DistSqrToPt theBoid.oldPos it.oldPos) > 0 ∧ acc.neighborsCount < kMaxNeighbors
  · rw [if_pos h1, if_pos ⟨hallow, hne⟩]
  · rw [if_neg h1]

theorem allBoids_dropOtherFlocks (s : t_jit_boids3d F) (fid : Int) :
    allBoids (dropOtherFlocks s fid)
      = (allBoids s).filter (fun b => decide (b.flockID = fid)) := by
  simp [allBoids, dropOtherFlocks, flockSlots, List.filter_append]

theorem scanBoid_dropOtherFlocks (H : Host F) (s : t_jit_boids3d F) (fid : Int)
    (theBoid : Boid F) (f : Fin MAX_FLOCKS) :
    scanBoid H (dropOtherFlocks s fid) theBoid f = scanBoid H s theBoid f := rfl

theorem scanFold_lines_append (H : Host F) (s : t_jit_boids3d F) (theBoid : Boid F)
    (f : Fin MAX_FLOCKS) (hallow : s.allowNeighborsFromDiffFlock = 0) (base : List (NeighborLine F))
    (l : List (Boid F)) (acc : NeighborScan F)
    (h : ∃ added, acc.lines = base ++ added ∧ ∀ x ∈ added, x.flockIDA = x.flockIDB) :
    ∃ added, (l.foldl (scanBoid H s theBoid f) acc).lines = base ++ added ∧
      ∀ x ∈ added, x.flockIDA = x.flockIDB := by
  refine scanFold_lines H s theBoid f
    (fun ls => ∃ added, ls = base ++ added ∧ ∀ x ∈ added, x.flockIDA = x.flockIDB) ?_ l acc h
  intro acc it ⟨added, e1, e2⟩
  rcases scanBoid_lines_cases H s theBoid f acc it with hc | ⟨hc, _, _, _, hfl⟩
  · exact ⟨added, by rw [hc, e1], e2⟩
  · refine ⟨added ++ [InitNeighborhoodLine theBoid it], by rw [hc, e1, List.append_assoc], ?_⟩
    intro x hx
    rw [List.mem_append] at hx
    rcases hx with hx | hx
    · exact e2 x hx
    · rw [List.mem_singleton] at hx
      subst hx
      have : it.flockID = theBoid.flockID := by
        by_contra hne
        exact hfl ⟨hallow, hne⟩
      exact this.symm

theorem sqrt_sixty_four : Real.sqrt 64 = 8 := by
  rw [show (64 : ℝ) = 8 * 8 by norm_num]
  exact Real.sqrt_mul_self (by norm_num)

theorem sqrt_eighty_one : Real.sqrt 81 = 9 := by
  rw [show (81 : ℝ) = 9 * 9 by norm_num]
  exact Real.sqrt_mul_self (by norm_num)

theorem sqrt_four : Real.sqrt 4 = 2 := by
  rw [show (4 : ℝ) = 2 * 2 by norm_num]
  exact Real.sqrt_mul_self (by norm_num)

/-- One tick of the attractor example, evaluated: both agents of flock 0 end heading
`(-1, 0, 0)`. -/
theorem demoAttractState_tick :
    ∃ s1, FlightStep ⟨Real.sqrt, Real.sin, Real.cos⟩ (demoAttractState : t_jit_boids3d ℝ)
        = some s1 ∧
      (s1.flockLL 0).map (fun b => (b.globalID, b.oldPos, b.newDir))
        = [(1, { x := 1, y := 0, z := 0 }, { x := -1, y := 0, z := 0 }),
           (0, { x := 9, y := 0, z := 0 }, { x := -1, y := 0, z := 0 })] := by
  have hi : flockIndex (0 : Int) = some (0 : Fin MAX_FLOCKS) := by decide
  have e1 : ((1 : Fin MAX_FLOCKS) = 0) = False := by simp
  have e2 : ((2 : Fin MAX_FLOCKS) = 0) = False := by decide
  have e3 : ((3 : Fin MAX_FLOCKS) = 0) = False := by decide
  have e4 : ((4 : Fin MAX_FLOCKS) = 0) = False := by decide
  have e5 : ((5 : Fin MAX_FLOCKS) = 0) = False := by decide
  simp only [FlightStep, flockSlots, List.foldl_cons, List.foldl_nil, flightFlock,
    demoAttractState, demoParams, jit_boids3d_new, if_true, flightLoop, demoBoidAt, hi]
  norm_num [flightLoop, steerBoid, steerPrepare, steerComposed, composeHeading,
    CalcFlockCenterAndNeighborVel, allBoids, flockSlots, scanBoid, DistSqrToPt,
    NormalizeVelocity, SeekPoint, SeekAttractors, seekAttractorsLoop, AvoidWalls, clampSpeed,
    kFlyRectScalingFactor, Function.update, InFront, inFrontPlane, lineAlreadyExists,
    InitNeighborhoodLine, kMaxNeighbors, kMaxNeighborLines, e1, e2, e3, e4, e5,
    jit_boids3d_attractpt, jit_boids3d_addattractor, InitAttractor, addattractorScan,
    sqrt_sixty_four, sqrt_eighty_one, sqrt_four]

/-- One tick of the carry example, evaluated: the agent of flock 1 ends heading
`(-1, 0, 0)`. -/
theorem demoCarryState_tick :
    ∃ s1, FlightStep ⟨Real.sqrt, Real.sin, Real.cos⟩ (demoCarryState : t_jit_boids3d ℝ)
        = some s1 ∧
      (s1.flockLL 1).map (fun b => (b.globalID, b.oldPos, b.newDir))
        = [(1, { x := 1, y := 0, z := 0 }, { x := -1, y := 0, z := 0 })] := by
  have hi : flockIndex (0 : Int) = some (0 : Fin MAX_FLOCKS) := by decide
  have e1 : ((1 : Fin MAX_FLOCKS) = 0) = False := by simp
  have e2 : ((2 : Fin MAX_FLOCKS) = 0) = False := by decide
  have e3 : ((3 : Fin MAX_FLOCKS) = 0) = False := by decide
  have e4 : ((4 : Fin MAX_FLOCKS) = 0) = False := by decide
  have e5 : ((5 : Fin MAX_FLOCKS) = 0) = False := by decide
  have hi1 : flockIndex (1 : Int) = some (1 : Fin MAX_FLOCKS) := by decide
  have d0 : ((0 : Fin MAX_FLOCKS) = 1) = False := by simp
  have d2 : ((2 : Fin MAX_FLOCKS) = 1) = False := by decide
  have d3 : ((3 : Fin MAX_FLOCKS) = 1) = False := by decide
  have d4 : ((4 : Fin MAX_FLOCKS) = 1) = False := by decide
  have d5 : ((5 : Fin MAX_FLOCKS) = 1) = False := by decide
  simp only [FlightStep, flockSlots, List.foldl_cons, List.foldl_nil, flightFlock,
    demoCarryState, demoParams, jit_boids3d_new, if_true, flightLoop, demoBoidAt, hi, hi1]
  norm_num [flightLoop, steerBoid, steerPrepare, steerComposed, composeHeading,
    CalcFlockCenterAndNeighborVel, allBoids, flockSlots, scanBoid, DistSqrToPt,
    NormalizeVelocity, SeekPoint, SeekAttractors, seekAttractorsLoop, AvoidWalls, clampSpeed,
    kFlyRectScalingFactor, Function.update, InFront, inFrontPlane, lineAlreadyExists,
    InitNeighborhoodLine, kMaxNeighbors, kMaxNeighborLines, e1, e2, e3, e4, e5,
    d0, d2, d3, d4, d5, hi, hi1, sqrt_four]

/-- One tick of the order example with A stored before B, evaluated: A turns to
`(-1, 0, 0)`. -/
theorem demoOrderState_tick_AB :
    ∃ s1, FlightStep ⟨Real.sqrt, Real.sin, Real.cos⟩
        (demoOrderState demoOrderA demoOrderB : t_jit_boids3d ℝ) = some s1 ∧
      (s1.flockLL 0).map (fun b => (b.globalID, b.newDir))
        = [(0, { x := -1, y := 0, z := 0 }), (1, { x := 1, y := 0, z := 0 })] := by
  have hi : flockIndex (0 : Int) = some (0 : Fin MAX_FLOCKS) := by decide
  have e1 : ((1 : Fin MAX_FLOCKS) = 0) = False := by simp
  have e2 : ((2 : Fin MAX_FLOCKS) = 0) = False := by decide
  have e3 : ((3 : Fin MAX_FLOCKS) = 0) = False := by decide
  have e4 : ((4 : Fin MAX_FLOCKS) = 0) = False := by decide
  have e5 : ((5 : Fin MAX_FLOCKS) = 0) = False := by decide
  simp only [FlightStep, flockSlots, List.foldl_cons, List.foldl_nil, flightFlock,
    demoOrderState, demoOrderA, demoOrderB, demoParams, jit_boids3d_new, if_true, flightLoop,
    demoBoidAt, hi]
  norm_num [flightLoop, steerBoid, steerPrepare, steerComposed, composeHeading,
    CalcFlockCenterAndNeighborVel, allBoids, flockSlots, scanBoid, DistSqrToPt,
    NormalizeVelocity, SeekPoint, SeekAttractors, seekAttractorsLoop, AvoidWalls, clampSpeed,
    kFlyRectScalingFactor, Function.update, InFront, inFrontPlane, lineAlreadyExists,
    InitNeighborhoodLine, kMaxNeighbors, kMaxNeighborLines, e1, e2, e3, e4, e5,
    sqrt_sixty_four, sqrt_eighty_one, sqrt_four]

/-- One tick of the order example with B stored before A, evaluated: A keeps heading
`(1, 0, 0)`. -/
theorem demoOrderState_tick_BA :
    ∃ s1, FlightStep ⟨Real.sqrt, Real.sin, Real.cos⟩
        (demoOrderState demoOrderB demoOrderA : t_jit_boids3d ℝ) = some s1 ∧
      (s1.flockLL 0).map (fun b => (b.globalID, b.newDir))
        = [(1, { x := 1, y := 0, z := 0 }), (0, { x := 1, y := 0, z := 0 })] := by
  have hi : flockIndex (0 : Int) = some (0 : Fin MAX_FLOCKS) := by decide
  have e1 : ((1 : Fin MAX_FLOCKS) = 0) = False := by simp
  have e2 : ((2 : Fin MAX_FLOCKS) = 0) = False := by decide
  have e3 : ((3 : Fin MAX_FLOCKS) = 0) = False := by decide
  have e4 : ((4 : Fin MAX_FLOCKS) = 0) = False := by decide
  have e5 : ((5 : Fin MAX_FLOCKS) = 0) = False := by decide
  simp only [FlightStep, flockSlots, List.foldl_cons, List.foldl_nil, flightFlock,
    demoOrderState, demoOrderA, demoOrderB, demoParams, jit_boids3d_new, if_true, flightLoop,
    demoBoidAt, hi]
  norm_num [flightLoop, steerBoid, steerPrepare, steerComposed, composeHeading,
    CalcFlockCenterAndNeighborVel, allBoids, flockSlots, scanBoid, DistSqrToPt,
    NormalizeVelocity, SeekPoint, SeekAttractors, seekAttractorsLoop, AvoidWalls, clampSpeed,
    kFlyRectScalingFactor, Function.update, InFront, inFrontPlane, lineAlreadyExists,
    InitNeighborhoodLine, kMaxNeighbors, kMaxNeighborLines, e1, e2, e3, e4, e5,
    sqrt_sixty_four, sqrt_eighty_one, sqrt_four]

theorem scanBoid_skip (H : Host F) (s : t_jit_boids3d F) (theBoid : Boid F)
    (f : Fin MAX_FLOCKS) (acc : NeighborScan F) (it : Boid F)
    (h : qualifies H s theBoid f it = false ∨ ¬ acc.neighborsCount < kMaxNeighbors) :
    scanBoid H s theBoid f acc it = acc := by
  unfold scanBoid
  simp only
  by_cases h1 : H.sqrt (DistSqrToPt theBoid.oldPos it.oldPos) < s.neighborRadius f ∧
      H.sqrt (DistSqrToPt theBoid.oldPos it.oldPos) > 0 ∧ acc.neighborsCount < kMaxNeighbors
  · rw [if_pos h1]
    by_cases h2 : s.allowNeighborsFromDiffFlock = 0 ∧ it.flockID ≠ theBoid.flockID
    · rw [if_pos h2]
    · exfalso
      rcases h with h | h
      · have hq : qualifies H s theBoid f it = true := by
          unfold qualifies
          exact decide_eq_true ⟨h1.1, h1.2.1, h2⟩
        rw [hq] at h
        exact Bool.noConfusion h
      · exact h h1.2.2
  · rw [if_neg h1]

theorem scanBoid_accumulate (H : Host F) (s : t_jit_boids3d F) (theBoid : Boid F)
    (f : Fin MAX_FLOCKS) (acc : NeighborScan F) (it : Boid F)
    (hq : qualifies H s theBoid f it = true) (hc : acc.neighborsCount < kMaxNeighbors) :
    (scanBoid H s theBoid f acc it).neighborsCount = acc.neighborsCount + 2 ∧
    (scanBoid H s theBoid f acc it).totalH = acc.totalH + it.oldPos.x ∧
    (scanBoid H s theBoid f acc it).totalV = acc.totalV + it.oldPos.y ∧
    (scanBoid H s theBoid f acc it).totalD = acc.totalD + it.oldPos.z ∧
    (scanBoid H s theBoid f acc it).matchNeighborVel.x
      = acc.matchNeighborVel.x + it.oldDir.x ∧
    (scanBoid H s theBoid f acc it).matchNeighborVel.y
      = acc.matchNeighborVel.y + it.oldDir.y ∧
    (scanBoid H s theBoid f acc it).matchNeighborVel.z
      = acc.matchNeighborVel.z + it.oldDir.z := by
  unfold qualifies at hq
  have hq1 := of_decide_eq_true hq
  have h1 : H.sqrt (DistSqrToPt theBoid.oldPos it.oldPos) < s.neighborRadius f ∧
      H.sqrt (DistSqrToPt theBoid.oldPos it.oldPos) > 0 ∧ acc.neighborsCount < kMaxNeighbors :=
    ⟨hq1.1, hq1.2.1, hc⟩
  unfold scanBoid
  simp only
  rw [if_pos h1, if_neg hq1.2.2]
  exact ⟨by ring, rfl, rfl, rfl, rfl, rfl, rfl⟩

/-- The scan accumulates the first qualifying agents until `neighborsCount`, which grows by
2 per accumulated agent, reaches `kMaxNeighbors = 200`. -/
theorem scanFold_accumulates (H : Host F) (s : t_jit_boids3d F) (theBoid : Boid F)
    (f : Fin MAX_FLOCKS) (l : List (Boid F)) (acc : NeighborScan F) (n : Nat)
    (hn : acc.neighborsCount = 2 * (n : Int)) (hle : n ≤ 100) :
    (l.foldl (scanBoid H s theBoid f) acc).neighborsCount
      = 2 * (((n + ((l.filter (qualifies H s theBoid f)).take (100 - n)).length : Nat)) : Int) ∧
    (l.foldl (scanBoid H s theBoid f) acc).totalH = acc.totalH +
      (((l.filter (qualifies H s theBoid f)).take (100 - n)).map fun b => b.oldPos.x).sum ∧
    (l.foldl (scanBoid H s theBoid f) acc).totalV = acc.totalV +
      (((l.filter (qualifies H s theBoid f)).take (100 - n)).map fun b => b.oldPos.y).sum ∧
    (l.foldl (scanBoid H s theBoid f) acc).totalD = acc.totalD +
      (((l.filter (qualifies H s theBoid f)).take (100 - n)).map fun b => b.oldPos.z).sum ∧
    (l.foldl (scanBoid H s theBoid f) acc).matchNeighborVel.x = acc.matchNeighborVel.x +
      (((l.filter (qualifies H s theBoid f)).take (100 - n)).map fun b => b.oldDir.x).sum ∧
    (l.foldl (scanBoid H s theBoid f) acc).matchNeighborVel.y = acc.matchNeighborVel.y +
      (((l.filter (qualifies H s theBoid f)).take (100 - n)).map fun b => b.oldDir.y).sum ∧
    (l.foldl (scanBoid H s theBoid f) acc).matchNeighborVel.z = acc.matchNeighborVel.z +
      (((l.filter (qualifies H s theBoid f)).take (100 - n)).map fun b => b.oldDir.z).sum := by
  induction l generalizing acc n with
  | nil => simpa using hn
  | cons a l ih =>
    rw [List.foldl_cons]
    by_cases hq : qualifies H s theBoid f a = true
    · rw [List.filter_cons_of_pos hq]
      by_cases hlt : n < 100
      · have hc : acc.neighborsCount < kMaxNeighbors := by
          rw [hn]
          unfold kMaxNeighbors
          omega
        obtain ⟨e0, e1, e2, e3, e4, e5, e6⟩ := scanBoid_accumulate H s theBoid f acc a hq hc
        have hn1 : (scanBoid H s theBoid f acc a).neighborsCount = 2 * ((n + 1 : Nat) : Int) := by
          rw [e0, hn]
          push_cast
          ring
        obtain ⟨i0, i1, i2, i3, i4, i5, i6⟩ := ih (scanBoid H s theBoid f acc a) (n + 1) hn1 hlt
        have ht : 100 - n = (100 - (n + 1)) + 1 := by omega
        rw [ht, List.take_succ_cons]
        simp only [List.length_cons, List.map_cons, List.sum_cons]
        refine ⟨?_, ?_, ?_, ?_, ?_, ?_, ?_⟩
        · rw [i0]
          congr 2
          omega
        · rw [i1, e1, add_assoc]
        · rw [i2, e2, add_assoc]
        · rw [i3, e3, add_assoc]
        · rw [i4, e4, add_assoc]
        · rw [i5, e5, add_assoc]
        · rw [i6, e6, add_assoc]
      · have hn100 : n = 100 := by omega
        have hc : ¬ acc.neighborsCount < kMaxNeighbors := by
          rw [hn, hn100]
          unfold kMaxNeighbors
          omega
        rw [scanBoid_skip H s theBoid f acc a (Or.inr hc)]
        have := ih acc n hn hle
        rw [hn100] at this ⊢
        simpa using this
    · have hq2 : qualifies H s theBoid f a = false := by simpa using hq
      rw [List.filter_cons_of_neg hq, scanBoid_skip H s theBoid f acc a (Or.inl hq2)]
      exact ih acc n hn hle

/-- What `CalcFlockCenterAndNeighborVel` returns, in terms of the first 100 qualifying
agents: the centroid is the sum of their previous positions divided by twice their number
(the agent's own previous position when there is none), the alignment vector the normalized
sum of their previous headings. -/
theorem CalcFlock_accumulated (H : Host F) (s : t_jit_boids3d F) (theBoid : Boid F)
    (f : Fin MAX_FLOCKS) (separationNeighborVel : Vec3 F) :
    (CalcFlockCenterAndNeighborVel H s theBoid f separationNeighborVel).1.tempCenterPt
      = (if ((qualifyingNeighbors H s theBoid f).take 100).length = 0 then theBoid.oldPos
        else
          { x := (sumOldPos ((qualifyingNeighbors H s theBoid f).take 100)).x /
              (2 * (((qualifyingNeighbors H s theBoid f).take 100).length : F))
            y := (sumOldPos ((qualifyingNeighbors H s theBoid f).take 100)).y /
              (2 * (((qualifyingNeighbors H s theBoid f).take 100).length : F))
            z := (sumOldPos ((qualifyingNeighbors H s theBoid f).take 100)).z /
              (2 * (((qualifyingNeighbors H s theBoid f).take 100).length : F)) }) ∧
    (CalcFlockCenterAndNeighborVel H s theBoid f separationNeighborVel).2.1
      = NormalizeVelocity H (sumOldDir ((qualifyingNeighbors H s theBoid f).take 100)) := by
  obtain ⟨i0, i1, i2, i3, i4, i5, i6⟩ := scanFold_accumulates H s theBoid f (allBoids s)
    { totalH := 0, totalV := 0, totalD := 0
      matchNeighborVel := { x := 0, y := 0, z := 0 }
      separationNeighborVel := separationNeighborVel
      avoidSpeed := theBoid.speed
      neighborsCount := 0
      lines := s.neighborhoodConnections } 0 rfl (Nat.zero_le _)
  simp only [Nat.sub_zero, zero_add] at i0 i1 i2 i3 i4 i5 i6
  constructor
  · simp only [CalcFlockCenterAndNeighborVel, qualifyingNeighbors, sumOldPos]
    rw [i0, i1, i2, i3]
    by_cases hl : (List.take 100 (List.filter (qualifies H s theBoid f) (allBoids s))).length = 0
    · rw [if_pos hl, if_neg (by rw [hl]; decide)]
    · rw [if_neg hl, if_pos (by omega)]
      push_cast
      rfl
  · simp only [CalcFlockCenterAndNeighborVel, qualifyingNeighbors, sumOldDir]
    congr 1
    cases hm : (List.foldl (scanBoid H s theBoid f)
      { totalH := 0, totalV := 0, totalD := 0
        matchNeighborVel := { x := 0, y := 0, z := 0 }
        separationNeighborVel := separationNeighborVel
        avoidSpeed := theBoid.speed
        neighborsCount := 0
        lines := s.neighborhoodConnections } (allBoids s)).matchNeighborVel with
    | mk a b c =>
      rw [hm] at i4 i5 i6
      simp only at i4 i5 i6
      rw [i4, i5, i6]

theorem allBoids_demoCrowdState :
    allBoids (demoCrowdState : t_jit_boids3d F)
      = demoOrderA :: ((List.range 100).map demoCrowdBoid ++ [demoCrowdLast]) := by
  have e1 : ((1 : Fin MAX_FLOCKS) = 0) = False := by simp
  have e2 : ((2 : Fin MAX_FLOCKS) = 0) = False := by decide
  have e3 : ((3 : Fin MAX_FLOCKS) = 0) = False := by decide
  have e4 : ((4 : Fin MAX_FLOCKS) = 0) = False := by decide
  have e5 : ((5 : Fin MAX_FLOCKS) = 0) = False := by decide
  simp only [allBoids, flockSlots, demoCrowdState, List.flatMap_cons, List.flatMap_nil,
    if_true, e1, e2, e3, e4, e5, if_false, List.append_nil]

/-- In the crowd example the agents that qualify as neighbors of agent 0 are the 100 agents
heading `(1, 0, 0)` followed by the agent heading `(0, 1, 0)`. -/
theorem qualifyingNeighbors_demoCrowdState :
    qualifyingNeighbors ⟨Real.sqrt, Real.sin, Real.cos⟩ (demoCrowdState : t_jit_boids3d ℝ)
        demoOrderA 0
      = (List.range 100).map demoCrowdBoid ++ [demoCrowdLast] := by
  have hA : qualifies ⟨Real.sqrt, Real.sin, Real.cos⟩ (demoCrowdState : t_jit_boids3d ℝ)
      demoOrderA 0 demoOrderA = false := by
    simp [qualifies, demoOrderA, demoBoidAt, DistSqrToPt]
  have hB : ∀ k, qualifies ⟨Real.sqrt, Real.sin, Real.cos⟩
      (demoCrowdState : t_jit_boids3d ℝ) demoOrderA 0 (demoCrowdBoid k) = true := by
    intro k
    norm_num [qualifies, demoOrderA, demoCrowdBoid, demoBoidAt, DistSqrToPt, demoCrowdState]
  have hL : qualifies ⟨Real.sqrt, Real.sin, Real.cos⟩ (demoCrowdState : t_jit_boids3d ℝ)
      demoOrderA 0 demoCrowdLast = true := by
    norm_num [qualifies, demoOrderA, demoCrowdLast, demoBoidAt, DistSqrToPt, demoCrowdState]
  rw [qualifyingNeighbors, allBoids_demoCrowdState, List.filter_cons_of_neg (by simp [hA]),
    List.filter_append, List.filter_cons_of_pos hL, List.filter_nil]
  congr 1
  rw [List.filter_eq_self]
  intro b hb
  obtain ⟨k, _, rfl⟩ := List.mem_map.mp hb
  exact hB k

theorem sumOldDir_demoCrowd :
    sumOldDir ((List.range 100).map (demoCrowdBoid : Nat → Boid ℝ))
      = { x := 100, y := 0, z := 0 } := by
  have hx : (fun b : Boid ℝ => b.oldDir.x) ∘ demoCrowdBoid = fun _ => (1 : ℝ) := rfl
  have hy : (fun b : Boid ℝ => b.oldDir.y) ∘ demoCrowdBoid = fun _ => (0 : ℝ) := rfl
  have hz : (fun b : Boid ℝ => b.oldDir.z) ∘ demoCrowdBoid = fun _ => (0 : ℝ) := rfl
  simp only [sumOldDir, List.map_map, hx, hy, hz, List.map_const', List.length_range,
    List.sum_replicate, smul_eq_mul, mul_zero, nsmul_eq_mul, mul_one]
  norm_num

theorem samePair_iff (l1 l2 : NeighborLine F) :
    samePair l1 l2 ↔
      (l1.aID = l2.aID ∧ l1.bID = l2.bID) ∨ (l1.aID = l2.bID ∧ l1.bID = l2.aID) := by
  unfold samePair
  constructor
  · intro h
    have h1 := Finset.ext_iff.mp h l1.aID
    have h2 := Finset.ext_iff.mp h l1.bID
    have h3 := Finset.ext_iff.mp h l2.aID
    have h4 := Finset.ext_iff.mp h l2.bID
    simp only [Finset.mem_insert, Finset.mem_singleton, true_or, or_true, true_iff,
      iff_true] at h1 h2 h3 h4
    omega
  · rintro (⟨h1, h2⟩ | ⟨h1, h2⟩)
    · rw [h1, h2]
    · rw [h1, h2, Finset.pair_comm]

/-- The line appended by the scan joins a pair of IDs that no stored line joins. -/
theorem scanBoid_lines_distinct (H : Host F) (s : t_jit_boids3d F) (theBoid : Boid F)
    (f : Fin MAX_FLOCKS) (acc : NeighborScan F) (it : Boid F)
    (h : acc.lines.Pairwise (fun l1 l2 => ¬ samePair l1 l2)) :
    (scanBoid H s theBoid f acc it).lines.Pairwise (fun l1 l2 => ¬ samePair l1 l2) := by
  rcases scanBoid_lines_cases H s theBoid f acc it with hc | ⟨hc, _, _, hex, _⟩
  · rw [hc]
    exact h
  · rw [hc, List.pairwise_append]
    refine ⟨h, List.pairwise_singleton _ _, ?_⟩
    intro a ha b hb
    rw [List.mem_singleton] at hb
    subst hb
    rw [samePair_iff]
    unfold lineAlreadyExists at hex
    rw [List.any_eq_false] at hex
    have := hex a ha
    simp only [decide_eq_true_eq] at this
    simp only [InitNeighborhoodLine]
    tauto

theorem Frame.minspeed {s s1 : t_jit_boids3d F} (h : Frame s s1) :
    s1.minspeed = s.minspeed := by
  unfold Frame at h
  rw [h]

theorem Frame.maxspeed {s s1 : t_jit_boids3d F} (h : Frame s s1) :
    s1.maxspeed = s.maxspeed := by
  unfold Frame at h
  rw [h]

theorem Frame.speed {s s1 : t_jit_boids3d F} (h : Frame s s1) : s1.speed = s.speed := by
  unfold Frame at h
  rw [h]

theorem steerBoid_speed (H : Host F) (i f : Fin MAX_FLOCKS) (done : List (Boid F)) (b : Boid F)
    (rest : List (Boid F)) (s : t_jit_boids3d F) (L : FlightLocals F) :
    (steerBoid H i f done b rest s L).1.speed
      = clampSpeed s f (H.sqrt ((steerComposed H i f done b rest s L).x ^ 2 +
          (steerComposed H i f done b rest s L).y ^ 2 +
          (steerComposed H i f done b rest s L).z ^ 2)) := rfl

theorem steerBoid_newPos (H : Host F) (i f : Fin MAX_FLOCKS) (done : List (Boid F)) (b : Boid F)
    (rest : List (Boid F)) (s : t_jit_boids3d F) (L : FlightLocals F) :
    (steerBoid H i f done b rest s L).1.newPos
      = { x := (steerBoid H i f done b rest s L).1.oldPos.x +
            (steerBoid H i f done b rest s L).1.newDir.x *
              (1 / 2 * (steerBoid H i f done b rest s L).1.speed) * (s.speed f / 100)
          y := (steerBoid H i f done b rest s L).1.oldPos.y +
            (steerBoid H i f done b rest s L).1.newDir.y *
              (1 / 2 * (steerBoid H i f done b rest s L).1.speed) * (s.speed f / 100)
          z := (steerBoid H i f done b rest s L).1.oldPos.z +
            (steerBoid H i f done b rest s L).1.newDir.z *
              (1 / 2 * (steerBoid H i f done b rest s L).1.speed) * (s.speed f / 100) } := rfl

theorem clampSpeed_clamped (s : t_jit_boids3d F) (f : Fin MAX_FLOCKS) (raw : F)
    (h : s.minspeed f ≤ s.maxspeed f) :
    ClampedTo (s.minspeed f) (s.maxspeed f) raw (clampSpeed s f raw) := by
  unfold ClampedTo clampSpeed
  by_cases h1 : raw ≥ s.minspeed f ∧ raw ≤ s.maxspeed f
  · rw [if_pos h1]
    exact ⟨fun _ => rfl, fun h2 => absurd h1.2 (not_le.mpr h2),
      fun h2 => absurd h1.1 (not_le.mpr h2), h1.1, h1.2⟩
  · rw [if_neg h1]
    by_cases h2 : raw > s.maxspeed f
    · rw [if_pos h2]
      exact ⟨fun h3 => absurd h3 h1, fun _ => rfl,
        fun h3 => absurd (lt_trans (lt_of_lt_of_le h3 h) h2) (lt_irrefl _), h, le_refl _⟩
    · rw [if_neg h2]
      have h3 : raw < s.minspeed f := by
        by_contra h4
        exact h1 ⟨not_lt.mp h4, not_lt.mp h2⟩
      exact ⟨fun h4 => absurd h4 h1, fun h4 => absurd h4 h2, fun _ => rfl, le_refl _, h⟩

/-! ## The accel factor -/

theorem scanBoid_accel (H : Host F) (s : t_jit_boids3d F) (a : Fin MAX_FLOCKS → F)
    (theBoid : Boid F) (f : Fin MAX_FLOCKS) (acc : NeighborScan F) (v : F) (it : Boid F) :
    ∃ w, scanBoid H { s with accel := a } theBoid f { acc with avoidSpeed := v } it
      = { scanBoid H s theBoid f acc it with avoidSpeed := w } := by
  unfold scanBoid
  simp only
  by_cases h1 : H.sqrt (DistSqrToPt theBoid.oldPos it.oldPos) < s.neighborRadius f ∧
      H.sqrt (DistSqrToPt theBoid.oldPos it.oldPos) > 0 ∧ acc.neighborsCount < kMaxNeighbors
  · rw [if_pos h1, if_pos h1]
    by_cases h2 : s.allowNeighborsFromDiffFlock = 0 ∧ it.flockID ≠ theBoid.flockID
    · rw [if_pos h2, if_pos h2]
      exact ⟨v, rfl⟩
    · rw [if_neg h2, if_neg h2]
      exact ⟨_, rfl⟩
  · rw [if_neg h1, if_neg h1]
    exact ⟨v, rfl⟩

theorem scanFold_accel (H : Host F) (s : t_jit_boids3d F) (a : Fin MAX_FLOCKS → F)
    (theBoid : Boid F) (f : Fin MAX_FLOCKS) (l : List (Boid F)) :
    ∀ (acc : NeighborScan F) (v : F),
      ∃ w, l.foldl (scanBoid H { s with accel := a } theBoid f) { acc with avoidSpeed := v }
        = { l.foldl (scanBoid H s theBoid f) acc with avoidSpeed := w } := by
  induction l with
  | nil => intro acc v; exact ⟨v, rfl⟩
  | cons it l ih =>
    intro acc v
    obtain ⟨w, hw⟩ := scanBoid_accel H s a theBoid f acc v it
    rw [List.foldl_cons, List.foldl_cons, hw]
    exact ih _ w

/-- The neighbor scan does not depend on the accel factors. -/
theorem CalcFlock_accel (H : Host F) (s : t_jit_boids3d F) (a : Fin MAX_FLOCKS → F)
    (theBoid : Boid F) (f : Fin MAX_FLOCKS) (separationNeighborVel : Vec3 F) :
    CalcFlockCenterAndNeighborVel H { s with accel := a } theBoid f separationNeighborVel
      = ({ (CalcFlockCenterAndNeighborVel H s theBoid f separationNeighborVel).1 with
            accel := a },
          (CalcFlockCenterAndNeighborVel H s theBoid f separationNeighborVel).2) := by
  obtain ⟨w, hw⟩ := scanFold_accel H s a theBoid f (allBoids s)
    { totalH := 0, totalV := 0, totalD := 0
      matchNeighborVel := { x := 0, y := 0, z := 0 }
      separationNeighborVel := separationNeighborVel
      avoidSpeed := theBoid.speed
      neighborsCount := 0
      lines := s.neighborhoodConnections } theBoid.speed
  have hw2 : (allBoids ({ s with accel := a } : t_jit_boids3d F)).foldl
      (scanBoid H { s with accel := a } theBoid f)
      { totalH := 0, totalV := 0, totalD := 0
        matchNeighborVel := { x := 0, y := 0, z := 0 }
        separationNeighborVel := separationNeighborVel
        avoidSpeed := theBoid.speed
        neighborsCount := 0
        lines := ({ s with accel := a } : t_jit_boids3d F).neighborhoodConnections }
      = { (allBoids s).foldl (scanBoid H s theBoid f)
          { totalH := 0, totalV := 0, totalD := 0
            matchNeighborVel := { x := 0, y := 0, z := 0 }
            separationNeighborVel := separationNeighborVel
            avoidSpeed := theBoid.speed
            neighborsCount := 0
            lines := s.neighborhoodConnections } with avoidSpeed := w } := hw
  unfold CalcFlockCenterAndNeighborVel
  simp only
  rw [hw2]

theorem steerBoid_accel (H : Host F) (i f : Fin MAX_FLOCKS) (done : List (Boid F)) (b : Boid F)
    (rest : List (Boid F)) (s : t_jit_boids3d F) (a : Fin MAX_FLOCKS → F)
    (L : FlightLocals F) :
    steerBoid H i f done b rest { s with accel := a } L
      = ((steerBoid H i f done b rest s L).1,
          { (steerBoid H i f done b rest s L).2.1 with accel := a },
          (steerBoid H i f done b rest s L).2.2) := by
  have hC : CalcFlockCenterAndNeighborVel H
      ({ ({ s with accel := a } : t_jit_boids3d F) with
        flockLL := (Function.update ({ s with accel := a } : t_jit_boids3d F).flockLL i
          (done ++ { b with oldPos := b.newPos, oldDir := b.newDir } :: rest)) })
      { b with oldPos := b.newPos, oldDir := b.newDir } f L.separationNeighborVel
      = _ :=
    CalcFlock_accel H
      { s with flockLL := (Function.update s.flockLL i
          (done ++ { b with oldPos := b.newPos, oldDir := b.newDir } :: rest)) }
      a { b with oldPos := b.newPos, oldDir := b.newDir } f L.separationNeighborVel
  unfold steerBoid steerComposed steerPrepare
  simp only
  rw [hC]
  rfl

theorem flightLoop_accel (H : Host F) (i : Fin MAX_FLOCKS) (a : Fin MAX_FLOCKS → F)
    (todo : List (Boid F)) :
    ∀ (done : List (Boid F)) (s : t_jit_boids3d F) (L : FlightLocals F),
      flightLoop H i todo done { s with accel := a } L
        = (flightLoop H i todo done s L).map (fun p => ({ p.1 with accel := a }, p.2)) := by
  induction todo with
  | nil => intro done s L; rfl
  | cons b rest ih =>
    intro done s L
    simp only [flightLoop]
    cases hf : flockIndex b.flockID with
    | none => rfl
    | some f =>
      simp only
      by_cases hage : (((b.age + 1 : Int)) : F) > s.age f ∧ s.age f ≠ -1
      · rw [if_pos hage, if_pos hage]
        exact ih done
          { s with
            flockLL := Function.update s.flockLL i (done ++ rest)
            boidCount := Function.update s.boidCount i (s.boidCount i - 1) } L
      · rw [if_neg hage, if_neg hage, steerBoid_accel]
        exact ih _ _ _

theorem flightFold_accel (H : Host F) (a : Fin MAX_FLOCKS → F) (l : List (Fin MAX_FLOCKS)) :
    ∀ acc : Option (t_jit_boids3d F × FlightLocals F),
      l.foldl (flightFlock H) (acc.map (fun p => ({ p.1 with accel := a }, p.2)))
        = (l.foldl (flightFlock H) acc).map (fun p => ({ p.1 with accel := a }, p.2)) := by
  induction l with
  | nil => intro acc; rfl
  | cons i l ih =>
    intro acc
    rw [List.foldl_cons, List.foldl_cons, ← ih]
    congr 1
    cases acc with
    | none => rfl
    | some p =>
      obtain ⟨s, L⟩ := p
      exact flightLoop_accel H i a (s.flockLL i) [] s L

/-- A tick from the state with other accel factors is the tick from the state itself, with
the accel factors replaced in the result. -/
theorem FlightStep_accel (H : Host F) (s : t_jit_boids3d F) (a : Fin MAX_FLOCKS → F) :
    FlightStep H { s with accel := a }
      = (FlightStep H s).map (fun s1 => { s1 with accel := a }) := by
  unfold FlightStep
  simp only
  have h := flightFold_accel H a flockSlots
    (some ({ s with neighborhoodConnections := [] },
      { goCenterVel := { x := 0, y := 0, z := 0 }, goAttractVel := { x := 0, y := 0, z := 0 },
        matchNeighborVel := { x := 0, y := 0, z := 0 },
        separationNeighborVel := { x := 0, y := 0, z := 0 } }))
  simp only [Option.map_some'] at h
  rw [h, Option.map_map, Option.map_map]
  rfl

/-! ## A lone agent -/

theorem flatMap_empty {α : Type} (g : Fin MAX_FLOCKS → List α) (l : List (Fin MAX_FLOCKS))
    (h : ∀ j ∈ l, g j = []) : l.flatMap g = [] := by
  induction l with
  | nil => rfl
  | cons j l ih =>
    rw [List.flatMap_cons, h j (List.mem_cons_self _ _),
      ih (fun k hk => h k (List.mem_cons_of_mem _ hk))]
    rfl

theorem flatMap_single {α : Type} (g : Fin MAX_FLOCKS → List α) (i : Fin MAX_FLOCKS)
    (h : ∀ j, j ≠ i → g j = []) (l : List (Fin MAX_FLOCKS)) (hnd : l.Nodup) (hi : i ∈ l) :
    l.flatMap g = g i := by
  induction l with
  | nil => cases hi
  | cons j l ih =>
    rw [List.nodup_cons] at hnd
    rw [List.flatMap_cons]
    by_cases hj : j = i
    · subst hj
      rw [flatMap_empty g l (fun k hk => h k (fun e => hnd.1 (e ▸ hk))), List.append_nil]
    · rw [h j hj, List.nil_append]
      rcases List.mem_cons.mp hi with e | e
      · exact absurd e.symm hj
      · exact ih hnd.2 e

theorem allBoids_lone (s : t_jit_boids3d F) (i : Fin MAX_FLOCKS)
    (h : ∀ j, j ≠ i → s.flockLL j = []) : allBoids s = s.flockLL i :=
  flatMap_single s.flockLL i h flockSlots nodup_flockSlots (mem_flockSlots i)

theorem flightFold_empty (H : Host F) (l : List (Fin MAX_FLOCKS)) (s : t_jit_boids3d F)
    (L : FlightLocals F) (h : ∀ j ∈ l, s.flockLL j = []) :
    l.foldl (flightFlock H) (some (s, L)) = some (s, L) := by
  induction l with
  | nil => rfl
  | cons j l ih =>
    rw [List.foldl_cons]
    have hj : flightFlock H (some (s, L)) j = some (s, L) := by
      simp only [flightFlock, h j (List.mem_cons_self _ _), flightLoop]
    rw [hj]
    exact ih (fun k hk => h k (List.mem_cons_of_mem _ hk))

theorem flightFold_lone (H : Host F) (i : Fin MAX_FLOCKS) (s : t_jit_boids3d F)
    (L : FlightLocals F) (r : t_jit_boids3d F × FlightLocals F)
    (h2 : ∀ j, j ≠ i → s.flockLL j = [])
    (hr : flightLoop H i (s.flockLL i) [] s L = some r)
    (hr2 : ∀ j, j ≠ i → r.1.flockLL j = [])
    (l : List (Fin MAX_FLOCKS)) (hnd : l.Nodup) (hi : i ∈ l) :
    l.foldl (flightFlock H) (some (s, L)) = some r := by
  induction l with
  | nil => cases hi
  | cons j l ih =>
    rw [List.nodup_cons] at hnd
    rw [List.foldl_cons]
    by_cases hj : j = i
    · subst hj
      have e : flightFlock H (some (s, L)) j = some r := by
        simp only [flightFlock]
        exact hr
      rw [e]
      obtain ⟨r1, r2⟩ := r
      exact flightFold_empty H l r1 r2 (fun k hk => hr2 k (fun e => hnd.1 (e ▸ hk)))
    · have e : flightFlock H (some (s, L)) j = some (s, L) := by
        simp only [flightFlock, h2 j hj, flightLoop]
      rw [e]
      rcases List.mem_cons.mp hi with e1 | e1
      · exact absurd e1.symm hj
      · exact ih hnd.2 e1

/-- The tick of a state holding one agent, which survives: the result is the state returned
by the steering of that agent, started from zero locals. -/
theorem FlightStep_lone (H : Host F) (s : t_jit_boids3d F) (i f : Fin MAX_FLOCKS) (b : Boid F)
    (h1 : s.flockLL i = [b]) (h2 : ∀ j, j ≠ i → s.flockLL j = [])
    (hf : flockIndex b.flockID = some f) (hsurv : survivesTick s.age b = true) :
    FlightStep H s = some (steerBoid H i f [] { b with age := b.age + 1 } []
      { s with neighborhoodConnections := [] }
      { goCenterVel := { x := 0, y := 0, z := 0 }, goAttractVel := { x := 0, y := 0, z := 0 },
        matchNeighborVel := { x := 0, y := 0, z := 0 },
        separationNeighborVel := { x := 0, y := 0, z := 0 } }).2.1 := by
  have hage : ¬ ((((b.age + 1 : Int)) : F) > s.age f ∧ s.age f ≠ -1) := by
    unfold survivesTick at hsurv
    rw [hf] at hsurv
    simp only [Bool.not_eq_true', decide_eq_false_iff_not] at hsurv
    exact hsurv
  have hloop : flightLoop H i (({ s with neighborhoodConnections := [] } :
      t_jit_boids3d F).flockLL i) [] { s with neighborhoodConnections := [] }
      { goCenterVel := { x := 0, y := 0, z := 0 }, goAttractVel := { x := 0, y := 0, z := 0 },
        matchNeighborVel := { x := 0, y := 0, z := 0 },
        separationNeighborVel := { x := 0, y := 0, z := 0 } }
      = some ((steerBoid H i f [] { b with age := b.age + 1 } []
          { s with neighborhoodConnections := [] }
          { goCenterVel := { x := 0, y := 0, z := 0 },
            goAttractVel := { x := 0, y := 0, z := 0 },
            matchNeighborVel := { x := 0, y := 0, z := 0 },
            separationNeighborVel := { x := 0, y := 0, z := 0 } }).2.1,
        (steerBoid H i f [] { b with age := b.age + 1 } []
          { s with neighborhoodConnections := [] }
          { goCenterVel := { x := 0, y := 0, z := 0 },
            goAttractVel := { x := 0, y := 0, z := 0 },
            matchNeighborVel := { x := 0, y := 0, z := 0 },
            separationNeighborVel := { x := 0, y := 0, z := 0 } }).2.2) := by
    show flightLoop H i (s.flockLL i) [] _ _ = _
    rw [h1]
    simp only [flightLoop, hf]
    rw [if_neg hage]
  have hfold := flightFold_lone H i { s with neighborhoodConnections := [] } _ _ h2 hloop
    (by
      intro j hj
      rw [steerBoid_flockLL]
      simp only [Function.update_noteq hj]
      exact h2 j hj)
    flockSlots nodup_flockSlots (mem_flockSlots i)
  unfold FlightStep
  simp only
  rw [hfold]
  rfl

/-- The steering locals of a lone agent without attractors, started from zero locals, are
all zero (`sqrt 0 = 0` makes the agent no neighbor of itself). -/
theorem steerPrepare_lone (H : Host F) (hs0 : H.sqrt 0 = 0) (s : t_jit_boids3d F)
    (i f : Fin MAX_FLOCKS) (b : Boid F) (h2 : ∀ j, j ≠ i → s.flockLL j = [])
    (hatt : s.attractorLL = []) :
    (steerPrepare H i f [] b [] s
      { goCenterVel := { x := 0, y := 0, z := 0 }, goAttractVel := { x := 0, y := 0, z := 0 },
        matchNeighborVel := { x := 0, y := 0, z := 0 },
        separationNeighborVel := { x := 0, y := 0, z := 0 } }).2.2
      = { goCenterVel := { x := 0, y := 0, z := 0 }, goAttractVel := { x := 0, y := 0, z := 0 },
          matchNeighborVel := { x := 0, y := 0, z := 0 },
          separationNeighborVel := { x := 0, y := 0, z := 0 } } := by
  have hall : allBoids ({ s with flockLL := (Function.update s.flockLL i
      ([] ++ ({ b with oldPos := b.newPos, oldDir := b.newDir } : Boid F) :: [])) } :
        t_jit_boids3d F)
      = [{ b with oldPos := b.newPos, oldDir := b.newDir }] := by
    rw [allBoids_lone _ i]
    · simp
    · intro j hj
      simp only [Function.update_noteq hj]
      exact h2 j hj
  have hq : ∀ (s1 : t_jit_boids3d F) (acc : NeighborScan F),
      scanBoid H s1 { b with oldPos := b.newPos, oldDir := b.newDir } f acc
        { b with oldPos := b.newPos, oldDir := b.newDir } = acc := by
    intro s1 acc
    apply scanBoid_skip
    left
    simp [qualifies, DistSqrToPt, hs0]
  unfold steerPrepare
  simp only [CalcFlockCenterAndNeighborVel, hall, List.foldl_cons, List.foldl_nil, hq,
    SeekPoint, lt_irrefl, if_false, sub_self, NormalizeVelocity_zero, gt_iff_lt]
  simp only [SeekAttractors, hatt, seekAttractorsLoop, NormalizeVelocity_zero]

theorem steerComposed_lone (H : Host F) (hs0 : H.sqrt 0 = 0) (s : t_jit_boids3d F)
    (i f : Fin MAX_FLOCKS) (b : Boid F) (h2 : ∀ j, j ≠ i → s.flockLL j = [])
    (hatt : s.attractorLL = []) :
    steerComposed H i f [] b [] s
      { goCenterVel := { x := 0, y := 0, z := 0 }, goAttractVel := { x := 0, y := 0, z := 0 },
        matchNeighborVel := { x := 0, y := 0, z := 0 },
        separationNeighborVel := { x := 0, y := 0, z := 0 } }
      = { x := s.inertia f * b.newDir.x, y := s.inertia f * b.newDir.y,
          z := s.inertia f * b.newDir.z } := by
  unfold steerComposed
  simp only
  rw [steerPrepare_lone H hs0 s i f b h2 hatt]
  simp [composeHeading, steerPrepare, CalcFlockCenterAndNeighborVel]

theorem AvoidWalls_abs (s : t_jit_boids3d F) (b : Boid F) (f : Fin MAX_FLOCKS) :
    |(AvoidWalls s b f).x| = |b.newDir.x| ∧ |(AvoidWalls s b f).y| = |b.newDir.y| ∧
      |(AvoidWalls s b f).z| = |b.newDir.z| := by
  refine ⟨?_, ?_, ?_⟩ <;>
  · simp only [AvoidWalls]
    split_ifs <;> simp

/-- The real square root of the squared length of a positive multiple of a vector. -/
theorem sqrt_scaled (k : ℝ) (hk : 0 < k) (v : Vec3 ℝ) :
    Real.sqrt (k * v.x * (k * v.x) + k * v.y * (k * v.y) + k * v.z * (k * v.z))
      = k * Real.sqrt (normSq v) := by
  have e : k * v.x * (k * v.x) + k * v.y * (k * v.y) + k * v.z * (k * v.z)
      = k ^ 2 * normSq v := by
    unfold normSq
    ring
  rw [e, Real.sqrt_mul (sq_nonneg k), Real.sqrt_sq hk.le]

/-- The heading stored by the steering is `AvoidWalls` applied to the agent carrying the
normalized composed heading, its snapshotted position and its clamped speed. -/
theorem steerBoid_walls (H : Host F) (i f : Fin MAX_FLOCKS) (done : List (Boid F)) (b : Boid F)
    (rest : List (Boid F)) (s : t_jit_boids3d F) (L : FlightLocals F) :
    ∃ (s2 : t_jit_boids3d F) (b2 : Boid F),
      (steerBoid H i f done b rest s L).1.newDir = AvoidWalls s2 b2 f ∧
      b2.newDir = NormalizeVelocity H (steerComposed H i f done b rest s L) ∧
      b2.oldPos = b.newPos ∧ b2.speed = (steerBoid H i f done b rest s L).1.speed ∧
      s2.flyrect = s.flyrect ∧ s2.speed = s.speed :=
  ⟨(steerPrepare H i f done b rest s L).2.1,
    { (steerPrepare H i f done b rest s L).1 with
      newDir := NormalizeVelocity H (steerComposed H i f done b rest s L)
      speed := clampSpeed (steerPrepare H i f done b rest s L).2.1 f
        (H.sqrt ((steerComposed H i f done b rest s L).x ^ 2 +
          (steerComposed H i f done b rest s L).y ^ 2 +
          (steerComposed H i f done b rest s L).z ^ 2)) },
    rfl, rfl, rfl, rfl, rfl, rfl⟩

theorem NormalizeVelocity_scaled (H : Host ℝ) (hsqrt : H.sqrt = Real.sqrt) (k : ℝ) (hk : 0 < k)
    (v : Vec3 ℝ) (hv : v ≠ { x := 0, y := 0, z := 0 }) :
    NormalizeVelocity H { x := k * v.x, y := k * v.y, z := k * v.z }
      = { x := v.x / Real.sqrt (normSq v), y := v.y / Real.sqrt (normSq v),
          z := v.z / Real.sqrt (normSq v) } := by
  have hpos : 0 < Real.sqrt (normSq v) := Real.sqrt_pos.mpr (normSq_pos_of_ne_zero v hv)
  have hne : k * Real.sqrt (normSq v) ≠ 0 := (mul_pos hk hpos).ne'
  simp only [NormalizeVelocity, hsqrt, sqrt_scaled k hk v, if_pos hne,
    mul_div_mul_left _ _ hk.ne']

/-! ## Requests that leave the agent store alone -/

/-- The twelve per-flock setters and the three attractor requests write no field of the
agent store, so each of them is a `request` step of `Reachable`. -/
theorem setters_keep_store (s : t_jit_boids3d F) (v : F) (id : Int) (e : Int)
    (s1 : t_jit_boids3d F)
    (h : jit_boids3d_nradius s v id = some (e, s1) ∨ jit_boids3d_minspeed s v id = some (e, s1) ∨
      jit_boids3d_maxspeed s v id = some (e, s1) ∨ jit_boids3d_center s v id = some (e, s1) ∨
      jit_boids3d_attract s v id = some (e, s1) ∨ jit_boids3d_match s v id = some (e, s1) ∨
      jit_boids3d_sepwt s v id = some (e, s1) ∨ jit_boids3d_sepdist s v id = some (e, s1) ∨
      jit_boids3d_speed s v id = some (e, s1) ∨ jit_boids3d_inertia s v id = some (e, s1) ∨
      jit_boids3d_accel s v id = some (e, s1) ∨ jit_boids3d_age s v id = some (e, s1)) :
    s1.flockLL = s.flockLL ∧ s1.boidCount = s.boidCount ∧ s1.newBoidID = s.newBoidID := by
  unfold jit_boids3d_nradius jit_boids3d_minspeed jit_boids3d_maxspeed jit_boids3d_center
    jit_boids3d_attract jit_boids3d_match jit_boids3d_sepwt jit_boids3d_sepdist
    jit_boids3d_speed jit_boids3d_inertia jit_boids3d_accel jit_boids3d_age at h
  cases hf : flockIndex id with
  | none =>
    rw [hf] at h
    simp at h
  | some f =>
    rw [hf] at h
    simp only [Option.some.injEq, Prod.mk.injEq] at h
    rcases h with h | h | h | h | h | h | h | h | h | h | h | h
    all_goals first
      | (obtain ⟨_, rfl⟩ := h; exact ⟨rfl, rfl, rfl⟩)
      | (split_ifs at h <;> (simp only [Option.some.injEq, Prod.mk.injEq] at h
                             obtain ⟨_, rfl⟩ := h
                             exact ⟨rfl, rfl, rfl⟩))

theorem attractor_requests_keep_store (s : t_jit_boids3d F) (id : Int) (loc : Vec3 F)
    (radius : F) :
    ((jit_boids3d_addattractor s id).flockLL = s.flockLL ∧
      (jit_boids3d_addattractor s id).boidCount = s.boidCount ∧
      (jit_boids3d_addattractor s id).newBoidID = s.newBoidID) ∧
    ((jit_boids3d_deleteattractor s id).2.flockLL = s.flockLL ∧
      (jit_boids3d_deleteattractor s id).2.boidCount = s.boidCount ∧
      (jit_boids3d_deleteattractor s id).2.newBoidID = s.newBoidID) ∧
    ((jit_boids3d_attractpt s loc radius id).2.flockLL = s.flockLL ∧
      (jit_boids3d_attractpt s loc radius id).2.boidCount = s.boidCount ∧
      (jit_boids3d_attractpt s loc radius id).2.newBoidID = s.newBoidID) := by
  refine ⟨?_, ?_, ⟨rfl, rfl, rfl⟩⟩
  · unfold jit_boids3d_addattractor
    cases s.attractorLL <;> exact ⟨rfl, rfl, rfl⟩
  · unfold jit_boids3d_deleteattractor
    cases deleteattractorScan id s.attractorLL <;> exact ⟨rfl, rfl, rfl⟩

theorem demoNoAgeLimit_request :
    jit_boids3d_age (jit_boids3d_new : t_jit_boids3d F) (-1) 0
      = some (JIT_ERR_NONE, demoNoAgeLimit) := by
  have h : flockIndex (0 : Int) = some (0 : Fin MAX_FLOCKS) := by decide
  simp only [jit_boids3d_age, h, demoNoAgeLimit]

theorem demoSurvivors_reachable (H : Host F) : Reachable H (demoSurvivors H) :=
  Reachable.number _ _ _ (Reachable.request _ _ Reachable.init rfl rfl rfl)

/-- One tick from `demoSurvivors`: the tick is defined, its result is reachable, and all
three agents of flock 0 are kept, one tick older. -/
theorem demoSurvivors_tick :
    ∃ s1, FlightStep ⟨Real.sqrt, Real.sin, Real.cos⟩
        (demoSurvivors ⟨Real.sqrt, Real.sin, Real.cos⟩ : t_jit_boids3d ℝ) = some s1 ∧
      Reachable ⟨Real.sqrt, Real.sin, Real.cos⟩ s1 ∧
      (s1.flockLL 0).map Boid.globalID = [2, 1, 0] ∧
      (s1.flockLL 0).map Boid.age = [1, 1, 1] ∧
      flockSlots.map s1.boidCount = [3, 0, 0, 0, 0, 0] := by
  generalize hH : (⟨Real.sqrt, Real.sin, Real.cos⟩ : Host ℝ) = H
  have hr := demoSurvivors_reachable H
  have hinv := hr.storeInv
  have hv : ∀ i, ∀ b ∈ (demoSurvivors H).flockLL i, ∃ f, flockIndex b.flockID = some f := by
    intro i b hb
    exact ⟨i, by rw [(hinv.2.2.1 i b hb).1, flockIndex_coe]⟩
  obtain ⟨s1, hs1⟩ := FlightStep_isSome H _ hv
  obtain ⟨_, _, hts⟩ := FlightStep_spec H _ s1 hs1
  have hacc : ¬ numberRejected (demoNoAgeLimit : t_jit_boids3d ℝ)
      (![3, 0, 0, 0, 0, 0] : Fin MAX_FLOCKS → Int) := by decide
  have hage : (demoSurvivors H).age 0 = -1 := by
    have hfr := (number_accepted_spec H (demoNoAgeLimit : t_jit_boids3d ℝ)
      ![3, 0, 0, 0, 0, 0] (fun _ => 0) hacc).1
    unfold demoSurvivors
    rw [hfr.age]
    simp [demoNoAgeLimit]
  have hids : ((demoSurvivors H).flockLL 0).map Boid.globalID = [2, 1, 0] := by
    subst hH
    decide
  have hages : ((demoSurvivors H).flockLL 0).map Boid.age = [0, 0, 0] := by
    subst hH
    decide
  have hcounts : flockSlots.map (demoSurvivors H).boidCount = [3, 0, 0, 0, 0, 0] := by
    subst hH
    decide
  have hempty : ∀ j : Fin MAX_FLOCKS, j ≠ 0 → ((demoSurvivors H).flockLL j).length = 0 := by
    subst hH
    decide
  have hall : ∀ i, ((demoSurvivors H).flockLL i).filter (survivesTick (demoSurvivors H).age)
      = (demoSurvivors H).flockLL i := by
    intro i
    rw [List.filter_eq_self]
    intro b hb
    by_cases hi : i = 0
    · subst hi
      have hfl := (hinv.2.2.1 0 b hb).1
      have hfi : flockIndex b.flockID = some (0 : Fin MAX_FLOCKS) := by
        rw [hfl, flockIndex_coe]
      simp [survivesTick, hfi, hage]
    · have := List.eq_nil_of_length_eq_zero (hempty i hi)
      rw [this] at hb
      cases hb
  have hlen : ∀ i, (s1.flockLL i).length = ((demoSurvivors H).flockLL i).length := by
    intro i
    have := (hts i).1.length_eq
    rw [hall i] at this
    exact this.symm
  refine ⟨s1, hs1, Reachable.tick _ _ hr hs1, ?_, ?_, ?_⟩
  · rw [(hts 0).map_globalID, hall 0, hids]
  · have h := forall₂_map_eq (fun b : Boid ℝ => b.age + 1) Boid.age (hts 0).1
      (fun _ _ hab => hab.ids.2.2)
    rw [h, hall 0]
    have h2 : ((demoSurvivors H).flockLL 0).map (fun b : Boid ℝ => b.age + 1)
        = (((demoSurvivors H).flockLL 0).map Boid.age).map (fun a => a + 1) := by
      rw [List.map_map]
      rfl
    rw [h2, hages]
    rfl
  · have hc : s1.boidCount = (demoSurvivors H).boidCount := by
      funext i
      rw [(hts i).2, hlen i]
      ring
    rw [hc, hcounts]

/-- `CalcNumBoids` reads the six counts only. -/
theorem CalcNumBoids_of_counts (s : t_jit_boids3d F) (c : List Int)
    (h : flockSlots.map s.boidCount = c) :
    CalcNumBoids s = c.foldl (fun boidsCounter n => wrap32 (boidsCounter + n)) 0 := by
  rw [← h, List.foldl_map]
  rfl

/-- Without overflow (no delta above `10^8` in absolute value, every count in `0..10^8`),
a request with a non-zero delta whose signed sum plus the tracked total is at most
`kMaxNumBoids` passes the guard. -/
theorem number_accepted_of_bounded (s : t_jit_boids3d F) (d : Fin MAX_FLOCKS → Int)
    (hd : ∀ j, |d j| ≤ 100000000)
    (hb : ∀ j, 0 ≤ s.boidCount j ∧ s.boidCount j ≤ 100000000)
    (hcap : CalcNumBoids s + ∑ j, d j ≤ kMaxNumBoids) (i : Fin MAX_FLOCKS) (hi : d i ≠ 0) :
    ¬ numberRejected s d := by
  rw [numberRejected_iff_of_bounded s d (fun j => abs_le.mp (hd j)) hb]
  rw [CalcNumBoids_eq s hb] at hcap
  rintro (h | h)
  · exact hi (h i)
  · omega

end lemmas

end Boids3d

namespace Boids3d

section claims

variable {F : Type} [LinearOrderedField F]

set_option linter.unusedSectionVars false

set_option linter.unusedVariables false

/-! ## Resize requests (`jit_boids3d_number`) -/

/-- C1 (counterexample).  On the empty simulation the request
`[1, 2147483647, 0, 0, 0, 0]` (six values of an `int`) has current total plus signed sum
of the deltas `2147483648 > 1000`, yet the `int` variable `totalChanges` wraps to
`-2147483648`, the guard does not reject, and the state changes: flock 0, served first,
receives an agent and `newBoidID` grows. -/
theorem number_overflow_counterexample :
    CalcNumBoids (jit_boids3d_new : t_jit_boids3d ℝ)
        + ∑ i, (![1, 2147483647, 0, 0, 0, 0] : Fin MAX_FLOCKS → Int) i > kMaxNumBoids ∧
      (numberTotals (![1, 2147483647, 0, 0, 0, 0] : Fin MAX_FLOCKS → Int)).2 = -2147483648 ∧
      ¬ numberRejected (jit_boids3d_new : t_jit_boids3d ℝ)
        (![1, 2147483647, 0, 0, 0, 0] : Fin MAX_FLOCKS → Int) ∧
      (jit_boids3d_number ⟨Real.sqrt, Real.sin, Real.cos⟩ (jit_boids3d_new : t_jit_boids3d ℝ)
        ![1, 2147483647, 0, 0, 0, 0] (fun _ => 0)).1.boidCount 0 = 1 ∧
      ((jit_boids3d_number ⟨Real.sqrt, Real.sin, Real.cos⟩ (jit_boids3d_new : t_jit_boids3d ℝ)
        ![1, 2147483647, 0, 0, 0, 0] (fun _ => 0)).1.flockLL 0).length = 1 ∧
      (jit_boids3d_new : t_jit_boids3d ℝ).boidCount 0 = 0 ∧
      ((jit_boids3d_new : t_jit_boids3d ℝ).flockLL 0).length = 0 ∧
      jit_boids3d_number ⟨Real.sqrt, Real.sin, Real.cos⟩ (jit_boids3d_new : t_jit_boids3d ℝ)
        ![1, 2147483647, 0, 0, 0, 0] (fun _ => 0) ≠ (jit_boids3d_new, fun _ => 0) := by
  have hacc : ¬ numberRejected (jit_boids3d_new : t_jit_boids3d ℝ)
      (![1, 2147483647, 0, 0, 0, 0] : Fin MAX_FLOCKS → Int) := by decide
  obtain ⟨_, _, h3⟩ := number_accepted_spec ⟨Real.sqrt, Real.sin, Real.cos⟩
    (jit_boids3d_new : t_jit_boids3d ℝ) ![1, 2147483647, 0, 0, 0, 0] (fun _ => 0) hacc
  obtain ⟨news, g1, g2, g3, _, _⟩ := h3 0
  have hc : (jit_boids3d_number ⟨Real.sqrt, Real.sin, Real.cos⟩
      (jit_boids3d_new : t_jit_boids3d ℝ)
      ![1, 2147483647, 0, 0, 0, 0] (fun _ => 0)).1.boidCount 0 = 1 := by
    rw [g3]
    simp [jit_boids3d_new]
  refine ⟨by decide, by decide, hacc, hc, ?_, rfl, rfl, ?_⟩
  · rw [g1, List.length_append, g2]
    simp [jit_boids3d_new]
  · intro h
    rw [h] at hc
    simp [jit_boids3d_new] at hc

/-- C1 (amended).  Bulk resize rejects as a whole: when all six deltas are zero, or the sum
of the deltas plus the tracked total agent count, computed as the code does in wrap-around
32-bit `int` arithmetic, is greater than `kMaxNumBoids = 1000`, the call returns the object
unchanged (no agent created or removed, counts and `newBoidID` unchanged) and draws no
random number.  When no delta exceeds `10^8` in absolute value and no count lies outside
`0..10^8`, nothing overflows and the condition is that the tracked total (`CalcNumBoids`)
plus the signed sum of the deltas is greater than 1000; the tracked total is the number of
stored agents when the counts agree with the lists. -/
theorem number_rejects_as_a_whole (H : Host F) (s : t_jit_boids3d F)
    (d : Fin MAX_FLOCKS → Int) (rng : Nat → Int)
    (h : (∀ i, d i = 0) ∨
      wrap32 ((numberTotals d).2 + CalcNumBoids s) > kMaxNumBoids ∨
      ((∀ i, |d i| ≤ 100000000) ∧ (∀ i, 0 ≤ s.boidCount i ∧ s.boidCount i ≤ 100000000) ∧
        CalcNumBoids s + ∑ i, d i > kMaxNumBoids) ∨
      ((∀ i, |d i| ≤ 100000000) ∧
        (∀ i, s.boidCount i = ((s.flockLL i).length : Int) ∧ s.boidCount i ≤ 100000000) ∧
        (totalLive s : Int) + ∑ i, d i > kMaxNumBoids)) :
    jit_boids3d_number H s d rng = (s, rng) := by
  apply number_rejected_eq
  rcases h with h | h | ⟨hd, hb, h⟩ | ⟨hd, hc, h⟩
  · exact (numberRejected_iff s d).mpr (Or.inl h)
  · exact (numberRejected_iff s d).mpr (Or.inr h)
  · rw [numberRejected_iff_of_bounded s d (fun i => abs_le.mp (hd i)) hb]
    rw [CalcNumBoids_eq s hb] at h
    exact Or.inr h
  · have hb : ∀ i, 0 ≤ s.boidCount i ∧ s.boidCount i ≤ 100000000 := fun i =>
      ⟨by rw [(hc i).1]; exact Int.natCast_nonneg _, (hc i).2⟩
    rw [numberRejected_iff_of_bounded s d (fun i => abs_le.mp (hd i)) hb]
    rw [← CalcNumBoids_eq_totalLive s (fun i => (hc i).1) (fun i => (hc i).2),
      CalcNumBoids_eq s hb] at h
    exact Or.inr h

/-- Witness for the amended C1: on the empty simulation the request
`[+1001, 0, 0, 0, 0, 0]` overflows nothing, is rejected and nothing changes. -/
theorem number_rejects_as_a_whole_witness :
    ((∀ i, |(![1001, 0, 0, 0, 0, 0] : Fin MAX_FLOCKS → Int) i| ≤ 100000000) ∧
      (∀ i, 0 ≤ (jit_boids3d_new : t_jit_boids3d ℝ).boidCount i ∧
        (jit_boids3d_new : t_jit_boids3d ℝ).boidCount i ≤ 100000000) ∧
      CalcNumBoids (jit_boids3d_new : t_jit_boids3d ℝ)
        + ∑ i, (![1001, 0, 0, 0, 0, 0] : Fin MAX_FLOCKS → Int) i > kMaxNumBoids) ∧
      jit_boids3d_number ⟨Real.sqrt, Real.sin, Real.cos⟩ (jit_boids3d_new : t_jit_boids3d ℝ)
        ![1001, 0, 0, 0, 0, 0] (fun _ => 0) = (jit_boids3d_new, fun _ => 0) :=
  ⟨⟨by decide, by decide, by decide⟩,
    number_rejects_as_a_whole _ _ _ _
      (Or.inr (Or.inr (Or.inl ⟨by decide, by decide, by decide⟩)))⟩

/-- C2, as stated, fails: on the empty simulation the request `[+1, -1000, 0, 0, 0, 0]` has
total plus sum of absolute deltas `1001 > 1000`, yet it is accepted (the guard adds the
signed deltas, `-999`) and flock 0 receives an agent. -/
theorem abs_sum_cap_counterexample :
    CalcNumBoids (jit_boids3d_new : t_jit_boids3d ℝ)
        + ∑ i, |(![1, -1000, 0, 0, 0, 0] : Fin MAX_FLOCKS → Int) i| > kMaxNumBoids ∧
      (jit_boids3d_number ⟨Real.sqrt, Real.sin, Real.cos⟩ (jit_boids3d_new : t_jit_boids3d ℝ)
        ![1, -1000, 0, 0, 0, 0] (fun _ => 0)).1.boidCount 0 = 1 ∧
      ((jit_boids3d_number ⟨Real.sqrt, Real.sin, Real.cos⟩ (jit_boids3d_new : t_jit_boids3d ℝ)
        ![1, -1000, 0, 0, 0, 0] (fun _ => 0)).1.flockLL 0).length = 1 ∧
      (jit_boids3d_new : t_jit_boids3d ℝ).boidCount 0 = 0 ∧
      ((jit_boids3d_new : t_jit_boids3d ℝ).flockLL 0).length = 0 := by
  refine ⟨by decide, by decide, by decide, by decide, by decide⟩

/-- C2, amended: when the sum of the six signed deltas plus the tracked total agent count,
computed as the code does in wrap-around 32-bit `int` arithmetic, exceeds
`kMaxNumBoids = 1000`, the agent store (all six lists and counts) is unchanged.  When no
delta exceeds `10^8` in absolute value and no count lies outside `0..10^8`, nothing
overflows and the condition is that the tracked total plus the signed sum of the deltas
exceeds 1000. -/
theorem signed_sum_cap_store_unchanged (H : Host F) (s : t_jit_boids3d F)
    (d : Fin MAX_FLOCKS → Int) (rng : Nat → Int)
    (h : wrap32 ((numberTotals d).2 + CalcNumBoids s) > kMaxNumBoids ∨
      ((∀ i, |d i| ≤ 100000000) ∧ (∀ i, 0 ≤ s.boidCount i ∧ s.boidCount i ≤ 100000000) ∧
        CalcNumBoids s + ∑ i, d i > kMaxNumBoids)) :
    (jit_boids3d_number H s d rng).1.flockLL = s.flockLL ∧
      (jit_boids3d_number H s d rng).1.boidCount = s.boidCount := by
  have hrej : numberRejected s d := by
    rcases h with h | ⟨hd, hb, h⟩
    · exact (numberRejected_iff s d).mpr (Or.inr h)
    · rw [numberRejected_iff_of_bounded s d (fun i => abs_le.mp (hd i)) hb]
      rw [CalcNumBoids_eq s hb] at h
      exact Or.inr h
  rw [number_rejected_eq H s d rng hrej]
  exact ⟨rfl, rfl⟩

/-- Witness for the amended C2: `[+600, +600, -100, 0, 0, 0]` on the empty simulation
overflows nothing, has signed sum 1100 and leaves the store unchanged. -/
theorem signed_sum_cap_store_unchanged_witness :
    ((∀ i, |(![600, 600, -100, 0, 0, 0] : Fin MAX_FLOCKS → Int) i| ≤ 100000000) ∧
      (∀ i, 0 ≤ (jit_boids3d_new : t_jit_boids3d ℝ).boidCount i ∧
        (jit_boids3d_new : t_jit_boids3d ℝ).boidCount i ≤ 100000000) ∧
      CalcNumBoids (jit_boids3d_new : t_jit_boids3d ℝ)
        + ∑ i, (![600, 600, -100, 0, 0, 0] : Fin MAX_FLOCKS → Int) i > kMaxNumBoids) ∧
      (jit_boids3d_number ⟨Real.sqrt, Real.sin, Real.cos⟩ (jit_boids3d_new : t_jit_boids3d ℝ)
        ![600, 600, -100, 0, 0, 0] (fun _ => 0)).1.flockLL
          = (jit_boids3d_new : t_jit_boids3d ℝ).flockLL ∧
      (jit_boids3d_number ⟨Real.sqrt, Real.sin, Real.cos⟩ (jit_boids3d_new : t_jit_boids3d ℝ)
        ![600, 600, -100, 0, 0, 0] (fun _ => 0)).1.boidCount
          = (jit_boids3d_new : t_jit_boids3d ℝ).boidCount :=
  ⟨⟨by decide, by decide, by decide⟩,
    signed_sum_cap_store_unchanged _ _ _ _ (Or.inr ⟨by decide, by decide, by decide⟩)⟩

/-- C3 fails on the code: from the initial empty simulation the single request
`[+1001, -1, 0, 0, 0, 0]` passes the guard (signed sum `1000`), flock 0 receives 1001
agents and the empty flock 1 loses none, so a reachable state holds 1001 live agents, more
than `kMaxNumBoids = 1000`. -/
theorem cap_exceeded_by_resize :
    Reachable ⟨Real.sqrt, Real.sin, Real.cos⟩
        (jit_boids3d_number ⟨Real.sqrt, Real.sin, Real.cos⟩
          (jit_boids3d_new : t_jit_boids3d ℝ) ![1001, -1, 0, 0, 0, 0] (fun _ => 0)).1 ∧
      totalLive (jit_boids3d_number ⟨Real.sqrt, Real.sin, Real.cos⟩
          (jit_boids3d_new : t_jit_boids3d ℝ) ![1001, -1, 0, 0, 0, 0] (fun _ => 0)).1 = 1001 ∧
      CalcNumBoids (jit_boids3d_number ⟨Real.sqrt, Real.sin, Real.cos⟩
          (jit_boids3d_new : t_jit_boids3d ℝ) ![1001, -1, 0, 0, 0, 0] (fun _ => 0)).1 = 1001 := by
  have hacc : ¬ numberRejected (jit_boids3d_new : t_jit_boids3d ℝ)
      (![1001, -1, 0, 0, 0, 0] : Fin MAX_FLOCKS → Int) := by decide
  obtain ⟨_, _, h3⟩ := number_accepted_spec ⟨Real.sqrt, Real.sin, Real.cos⟩
    (jit_boids3d_new : t_jit_boids3d ℝ) ![1001, -1, 0, 0, 0, 0] (fun _ => 0) hacc
  have hlen : ∀ i : Fin MAX_FLOCKS,
      ((jit_boids3d_number ⟨Real.sqrt, Real.sin, Real.cos⟩
        (jit_boids3d_new : t_jit_boids3d ℝ) ![1001, -1, 0, 0, 0, 0] (fun _ => 0)).1.flockLL
          i).length = ((![1001, -1, 0, 0, 0, 0] : Fin MAX_FLOCKS → Int) i).toNat := by
    intro i
    obtain ⟨news, g1, g2, _, _, _⟩ := h3 i
    rw [g1, List.length_append, g2]
    simp [jit_boids3d_new]
  have hinv := (Reachable.number _ ![1001, -1, 0, 0, 0, 0] (fun _ => 0)
    (Reachable.init (H := (⟨Real.sqrt, Real.sin, Real.cos⟩ : Host ℝ)))).storeInv
  refine ⟨Reachable.number _ _ _ Reachable.init, ?_, ?_⟩
  · rw [totalLive_eq]
    simp only [hlen]
    decide
  · have hb : ∀ i : Fin MAX_FLOCKS,
        0 ≤ (jit_boids3d_number ⟨Real.sqrt, Real.sin, Real.cos⟩
          (jit_boids3d_new : t_jit_boids3d ℝ) ![1001, -1, 0, 0, 0, 0]
            (fun _ => 0)).1.boidCount i ∧
        (jit_boids3d_number ⟨Real.sqrt, Real.sin, Real.cos⟩
          (jit_boids3d_new : t_jit_boids3d ℝ) ![1001, -1, 0, 0, 0, 0]
            (fun _ => 0)).1.boidCount i ≤ 100000000 := by
      intro i
      rw [hinv.1 i, hlen i]
      fin_cases i <;> decide
    rw [CalcNumBoids_eq _ hb]
    simp only [hinv.1, hlen]
    decide

/-- C4. Resize growth: in an accepted request, every flock `i` with a positive delta `d i`
ends with `d i` newly created agents in front of its previous list, which is kept unchanged
and in order; its count grows by exactly `d i`; every new agent has age 0, flock ID `i`,
and previous and current position equal to the configured birth location.  Accepted means
that the guard of the code does not reject; without overflow (no delta above `10^8` in
absolute value, every count in `0..10^8`) that is: the tracked total plus the signed sum of
the deltas is at most `kMaxNumBoids`. -/
theorem number_growth (H : Host F) (s : t_jit_boids3d F) (d : Fin MAX_FLOCKS → Int)
    (rng : Nat → Int)
    (hcap : ¬ numberRejected s d ∨
      ((∀ j, |d j| ≤ 100000000) ∧ (∀ j, 0 ≤ s.boidCount j ∧ s.boidCount j ≤ 100000000) ∧
        CalcNumBoids s + ∑ j, d j ≤ kMaxNumBoids))
    (i : Fin MAX_FLOCKS) (hd : 0 < d i) :
    ∃ news : List (Boid F),
      (jit_boids3d_number H s d rng).1.flockLL i = news ++ s.flockLL i ∧
      (news.length : Int) = d i ∧
      (jit_boids3d_number H s d rng).1.boidCount i = s.boidCount i + d i ∧
      (jit_boids3d_number H s d rng).1.birthLoc = s.birthLoc ∧
      ∀ b ∈ news, b.age = 0 ∧ b.flockID = ((i : Nat) : Int) ∧
        b.oldPos = s.birthLoc ∧ b.newPos = s.birthLoc := by
  have hacc : ¬ numberRejected s d := by
    rcases hcap with h | ⟨hb1, hb2, h⟩
    · exact h
    · exact number_accepted_of_bounded s d hb1 hb2 h i (ne_of_gt hd)
  obtain ⟨h1, _, h3⟩ := number_accepted_spec H s d rng hacc
  obtain ⟨news, g1, g2, g3, g4, _⟩ := h3 i
  have hm : (-(d i)).toNat = 0 := by omega
  refine ⟨news, ?_, ?_, ?_, h1.birthLoc, ?_⟩
  · rw [g1, hm]; simp
  · rw [g2]; omega
  · rw [g3, hm]; simp only [Nat.zero_min, Nat.cast_zero, sub_zero]; omega
  · intro b hb
    obtain ⟨a1, a2, a3, a4, _, _⟩ := g4 b hb
    exact ⟨a1, a2, a3, a4⟩

/-- Witness for C4: on the empty simulation the request `[+3, 0, 0, 0, 0, 0]` is accepted and
yields the flock counts `[3, 0, 0, 0, 0, 0]`. -/
theorem number_growth_witness :
    (¬ numberRejected (jit_boids3d_new : t_jit_boids3d ℝ)
        (![3, 0, 0, 0, 0, 0] : Fin MAX_FLOCKS → Int) ∧
      ((∀ j, |(![3, 0, 0, 0, 0, 0] : Fin MAX_FLOCKS → Int) j| ≤ 100000000) ∧
        (∀ j, 0 ≤ (jit_boids3d_new : t_jit_boids3d ℝ).boidCount j ∧
          (jit_boids3d_new : t_jit_boids3d ℝ).boidCount j ≤ 100000000) ∧
        CalcNumBoids (jit_boids3d_new : t_jit_boids3d ℝ)
          + ∑ j, (![3, 0, 0, 0, 0, 0] : Fin MAX_FLOCKS → Int) j ≤ kMaxNumBoids) ∧
      0 < (![3, 0, 0, 0, 0, 0] : Fin MAX_FLOCKS → Int) 0) ∧
    (∃ news : List (Boid ℝ),
      (jit_boids3d_number ⟨Real.sqrt, Real.sin, Real.cos⟩ (jit_boids3d_new : t_jit_boids3d ℝ)
        ![3, 0, 0, 0, 0, 0] (fun _ => 0)).1.flockLL 0
          = news ++ (jit_boids3d_new : t_jit_boids3d ℝ).flockLL 0 ∧
      (news.length : Int) = (![3, 0, 0, 0, 0, 0] : Fin MAX_FLOCKS → Int) 0 ∧
      (jit_boids3d_number ⟨Real.sqrt, Real.sin, Real.cos⟩ (jit_boids3d_new : t_jit_boids3d ℝ)
        ![3, 0, 0, 0, 0, 0] (fun _ => 0)).1.boidCount 0
          = (jit_boids3d_new : t_jit_boids3d ℝ).boidCount 0
            + (![3, 0, 0, 0, 0, 0] : Fin MAX_FLOCKS → Int) 0 ∧
      (jit_boids3d_number ⟨Real.sqrt, Real.sin, Real.cos⟩ (jit_boids3d_new : t_jit_boids3d ℝ)
        ![3, 0, 0, 0, 0, 0] (fun _ => 0)).1.birthLoc
          = (jit_boids3d_new : t_jit_boids3d ℝ).birthLoc ∧
      ∀ b ∈ news, b.age = 0 ∧ b.flockID = (((0 : Fin MAX_FLOCKS) : Nat) : Int) ∧
        b.oldPos = (jit_boids3d_new : t_jit_boids3d ℝ).birthLoc ∧
        b.newPos = (jit_boids3d_new : t_jit_boids3d ℝ).birthLoc) ∧
    flockSlots.map (jit_boids3d_number ⟨Real.sqrt, Real.sin, Real.cos⟩
      (jit_boids3d_new : t_jit_boids3d ℝ) ![3, 0, 0, 0, 0, 0] (fun _ => 0)).1.boidCount
        = [3, 0, 0, 0, 0, 0] :=
  ⟨⟨by decide, ⟨by decide, by decide, by decide⟩, by decide⟩,
    number_growth _ _ _ _ (Or.inr ⟨by decide, by decide, by decide⟩) 0 (by decide),
    by decide⟩

/-- C5. Resize shrink is stack-ordered: in every reachable state, an accepted request with a
negative delta `d i = -k` on a flock holding `n` agents leaves exactly the old list without
its first `min k n` agents (the rest keep their state and order); every removed agent has a
larger global ID than every agent that stays (the removed ones are the most recently
created); the count decreases by exactly `min k n` and is not negative.  Accepted means
that the guard of the code does not reject; without overflow (no delta above `10^8` in
absolute value, every count at most `10^8`) that is: the tracked total plus the signed sum
of the deltas is at most `kMaxNumBoids`. -/
theorem number_shrink_stack_order (H : Host F) (s : t_jit_boids3d F) (hr : Reachable H s)
    (d : Fin MAX_FLOCKS → Int) (rng : Nat → Int)
    (hcap : ¬ numberRejected s d ∨
      ((∀ j, |d j| ≤ 100000000) ∧ (∀ j, s.boidCount j ≤ 100000000) ∧
        CalcNumBoids s + ∑ j, d j ≤ kMaxNumBoids))
    (i : Fin MAX_FLOCKS) (hd : d i < 0) :
    (jit_boids3d_number H s d rng).1.flockLL i
        = (s.flockLL i).drop (min (-(d i)).toNat (s.flockLL i).length) ∧
      ((jit_boids3d_number H s d rng).1.flockLL i).length
        = (s.flockLL i).length - min (-(d i)).toNat (s.flockLL i).length ∧
      (∀ a ∈ (s.flockLL i).take (min (-(d i)).toNat (s.flockLL i).length),
        ∀ b ∈ (s.flockLL i).drop (min (-(d i)).toNat (s.flockLL i).length),
          b.globalID < a.globalID) ∧
      (jit_boids3d_number H s d rng).1.boidCount i
        = s.boidCount i - (min (-(d i)).toNat (s.flockLL i).length : Nat) ∧
      0 ≤ (jit_boids3d_number H s d rng).1.boidCount i := by
  obtain ⟨i1, i2, _, _⟩ := hr.storeInv
  have hacc : ¬ numberRejected s d := by
    rcases hcap with h | ⟨hb1, hb2, h⟩
    · exact h
    · exact number_accepted_of_bounded s d hb1
        (fun j => ⟨by rw [i1 j]; exact Int.natCast_nonneg _, hb2 j⟩) h i (ne_of_lt hd)
  obtain ⟨_, _, h3⟩ := number_accepted_spec H s d rng hacc
  obtain ⟨news, g1, g2, g3, _, _⟩ := h3 i
  have hn : news = [] := by
    apply List.eq_nil_of_length_eq_zero
    rw [g2]
    omega
  have hd0 : (d i).toNat = 0 := by omega
  have hle := Nat.min_le_right (-(d i)).toNat (s.flockLL i).length
  subst hn
  rw [List.nil_append] at g1
  refine ⟨g1, by rw [g1, List.length_drop], ?_, ?_, ?_⟩
  · have hp := i2 i
    rw [← List.take_append_drop (min (-(d i)).toNat (s.flockLL i).length) (s.flockLL i),
      List.pairwise_append] at hp
    exact hp.2.2
  · rw [g3, hd0]
    simp
  · rw [g3, hd0, i1 i]
    push_cast
    omega

/-- Witness for C5: the state reached by `age -1 0`, `[+3, 0, 0, 0, 0, 0]` and one tick
holds the three agents `[2, 1, 0]` in flock 0, all kept by the tick; the request
`[-2, 0, 0, 0, 0, 0]` is accepted, removes the two newest agents and leaves ID 0 with
count 1. -/
theorem number_shrink_stack_order_witness :
    ∃ s1, FlightStep ⟨Real.sqrt, Real.sin, Real.cos⟩
        (demoSurvivors ⟨Real.sqrt, Real.sin, Real.cos⟩ : t_jit_boids3d ℝ) = some s1 ∧
      Reachable ⟨Real.sqrt, Real.sin, Real.cos⟩ s1 ∧
      (s1.flockLL 0).map Boid.age = [1, 1, 1] ∧
      ¬ numberRejected s1 (![-2, 0, 0, 0, 0, 0] : Fin MAX_FLOCKS → Int) ∧
      ((jit_boids3d_number ⟨Real.sqrt, Real.sin, Real.cos⟩ s1
        ![-2, 0, 0, 0, 0, 0] (fun _ => 0)).1.flockLL 0).map Boid.globalID = [0] ∧
      (jit_boids3d_number ⟨Real.sqrt, Real.sin, Real.cos⟩ s1
        ![-2, 0, 0, 0, 0, 0] (fun _ => 0)).1.boidCount 0 = 1 := by
  obtain ⟨s1, h1, hr, hids, hages, hcounts⟩ :=
    demoSurvivors_tick
  have hc0 : s1.boidCount 0 = 3 := by
    have := congrArg (fun l => l.head?) hcounts
    simpa [flockSlots] using this
  have hlen : (s1.flockLL 0).length = 3 := by
    have := congrArg List.length hids
    simpa using this
  have hacc : ¬ numberRejected s1 (![-2, 0, 0, 0, 0, 0] : Fin MAX_FLOCKS → Int) := by
    unfold numberRejected
    rw [CalcNumBoids_of_counts s1 _ hcounts]
    decide
  have h := number_shrink_stack_order ⟨Real.sqrt, Real.sin, Real.cos⟩ s1 hr
    ![-2, 0, 0, 0, 0, 0] (fun _ => 0) (Or.inl hacc) 0 (by decide)
  refine ⟨s1, h1, hr, hages, hacc, ?_, ?_⟩
  · rw [h.1, hlen, List.map_drop, hids]
    decide
  · rw [h.2.2.2.1, hc0, hlen]
    decide

/-- C7. Flock-count consistency: in every reachable state the tracked count `boidCount i`
of every slot equals the number of agents in that slot's list. -/
theorem flock_count_consistent (H : Host F) (s : t_jit_boids3d F) (hr : Reachable H s)
    (i : Fin MAX_FLOCKS) : s.boidCount i = ((s.flockLL i).length : Int) :=
  hr.storeInv.1 i

/-- Witness for C7: the state reached by `age -1 0`, `[+3, 0, 0, 0, 0, 0]` and one tick
holds three agents of age 1 in flock 0, and its count of flock 0 is 3, the list length. -/
theorem flock_count_consistent_witness :
    ∃ s1, FlightStep ⟨Real.sqrt, Real.sin, Real.cos⟩
        (demoSurvivors ⟨Real.sqrt, Real.sin, Real.cos⟩ : t_jit_boids3d ℝ) = some s1 ∧
      Reachable ⟨Real.sqrt, Real.sin, Real.cos⟩ s1 ∧
      (s1.flockLL 0).map Boid.age = [1, 1, 1] ∧
      s1.boidCount 0 = (((s1.flockLL 0).length : Nat) : Int) ∧ (s1.flockLL 0).length = 3 := by
  obtain ⟨s1, h1, hr, hids, hages, _⟩ :=
    demoSurvivors_tick
  refine ⟨s1, h1, hr, hages, flock_count_consistent _ s1 hr 0, ?_⟩
  have := congrArg List.length hids
  simpa using this

/-! ## The tick (`FlightStep`) -/

/-- C8. Aging and death in one tick: when every agent stored in slot `i` carries flock ID
`i`, the tick is defined and, for every slot `i`, the new list consists of exactly the
pre-tick agents whose age plus one does not exceed `age[i]` (all of them when `age[i]` is
`-1`), in their original order, each with the same global ID and flock ID and its age
increased by exactly one; all other agents are removed, and `boidCount[i]` decreases by
exactly the number of removed agents. -/
theorem tick_aging_and_death (H : Host F) (s : t_jit_boids3d F)
    (hown : ∀ i, ∀ b ∈ s.flockLL i, b.flockID = ((i : Nat) : Int)) :
    ∃ s1, FlightStep H s = some s1 ∧ ∀ i,
      List.Forall₂
          (fun b b1 => b1.globalID = b.globalID ∧ b1.flockID = b.flockID ∧
            b1.age = b.age + 1)
          ((s.flockLL i).filter (keptByAge s i)) (s1.flockLL i) ∧
        s1.boidCount i
          = s.boidCount i - (((s.flockLL i).filter (fun b => !keptByAge s i b)).length : Int) := by
  obtain ⟨s1, hs1⟩ := FlightStep_isSome H s
    (fun i b hb => ⟨i, by rw [hown i b hb, flockIndex_coe]⟩)
  refine ⟨s1, hs1, fun i => ?_⟩
  obtain ⟨_, _, h3⟩ := FlightStep_spec H s s1 hs1
  obtain ⟨t1, t2⟩ := h3 i
  have hfilter : (s.flockLL i).filter (survivesTick s.age) = (s.flockLL i).filter (keptByAge s i) :=
    List.filter_congr (fun b hb => survivesTick_eq_keptByAge s i b (hown i b hb))
  rw [hfilter] at t1
  refine ⟨t1.imp (fun _ _ hab => hab.ids), ?_⟩
  have hlen := t1.length_eq
  have hsplit := List.length_eq_countP_add_countP (keptByAge s i) (s.flockLL i)
  rw [List.countP_eq_length_filter, List.countP_eq_length_filter] at hsplit
  have hneg : (s.flockLL i).filter (fun b => decide ¬keptByAge s i b = true)
      = (s.flockLL i).filter (fun b => !keptByAge s i b) :=
    List.filter_congr (fun b _ => by cases keptByAge s i b <;> rfl)
  rw [hneg] at hsplit
  rw [t2, hsplit, ← hlen]
  push_cast
  ring

/-- Witness for C8: with maximum age 2, the agent of age 2 (its age becomes 3) is removed,
the agent of age 0 stays with age 1, and the count of flock 0 drops from 2 to 1. -/
theorem tick_aging_and_death_witness :
    (∀ i, ∀ b ∈ (demoAgingState : t_jit_boids3d ℝ).flockLL i, b.flockID = ((i : Nat) : Int)) ∧
    ∃ s1, FlightStep ⟨Real.sqrt, Real.sin, Real.cos⟩ (demoAgingState : t_jit_boids3d ℝ)
        = some s1 ∧
      (s1.flockLL 0).map Boid.globalID = [0] ∧ (s1.flockLL 0).map Boid.age = [1] ∧
      s1.boidCount 0 = 1 ∧ (demoAgingState : t_jit_boids3d ℝ).boidCount 0 = 2 := by
  refine ⟨demoAgingState_owned, ?_⟩
  obtain ⟨s1, h1, h2⟩ := tick_aging_and_death ⟨Real.sqrt, Real.sin, Real.cos⟩
    (demoAgingState : t_jit_boids3d ℝ) demoAgingState_owned
  obtain ⟨h3, h4⟩ := h2 0
  rw [demoAgingState_kept, List.forall₂_cons_left_iff] at h3
  obtain ⟨b1, l, ⟨e1, _, e3⟩, hl, hll⟩ := h3
  rw [List.forall₂_nil_left_iff] at hl
  subst hl
  rw [demoAgingState_removed] at h4
  refine ⟨s1, h1, ?_, ?_, ?_, rfl⟩
  · rw [hll]
    simp [e1, demoBoid]
  · rw [hll]
    simp [e3, demoBoid]
  · rw [h4]
    simp [demoAgingState]

/-- C9. Unit heading after a tick, over the real numbers with `sqrt` the real square root
and non-zero inertia: every agent `b1` stored after the tick is the steered successor of a
pre-tick agent `b` of the same slot; if the heading composed for it was the zero vector its
heading is the zero vector, otherwise its heading has Euclidean length exactly 1. -/
theorem heading_unit_after_tick (H : Host ℝ) (hsqrt : H.sqrt = Real.sqrt)
    (s s1 : t_jit_boids3d ℝ) (hin : ∀ i, s.inertia i ≠ 0) (h : FlightStep H s = some s1)
    (i : Fin MAX_FLOCKS) (b1 : Boid ℝ) (hb : b1 ∈ s1.flockLL i) :
    (∃ b ∈ s.flockLL i, ∃ (f : Fin MAX_FLOCKS) (done rest : List (Boid ℝ))
        (s0 : t_jit_boids3d ℝ) (L0 : FlightLocals ℝ),
        flockIndex b.flockID = some f ∧ Frame s s0 ∧
        b1 = (steerBoid H i f done { b with age := b.age + 1 } rest s0 L0).1 ∧
        (steerComposed H i f done { b with age := b.age + 1 } rest s0 L0
            = { x := 0, y := 0, z := 0 } → b1.newDir = { x := 0, y := 0, z := 0 }) ∧
        (steerComposed H i f done { b with age := b.age + 1 } rest s0 L0
            ≠ { x := 0, y := 0, z := 0 } → Real.sqrt (normSq b1.newDir) = 1)) ∧
      (Real.sqrt (normSq b1.newDir) = 1 ∨ b1.newDir = { x := 0, y := 0, z := 0 }) := by
  obtain ⟨_, _, h3⟩ := FlightStep_spec H s s1 h
  obtain ⟨b, hbs, f, done, rest, s0, L0, e1, e2, e3⟩ := (h3 i).mem b1 hb
  obtain ⟨s2, b2, n1, n2⟩ := steerBoid_newDir H i f done { b with age := b.age + 1 } rest s0 L0
  have hzero : steerComposed H i f done { b with age := b.age + 1 } rest s0 L0
      = { x := 0, y := 0, z := 0 } → b1.newDir = { x := 0, y := 0, z := 0 } := by
    intro hc
    rw [e3, n2]
    apply AvoidWalls_zero
    rw [n1, hc, NormalizeVelocity_zero]
  have hunit : steerComposed H i f done { b with age := b.age + 1 } rest s0 L0
      ≠ { x := 0, y := 0, z := 0 } → Real.sqrt (normSq b1.newDir) = 1 := by
    intro hc
    rw [e3, n2, AvoidWalls_normSq, n1, NormalizeVelocity_unit H hsqrt _ hc, Real.sqrt_one]
  refine ⟨⟨b, hbs, f, done, rest, s0, L0, e1, e2, e3, hzero, hunit⟩, ?_⟩
  by_cases hc : steerComposed H i f done { b with age := b.age + 1 } rest s0 L0
      = { x := 0, y := 0, z := 0 }
  · exact Or.inr (hzero hc)
  · exact Or.inl (hunit hc)

/-- Witness for C9: in the example state (inertia 1) the surviving agent of flock 0 ends
the tick with heading `(1, 0, 0)`, of length 1. -/
theorem heading_unit_after_tick_witness :
    (∀ i, (demoAgingState : t_jit_boids3d ℝ).inertia i ≠ 0) ∧
    ∃ s1 b1, FlightStep ⟨Real.sqrt, Real.sin, Real.cos⟩ (demoAgingState : t_jit_boids3d ℝ)
        = some s1 ∧ b1 ∈ s1.flockLL 0 ∧ b1.newDir = { x := 1, y := 0, z := 0 } ∧
      (Real.sqrt (normSq b1.newDir) = 1 ∨ b1.newDir = { x := 0, y := 0, z := 0 }) := by
  have hin : ∀ i, (demoAgingState : t_jit_boids3d ℝ).inertia i ≠ 0 := by
    intro i
    simp [demoAgingState]
  obtain ⟨s1, h1, h2⟩ := demoAgingState_tick
  obtain ⟨b1, hb1, hd⟩ : ∃ b1, b1 ∈ s1.flockLL 0 ∧ b1.newDir = { x := 1, y := 0, z := 0 } := by
    cases hl : s1.flockLL 0 with
    | nil => rw [hl] at h2; simp at h2
    | cons b l =>
      rw [hl] at h2
      simp only [List.map_cons, List.cons.injEq] at h2
      exact ⟨b, List.mem_cons_self _ _, h2.1⟩
  exact ⟨hin, s1, b1, h1, hb1, hd,
    (heading_unit_after_tick ⟨Real.sqrt, Real.sin, Real.cos⟩ rfl demoAgingState s1 hin h1 0 b1
      hb1).2⟩

/-! ## Attractors -/

/-- C10 fails on the code.  Adding attractors with requested IDs 5, 1 and then 1 again
gives the store `[2, 1, 5]`: the colliding request receives ID 2, not `max {1, 5} + 1 = 6`,
because the scan stops at the first attractor holding the requested ID.  Adding 2, 1 and
then 1 again gives `[2, 1, 2]`: the ID assigned on collision is already in use. -/
theorem addattractor_collision_not_max :
    ((jit_boids3d_addattractor (jit_boids3d_addattractor (jit_boids3d_addattractor
        (jit_boids3d_new : t_jit_boids3d ℚ) 5) 1) 1).attractorLL.map Attractor.id = [2, 1, 5]) ∧
    ((jit_boids3d_addattractor (jit_boids3d_addattractor (jit_boids3d_addattractor
        (jit_boids3d_new : t_jit_boids3d ℚ) 2) 1) 1).attractorLL.map Attractor.id = [2, 1, 2]) := by
  constructor <;> decide

/-- C11 fails on the code.  Starting from the empty store, the requests add 2, add 1, add 1
lead to a reachable store whose IDs are `[2, 1, 2]`: the third request collides with ID 1
and receives `maxID + 1 = 2`, where `maxID` was taken only up to the first attractor
holding the requested ID, so two stored attractors share ID 2. -/
theorem attractor_ids_not_unique :
    AttractorReachable (jit_boids3d_addattractor (jit_boids3d_addattractor
        (jit_boids3d_addattractor (jit_boids3d_new : t_jit_boids3d ℚ) 2) 1) 1) ∧
      (jit_boids3d_addattractor (jit_boids3d_addattractor (jit_boids3d_addattractor
        (jit_boids3d_new : t_jit_boids3d ℚ) 2) 1) 1).attractorLL.map Attractor.id = [2, 1, 2] ∧
      ¬ ((jit_boids3d_addattractor (jit_boids3d_addattractor (jit_boids3d_addattractor
        (jit_boids3d_new : t_jit_boids3d ℚ) 2) 1) 1).attractorLL.map Attractor.id).Nodup := by
  refine ⟨?_, by decide, by decide⟩
  exact AttractorReachable.add _ _ (AttractorReachable.add _ _
    (AttractorReachable.add _ _ (AttractorReachable.empty _ rfl rfl)))

/-- C12. Attractor add without collision: when no stored attractor holds the requested ID,
`jit_boids3d_addattractor` returns success and the new object differs from the old one only
in that one new attractor is put in front of the unchanged list and the count is increased
by exactly 1; the new attractor has exactly the requested ID, location `(0, 0, 0)` and
radius 0. -/
theorem addattractor_without_collision (s : t_jit_boids3d F) (newID : Int)
    (h : ∀ a ∈ s.attractorLL, a.id ≠ newID) :
    jit_boids3d_addattractor_err s newID = JIT_ERR_NONE ∧
    ∃ a : Attractor F,
      jit_boids3d_addattractor s newID
        = { s with attractorLL := a :: s.attractorLL, numAttractors := s.numAttractors + 1 } ∧
      a.id = newID ∧ a.loc = { x := 0, y := 0, z := 0 } ∧ a.attractorRadius = 0 := by
  constructor
  · unfold jit_boids3d_addattractor_err
    cases s.attractorLL <;> rfl
  · unfold jit_boids3d_addattractor
    cases hl : s.attractorLL with
    | nil =>
      refine ⟨_, rfl, rfl, ?_, ?_⟩ <;> split_ifs <;> rfl
    | cons b rest =>
      have hs : (addattractorScan newID (b :: rest) 0).1 = false :=
        addattractorScan_no_collision newID (b :: rest) 0 (by rw [← hl]; exact h)
      simp only [hs, if_true]
      refine ⟨_, rfl, rfl, ?_, ?_⟩ <;> split_ifs <;> rfl

/-- Witness for C12: the store holding IDs `[1, 5]` receives ID 7 in front. -/
theorem addattractor_without_collision_witness :
    (∀ a ∈ (jit_boids3d_addattractor (jit_boids3d_addattractor
        (jit_boids3d_new : t_jit_boids3d ℚ) 5) 1).attractorLL, a.id ≠ 7) ∧
      (jit_boids3d_addattractor_err (jit_boids3d_addattractor (jit_boids3d_addattractor
        (jit_boids3d_new : t_jit_boids3d ℚ) 5) 1) 7 = JIT_ERR_NONE ∧
        ∃ a : Attractor ℚ,
          jit_boids3d_addattractor (jit_boids3d_addattractor (jit_boids3d_addattractor
            (jit_boids3d_new : t_jit_boids3d ℚ) 5) 1) 7
            = { (jit_boids3d_addattractor (jit_boids3d_addattractor
                  (jit_boids3d_new : t_jit_boids3d ℚ) 5) 1) with
                attractorLL := a :: (jit_boids3d_addattractor (jit_boids3d_addattractor
                  (jit_boids3d_new : t_jit_boids3d ℚ) 5) 1).attractorLL
                numAttractors := (jit_boids3d_addattractor (jit_boids3d_addattractor
                  (jit_boids3d_new : t_jit_boids3d ℚ) 5) 1).numAttractors + 1 } ∧
          a.id = 7 ∧ a.loc = { x := 0, y := 0, z := 0 } ∧ a.attractorRadius = 0) ∧
      (demoAttractorStore : t_jit_boids3d ℚ).attractorLL.map Attractor.id = [7, 1, 5] ∧
      (demoAttractorStore : t_jit_boids3d ℚ).numAttractors = 3 := by
  have h : ∀ a ∈ (jit_boids3d_addattractor (jit_boids3d_addattractor
      (jit_boids3d_new : t_jit_boids3d ℚ) 5) 1).attractorLL, a.id ≠ 7 := by
    intro a ha
    simp only [jit_boids3d_addattractor, jit_boids3d_new, addattractorScan, InitAttractor,
      List.mem_cons, List.mem_singleton, List.not_mem_nil, or_false] at ha
    rcases ha with rfl | rfl <;> simp
  exact ⟨h, addattractor_without_collision _ 7 h, by decide, by decide⟩

/-- C13. Attractor delete by ID: when the tracked count equals the list length and some
stored attractor holds the ID, `jit_boids3d_deleteattractor` returns success and the new
object differs from the old one only in that the first attractor holding the ID is removed
from the list (all others unchanged and in the same order) and the count is decreased by
exactly 1. -/
theorem deleteattractor_removes_first (s : t_jit_boids3d F) (attractorID : Int)
    (hc : s.numAttractors = (s.attractorLL.length : Int))
    (h : ∃ a ∈ s.attractorLL, a.id = attractorID) :
    ∃ (pre : List (Attractor F)) (a : Attractor F) (post : List (Attractor F)),
      s.attractorLL = pre ++ a :: post ∧ a.id = attractorID ∧
      (∀ x ∈ pre, x.id ≠ attractorID) ∧
      jit_boids3d_deleteattractor s attractorID
        = (JIT_ERR_NONE,
            { s with attractorLL := pre ++ post, numAttractors := s.numAttractors - 1 }) := by
  obtain ⟨pre, a, post, e1, e2, e3, e4⟩ := deleteattractorScan_found attractorID _ h
  refine ⟨pre, a, post, e1, e2, e3, ?_⟩
  unfold jit_boids3d_deleteattractor
  rw [e4]
  simp only
  by_cases hz : s.numAttractors - 1 ≤ 0
  · rw [if_pos hz]
    have hlen : pre.length + post.length = 0 := by
      rw [hc, e1] at hz
      simp only [List.length_append, List.length_cons] at hz
      push_cast at hz
      omega
    have hpre : pre = [] := List.eq_nil_of_length_eq_zero (by omega)
    have hpost : post = [] := List.eq_nil_of_length_eq_zero (by omega)
    rw [hpre, hpost]
    rfl
  · rw [if_neg hz]

/-- Witness for C13: deleting ID 1 from the store `[7, 1, 5]` leaves `[7, 5]`, count 2. -/
theorem deleteattractor_removes_first_witness :
    ((demoAttractorStore : t_jit_boids3d ℚ).numAttractors
        = ((demoAttractorStore : t_jit_boids3d ℚ).attractorLL.length : Int) ∧
      ∃ a ∈ (demoAttractorStore : t_jit_boids3d ℚ).attractorLL, a.id = 1) ∧
    (∃ (pre : List (Attractor ℚ)) (a : Attractor ℚ) (post : List (Attractor ℚ)),
      (demoAttractorStore : t_jit_boids3d ℚ).attractorLL = pre ++ a :: post ∧ a.id = 1 ∧
      (∀ x ∈ pre, x.id ≠ 1) ∧
      jit_boids3d_deleteattractor (demoAttractorStore : t_jit_boids3d ℚ) 1
        = (JIT_ERR_NONE,
            { (demoAttractorStore : t_jit_boids3d ℚ) with
              attractorLL := pre ++ post
              numAttractors := (demoAttractorStore : t_jit_boids3d ℚ).numAttractors - 1 })) ∧
    (jit_boids3d_deleteattractor (demoAttractorStore : t_jit_boids3d ℚ) 1).2.attractorLL.map
      Attractor.id = [7, 5] ∧
    (jit_boids3d_deleteattractor (demoAttractorStore : t_jit_boids3d ℚ) 1).2.numAttractors
      = 2 := by
  have hc : (demoAttractorStore : t_jit_boids3d ℚ).numAttractors
      = ((demoAttractorStore : t_jit_boids3d ℚ).attractorLL.length : Int) := by decide
  have h : ∃ a ∈ (demoAttractorStore : t_jit_boids3d ℚ).attractorLL, a.id = 1 :=
    ⟨{ (InitAttractor : Attractor ℚ) with id := 1 }, by
      simp [demoAttractorStore, jit_boids3d_addattractor, jit_boids3d_new, addattractorScan,
        InitAttractor], rfl⟩
  exact ⟨⟨hc, h⟩, deleteattractor_removes_first _ 1 hc h, by decide, by decide⟩

/-- C14. Unknown attractor ID is a no-op: when no stored attractor holds the ID, both
`jit_boids3d_deleteattractor` and `jit_boids3d_attractpt` return success and leave the
whole object (list contents, order and count included) unchanged; hence deleting the ID
twice gives the same result as deleting it once. -/
theorem unknown_attractor_id_noop (s : t_jit_boids3d F) (attractorID : Int) (loc : Vec3 F)
    (radius : F) (h : ∀ a ∈ s.attractorLL, a.id ≠ attractorID) :
    jit_boids3d_deleteattractor s attractorID = (JIT_ERR_NONE, s) ∧
    jit_boids3d_attractpt s loc radius attractorID = (JIT_ERR_NONE, s) ∧
    jit_boids3d_deleteattractor (jit_boids3d_deleteattractor s attractorID).2 attractorID
      = jit_boids3d_deleteattractor s attractorID := by
  have hd : jit_boids3d_deleteattractor s attractorID = (JIT_ERR_NONE, s) := by
    unfold jit_boids3d_deleteattractor
    rw [deleteattractorScan_not_found attractorID _ h]
  refine ⟨hd, ?_, ?_⟩
  · unfold jit_boids3d_attractpt
    rw [attractptLoop_not_found attractorID loc radius _ h]
  · rw [hd]
    exact hd

/-- Witness for C14: ID 9 is not in the store `[7, 1, 5]`. -/
theorem unknown_attractor_id_noop_witness :
    (∀ a ∈ (demoAttractorStore : t_jit_boids3d ℚ).attractorLL, a.id ≠ 9) ∧
    jit_boids3d_deleteattractor (demoAttractorStore : t_jit_boids3d ℚ) 9
      = (JIT_ERR_NONE, demoAttractorStore) ∧
    jit_boids3d_attractpt (demoAttractorStore : t_jit_boids3d ℚ) { x := 1, y := 2, z := 3 } 4 9
      = (JIT_ERR_NONE, demoAttractorStore) ∧
    jit_boids3d_deleteattractor
        (jit_boids3d_deleteattractor (demoAttractorStore : t_jit_boids3d ℚ) 9).2 9
      = jit_boids3d_deleteattractor (demoAttractorStore : t_jit_boids3d ℚ) 9 := by
  have h : ∀ a ∈ (demoAttractorStore : t_jit_boids3d ℚ).attractorLL, a.id ≠ 9 := by
    intro a ha
    simp only [demoAttractorStore, jit_boids3d_addattractor, jit_boids3d_new,
      addattractorScan, InitAttractor, List.mem_cons, List.mem_singleton, List.not_mem_nil,
      or_false] at ha
    rcases ha with rfl | rfl | rfl <;> simp
  exact ⟨h, unknown_attractor_id_noop (demoAttractorStore : t_jit_boids3d ℚ) 9
    { x := 1, y := 2, z := 3 } 4 h⟩

/-- C15. Attractor move/update: when some stored attractor holds the ID,
`jit_boids3d_attractpt` returns success and the new object differs from the old one only in
that the first attractor holding the ID has its location and radius replaced by the
requested values; that attractor's ID and flock filter, every other attractor, the list
order and the attractor count are unchanged. -/
theorem attractpt_updates_first (s : t_jit_boids3d F) (loc : Vec3 F) (radius : F)
    (attractorID : Int) (h : ∃ a ∈ s.attractorLL, a.id = attractorID) :
    ∃ (pre : List (Attractor F)) (a : Attractor F) (post : List (Attractor F)),
      s.attractorLL = pre ++ a :: post ∧ a.id = attractorID ∧
      (∀ x ∈ pre, x.id ≠ attractorID) ∧
      jit_boids3d_attractpt s loc radius attractorID
        = (JIT_ERR_NONE,
            { s with attractorLL :=
                pre ++ { loc := loc, attractorRadius := radius, id := a.id,
                         onlyAttractedFlockID := a.onlyAttractedFlockID } :: post }) ∧
      (jit_boids3d_attractpt s loc radius attractorID).2.numAttractors = s.numAttractors := by
  obtain ⟨pre, a, post, e1, e2, e3, e4⟩ := attractptLoop_found attractorID loc radius _ h
  refine ⟨pre, a, post, e1, e2, e3, ?_, rfl⟩
  unfold jit_boids3d_attractpt
  rw [e4]

/-- Witness for C15: moving attractor 1 of the store `[7, 1, 5]` to `(1, 2, 3)` with radius
4 changes only that attractor's location and radius. -/
theorem attractpt_updates_first_witness :
    (∃ a ∈ (demoAttractorStore : t_jit_boids3d ℚ).attractorLL, a.id = 1) ∧
    (jit_boids3d_attractpt (demoAttractorStore : t_jit_boids3d ℚ) { x := 1, y := 2, z := 3 } 4
        1).2.attractorLL.map
      (fun a => (a.id, a.loc.x, a.loc.y, a.loc.z, a.attractorRadius, a.onlyAttractedFlockID))
      = [(7, 0, 0, 0, 0, -1), (1, 1, 2, 3, 4, -1), (5, 0, 0, 0, 0, -1)] ∧
    ∃ (pre : List (Attractor ℚ)) (a : Attractor ℚ) (post : List (Attractor ℚ)),
      (demoAttractorStore : t_jit_boids3d ℚ).attractorLL = pre ++ a :: post ∧ a.id = 1 ∧
      (∀ x ∈ pre, x.id ≠ 1) ∧
      jit_boids3d_attractpt (demoAttractorStore : t_jit_boids3d ℚ) { x := 1, y := 2, z := 3 } 4 1
        = (JIT_ERR_NONE,
            { (demoAttractorStore : t_jit_boids3d ℚ) with attractorLL :=
                pre ++ { loc := { x := 1, y := 2, z := 3 }, attractorRadius := 4, id := a.id,
                         onlyAttractedFlockID := a.onlyAttractedFlockID } :: post }) ∧
      (jit_boids3d_attractpt (demoAttractorStore : t_jit_boids3d ℚ) { x := 1, y := 2, z := 3 } 4
        1).2.numAttractors = (demoAttractorStore : t_jit_boids3d ℚ).numAttractors := by
  have h : ∃ a ∈ (demoAttractorStore : t_jit_boids3d ℚ).attractorLL, a.id = 1 :=
    ⟨{ (InitAttractor : Attractor ℚ) with id := 1 }, by
      simp [demoAttractorStore, jit_boids3d_addattractor, jit_boids3d_new, addattractorScan,
        InitAttractor], rfl⟩
  refine ⟨h, ?_, attractpt_updates_first (demoAttractorStore : t_jit_boids3d ℚ)
    { x := 1, y := 2, z := 3 } 4 1 h⟩
  simp [demoAttractorStore, jit_boids3d_attractpt, attractptLoop, jit_boids3d_addattractor,
    jit_boids3d_new, addattractorScan, InitAttractor]

/-- C16. Attractor count consistency: in every store reachable from an empty attractor
store by add, delete and move/update requests, the tracked count `numAttractors` equals the
number of attractors in the list. -/
theorem attractor_count_consistent (s : t_jit_boids3d F) (h : AttractorReachable s) :
    s.numAttractors = (s.attractorLL.length : Int) :=
  h.count_eq

/-- Witness for C16: the store obtained by add 5, add 1, add 7, delete 1, move 5. -/
theorem attractor_count_consistent_witness :
    AttractorReachable (jit_boids3d_attractpt
        (jit_boids3d_deleteattractor (demoAttractorStore : t_jit_boids3d ℚ) 1).2
        { x := 1, y := 2, z := 3 } 4 5).2 ∧
    (jit_boids3d_attractpt (jit_boids3d_deleteattractor (demoAttractorStore : t_jit_boids3d ℚ)
        1).2 { x := 1, y := 2, z := 3 } 4 5).2.numAttractors
      = ((jit_boids3d_attractpt (jit_boids3d_deleteattractor
          (demoAttractorStore : t_jit_boids3d ℚ) 1).2 { x := 1, y := 2, z := 3 } 4
            5).2.attractorLL.length : Int) := by
  have hr : AttractorReachable (jit_boids3d_attractpt
        (jit_boids3d_deleteattractor (demoAttractorStore : t_jit_boids3d ℚ) 1).2
        { x := 1, y := 2, z := 3 } 4 5).2 :=
    AttractorReachable.move _ _ _ _ (AttractorReachable.delete _ _
      (AttractorReachable.add _ _ (AttractorReachable.add _ _
        (AttractorReachable.add _ _ (AttractorReachable.empty _ rfl rfl)))))
  exact ⟨hr, attractor_count_consistent _ hr⟩

/-! ## Parameter setters -/

/-- C17. Positive floor for weights and speeds: for every flock slot `f` in 0..5 and every
requested value `v`, each of the setters for minSpeed, maxSpeed, centerWeight,
attractWeight, matchWeight, sepWeight, sepDistance, speedScale and accelFactor returns
success and stores `max v 0.000001` in flock `f`'s entry of its parameter (nothing else
changes), so the stored value is at least `0.000001`, which is strictly positive. -/
theorem setters_positive_floor (s : t_jit_boids3d F) (v : F) (f : Fin MAX_FLOCKS) :
    (0 : F) < kParamFloor ∧ kParamFloor ≤ max v kParamFloor ∧
    (kParamFloor : F) = 1 / 1000000 ∧
    jit_boids3d_minspeed s v ((f : Nat) : Int)
      = some (JIT_ERR_NONE, { s with minspeed := Function.update s.minspeed f (max v kParamFloor) }) ∧
    jit_boids3d_maxspeed s v ((f : Nat) : Int)
      = some (JIT_ERR_NONE, { s with maxspeed := Function.update s.maxspeed f (max v kParamFloor) }) ∧
    jit_boids3d_center s v ((f : Nat) : Int)
      = some (JIT_ERR_NONE, { s with center := Function.update s.center f (max v kParamFloor) }) ∧
    jit_boids3d_attract s v ((f : Nat) : Int)
      = some (JIT_ERR_NONE, { s with attract := Function.update s.attract f (max v kParamFloor) }) ∧
    jit_boids3d_match s v ((f : Nat) : Int)
      = some (JIT_ERR_NONE, { s with «match» := Function.update s.«match» f (max v kParamFloor) }) ∧
    jit_boids3d_sepwt s v ((f : Nat) : Int)
      = some (JIT_ERR_NONE, { s with sepwt := Function.update s.sepwt f (max v kParamFloor) }) ∧
    jit_boids3d_sepdist s v ((f : Nat) : Int)
      = some (JIT_ERR_NONE, { s with sepdist := Function.update s.sepdist f (max v kParamFloor) }) ∧
    jit_boids3d_speed s v ((f : Nat) : Int)
      = some (JIT_ERR_NONE, { s with speed := Function.update s.speed f (max v kParamFloor) }) ∧
    jit_boids3d_accel s v ((f : Nat) : Int)
      = some (JIT_ERR_NONE, { s with accel := Function.update s.accel f (max v kParamFloor) }) := by
  refine ⟨kParamFloor_pos, le_max_right _ _, rfl, ?_, ?_, ?_, ?_, ?_, ?_, ?_, ?_, ?_⟩
  · simp only [jit_boids3d_minspeed, flockIndex_coe, MAX_eq_max]
  · simp only [jit_boids3d_maxspeed, flockIndex_coe, MAX_eq_max]
  · simp only [jit_boids3d_center, flockIndex_coe, MAX_eq_max]
  · simp only [jit_boids3d_attract, flockIndex_coe, MAX_eq_max]
  · simp only [jit_boids3d_match, flockIndex_coe, MAX_eq_max]
  · simp only [jit_boids3d_sepwt, flockIndex_coe, MAX_eq_max]
  · simp only [jit_boids3d_sepdist, flockIndex_coe, MAX_eq_max]
  · simp only [jit_boids3d_speed, flockIndex_coe, MAX_eq_max]
  · simp only [jit_boids3d_accel, flockIndex_coe, MAX_eq_max]

/-- C18, as stated, fails: requesting the neighbor radius `-3` (or `0`) for flock 2 stores
`0`, which is not strictly positive; the setter clamps with `MAX(v, 0.0)`. -/
theorem nradius_zero_counterexample :
    (jit_boids3d_nradius (jit_boids3d_new : t_jit_boids3d ℚ) (-3) 2).map
        (fun r => r.2.neighborRadius 2) = some 0 ∧
      (jit_boids3d_nradius (jit_boids3d_new : t_jit_boids3d ℚ) 0 2).map
        (fun r => r.2.neighborRadius 2) = some 0 ∧
      ¬ ((0 : ℚ) < 0) := by
  refine ⟨?_, ?_, lt_irrefl 0⟩
  · have hi : flockIndex (2 : Int) = some (2 : Fin MAX_FLOCKS) := by decide
    simp [jit_boids3d_nradius, hi, MAX]
  · have hi : flockIndex (2 : Int) = some (2 : Fin MAX_FLOCKS) := by decide
    simp [jit_boids3d_nradius, hi, MAX]

/-- C18, amended: for every flock slot `f` in 0..5 and every requested value `v`,
`jit_boids3d_nradius` returns success and stores `max v 0` in `neighborRadius[f]`; the
stored value is never negative, and it is strictly positive exactly when `v` is. -/
theorem nradius_nonneg_floor (s : t_jit_boids3d F) (v : F) (f : Fin MAX_FLOCKS) :
    jit_boids3d_nradius s v ((f : Nat) : Int)
      = some (JIT_ERR_NONE,
          { s with neighborRadius := Function.update s.neighborRadius f (max v 0) }) ∧
    0 ≤ max v 0 ∧ (0 < max v 0 ↔ 0 < v) := by
  refine ⟨?_, le_max_right _ _, ?_⟩
  · simp only [jit_boids3d_nradius, flockIndex_coe, MAX_eq_max]
  · simp [lt_max_iff]

/-- C19, as stated, fails: requesting inertia `-1` for flock 0 stores `-1`, which is not
greater than 0; only the value exactly `0` is replaced. -/
theorem inertia_negative_counterexample :
    (jit_boids3d_inertia (jit_boids3d_new : t_jit_boids3d ℚ) (-1) 0).map
        (fun r => r.2.inertia 0) = some (-1) ∧
      ¬ ((0 : ℚ) < -1) := by
  refine ⟨?_, by norm_num⟩
  have hi : flockIndex (0 : Int) = some (0 : Fin MAX_FLOCKS) := by decide
  simp [jit_boids3d_inertia, hi]

/-- C19, amended: for every flock slot `f` in 0..5 and every requested value `v` that is
not negative, after `jit_boids3d_inertia` the stored `inertia[f]` is strictly greater than
0: it is `0.000001` when `v` is exactly 0 and `v` otherwise. -/
theorem inertia_positive_of_nonneg (s : t_jit_boids3d F) (v : F) (f : Fin MAX_FLOCKS)
    (hv : 0 ≤ v) :
    ∃ s1, jit_boids3d_inertia s v ((f : Nat) : Int) = some (JIT_ERR_NONE, s1) ∧
      s1.inertia f = (if v = 0 then kParamFloor else v) ∧ 0 < s1.inertia f := by
  unfold jit_boids3d_inertia
  rw [flockIndex_coe]
  by_cases h0 : v = 0
  · simp only [h0, if_true]
    exact ⟨_, rfl, by simp, by simpa using kParamFloor_pos⟩
  · simp only [h0, if_false]
    exact ⟨_, rfl, by simp, by simpa using lt_of_le_of_ne hv (Ne.symm h0)⟩

/-- Witness for the amended C19: the request `0` for flock 3 stores `0.000001`. -/
theorem inertia_positive_of_nonneg_witness :
    ((0 : ℚ) ≤ 0) ∧
    ∃ s1, jit_boids3d_inertia (jit_boids3d_new : t_jit_boids3d ℚ) 0
        (((3 : Fin MAX_FLOCKS) : Nat) : Int) = some (JIT_ERR_NONE, s1) ∧
      s1.inertia 3 = (if (0 : ℚ) = 0 then kParamFloor else 0) ∧ 0 < s1.inertia 3 :=
  ⟨le_refl 0, inertia_positive_of_nonneg (jit_boids3d_new : t_jit_boids3d ℚ) 0 3 (le_refl 0)⟩

/-- C20, as stated, fails: with the flock ID 6 (or -1) the setter is not a no-op returning
success; the unchecked write `array[flockID]` falls outside the parameter array and the
call has no defined result. -/
theorem setter_out_of_range_counterexample :
    jit_boids3d_nradius (jit_boids3d_new : t_jit_boids3d ℚ) 1 6
        ≠ some (JIT_ERR_NONE, jit_boids3d_new) ∧
      jit_boids3d_nradius (jit_boids3d_new : t_jit_boids3d ℚ) 1 6 = none ∧
      jit_boids3d_age (jit_boids3d_new : t_jit_boids3d ℚ) 1 (-1) = none := by
  have h6 : flockIndex (6 : Int) = none := by decide
  have hm : flockIndex (-1 : Int) = none := by decide
  refine ⟨?_, ?_, ?_⟩
  · simp [jit_boids3d_nradius, h6]
  · simp [jit_boids3d_nradius, h6]
  · simp [jit_boids3d_age, hm]

/-- C20, amended: for every per-flock parameter setter (neighbor radius, min/max speed,
center/attract/match/sep weight, sep distance, speed scale, inertia, accel factor, age) and
every target flock ID in 0..5, the call returns success and changes nothing but that
flock's entry of the setter's parameter; a flock ID outside 0..5 is not checked, the write
falls outside the parameter array and the call has no defined result. -/
theorem setters_flock_id_range (s : t_jit_boids3d F) (v : F) :
    (∀ id : Int, ¬ (0 ≤ id ∧ id < 6) →
      jit_boids3d_nradius s v id = none ∧
      jit_boids3d_minspeed s v id = none ∧
      jit_boids3d_maxspeed s v id = none ∧
      jit_boids3d_center s v id = none ∧
      jit_boids3d_attract s v id = none ∧
      jit_boids3d_match s v id = none ∧
      jit_boids3d_sepwt s v id = none ∧
      jit_boids3d_sepdist s v id = none ∧
      jit_boids3d_speed s v id = none ∧
      jit_boids3d_inertia s v id = none ∧
      jit_boids3d_accel s v id = none ∧
      jit_boids3d_age s v id = none) ∧
    (∀ f : Fin MAX_FLOCKS,
      jit_boids3d_nradius s v ((f : Nat) : Int)
        = some (JIT_ERR_NONE, { s with neighborRadius := Function.update s.neighborRadius f (MAX v 0) }) ∧
      jit_boids3d_minspeed s v ((f : Nat) : Int)
        = some (JIT_ERR_NONE, { s with minspeed := Function.update s.minspeed f (MAX v kParamFloor) }) ∧
      jit_boids3d_maxspeed s v ((f : Nat) : Int)
        = some (JIT_ERR_NONE, { s with maxspeed := Function.update s.maxspeed f (MAX v kParamFloor) }) ∧
      jit_boids3d_center s v ((f : Nat) : Int)
        = some (JIT_ERR_NONE, { s with center := Function.update s.center f (MAX v kParamFloor) }) ∧
      jit_boids3d_attract s v ((f : Nat) : Int)
        = some (JIT_ERR_NONE, { s with attract := Function.update s.attract f (MAX v kParamFloor) }) ∧
      jit_boids3d_match s v ((f : Nat) : Int)
        = some (JIT_ERR_NONE, { s with «match» := Function.update s.«match» f (MAX v kParamFloor) }) ∧
      jit_boids3d_sepwt s v ((f : Nat) : Int)
        = some (JIT_ERR_NONE, { s with sepwt := Function.update s.sepwt f (MAX v kParamFloor) }) ∧
      jit_boids3d_sepdist s v ((f : Nat) : Int)
        = some (JIT_ERR_NONE, { s with sepdist := Function.update s.sepdist f (MAX v kParamFloor) }) ∧
      jit_boids3d_speed s v ((f : Nat) : Int)
        = some (JIT_ERR_NONE, { s with speed := Function.update s.speed f (MAX v kParamFloor) }) ∧
      jit_boids3d_inertia s v ((f : Nat) : Int)
        = some (JIT_ERR_NONE, { s with inertia := Function.update s.inertia f (if v = 0 then kParamFloor else v) }) ∧
      jit_boids3d_accel s v ((f : Nat) : Int)
        = some (JIT_ERR_NONE, { s with accel := Function.update s.accel f (MAX v kParamFloor) }) ∧
      jit_boids3d_age s v ((f : Nat) : Int)
        = some (JIT_ERR_NONE, { s with age := Function.update s.age f (v) })) := by
  constructor
  · intro id hid
    have h := flockIndex_out_of_range id hid
    simp only [jit_boids3d_nradius, jit_boids3d_minspeed, jit_boids3d_maxspeed, jit_boids3d_center, jit_boids3d_attract, jit_boids3d_match, jit_boids3d_sepwt, jit_boids3d_sepdist, jit_boids3d_speed, jit_boids3d_inertia, jit_boids3d_accel, jit_boids3d_age, h, and_self]
  · intro f
    simp only [jit_boids3d_nradius, jit_boids3d_minspeed, jit_boids3d_maxspeed, jit_boids3d_center, jit_boids3d_attract, jit_boids3d_match, jit_boids3d_sepwt, jit_boids3d_sepdist, jit_boids3d_speed, jit_boids3d_inertia, jit_boids3d_accel, jit_boids3d_age, flockIndex_coe, true_and]
    split_ifs <;> exact ⟨rfl, trivial⟩

/-- Witness for the amended C20: flock ID 6 has no defined result; flock ID 4 returns success
and changes only `age[4]`. -/
theorem setters_flock_id_range_witness :
    ¬ (0 ≤ (6 : Int) ∧ (6 : Int) < 6) ∧
    jit_boids3d_sepwt (jit_boids3d_new : t_jit_boids3d ℚ) 1 6 = none ∧
    jit_boids3d_age (jit_boids3d_new : t_jit_boids3d ℚ) 1 (((4 : Fin MAX_FLOCKS) : Nat) : Int)
      = some (JIT_ERR_NONE,
          { (jit_boids3d_new : t_jit_boids3d ℚ) with
            age := Function.update (jit_boids3d_new : t_jit_boids3d ℚ).age 4 1 }) :=
  ⟨by decide,
    ((setters_flock_id_range (jit_boids3d_new : t_jit_boids3d ℚ) 1).1 6 (by decide)).2.2.2.2.2.2.1,
    ((setters_flock_id_range (jit_boids3d_new : t_jit_boids3d ℚ) 1).2 4).2.2.2.2.2.2.2.2.2.2.2⟩

/-- C22 (confirmed).  Adjacency-line cap: from any state whose agents carry flock IDs that
are array indices (0..5), the tick `FlightStep` is defined and afterwards the adjacency-line
count `sizeOfNeighborhoodConnections` is between 0 and 272 (`kMaxNeighborLines`)
inclusive. -/
theorem adjacency_line_cap (H : Host F) (s : t_jit_boids3d F)
    (hv : ∀ i, ∀ b ∈ s.flockLL i, ∃ f, flockIndex b.flockID = some f) :
    ∃ s1, FlightStep H s = some s1 ∧
      0 ≤ sizeOfNeighborhoodConnections s1 ∧
      sizeOfNeighborhoodConnections s1 ≤ kMaxNeighborLines ∧ kMaxNeighborLines = 272 := by
  obtain ⟨s1, h⟩ := FlightStep_isSome H s hv
  refine ⟨s1, h, Nat.zero_le _, ?_, rfl⟩
  refine FlightStep_lines H (fun ls => ls.length ≤ kMaxNeighborLines) s s1 ?_
    (Nat.zero_le _) h
  intro s2 theBoid f acc it _ hacc
  rcases scanBoid_lines_cases H s2 theBoid f acc it with hc | ⟨hc, hlt, _⟩
  · rw [hc]
    exact hacc
  · rw [hc, List.length_append, List.length_singleton]
    exact hlt

/-- Witness for C22: the tick of the pair example is defined and leaves one adjacency
line. -/
theorem adjacency_line_cap_witness :
    (∀ i, ∀ b ∈ (demoPairState : t_jit_boids3d ℝ).flockLL i,
      ∃ f, flockIndex b.flockID = some f) ∧
    (∃ s1, FlightStep ⟨Real.sqrt, Real.sin, Real.cos⟩ (demoPairState : t_jit_boids3d ℝ)
        = some s1 ∧
      0 ≤ sizeOfNeighborhoodConnections s1 ∧
      sizeOfNeighborhoodConnections s1 ≤ kMaxNeighborLines ∧ kMaxNeighborLines = 272) ∧
    ∃ s1, FlightStep ⟨Real.sqrt, Real.sin, Real.cos⟩ (demoPairState : t_jit_boids3d ℝ)
        = some s1 ∧ sizeOfNeighborhoodConnections s1 = 1 := by
  refine ⟨fun i => demoPairState_valid i,
    adjacency_line_cap ⟨Real.sqrt, Real.sin, Real.cos⟩ (demoPairState : t_jit_boids3d ℝ)
      (fun i => demoPairState_valid i), ?_⟩
  obtain ⟨s1, h, _, hl⟩ := demoPairState_tick
  refine ⟨s1, h, ?_⟩
  have := congrArg List.length hl
  simpa [sizeOfNeighborhoodConnections] using this

/-- C23 (confirmed).  Adjacency drawing gate: for every state in which the draw-adjacency
flag `drawingNeighbors` is 0 (and whose agents carry flock IDs that are array indices),
`FlightStep` is defined and afterwards the adjacency store is empty (count 0), whatever it
held before the tick and however many agents are neighbors of each other. -/
theorem adjacency_gate_off (H : Host F) (s : t_jit_boids3d F)
    (hv : ∀ i, ∀ b ∈ s.flockLL i, ∃ f, flockIndex b.flockID = some f)
    (hd : s.drawingNeighbors = 0) :
    ∃ s1, FlightStep H s = some s1 ∧
      s1.neighborhoodConnections = [] ∧ sizeOfNeighborhoodConnections s1 = 0 := by
  obtain ⟨s1, h⟩ := FlightStep_isSome H s hv
  have hnil : s1.neighborhoodConnections = [] := by
    refine FlightStep_lines H (fun ls => ls = []) s s1 ?_ rfl h
    intro s2 theBoid f acc it hfr hacc
    rcases scanBoid_lines_cases H s2 theBoid f acc it with hc | ⟨_, _, hdraw, _⟩
    · rw [hc]
      exact hacc
    · exact absurd (hfr.drawingNeighbors.trans hd) hdraw
  exact ⟨s1, h, hnil, by rw [sizeOfNeighborhoodConnections, hnil]; rfl⟩

/-- Witness for C23: the pair example (two agents within each other's neighbor radius) with
drawing switched off and one stale line in the store; the tick is defined and leaves the
store empty. -/
theorem adjacency_gate_off_witness :
    ({ (demoPairState : t_jit_boids3d ℝ) with
        drawingNeighbors := 0
        neighborhoodConnections :=
          [InitNeighborhoodLine
            (demoBoidAt 0 1 { x := 1, y := 0, z := 0 } { x := 1, y := 0, z := 0 }
              { x := 1, y := 0, z := 0 } { x := 1, y := 0, z := 0 })
            (demoBoidAt 0 0 { x := 0, y := 0, z := 0 } { x := 0, y := 0, z := 0 }
              { x := 1, y := 0, z := 0 } { x := 1, y := 0, z := 0 })] } :
      t_jit_boids3d ℝ).drawingNeighbors = 0 ∧
    ∃ s1, FlightStep ⟨Real.sqrt, Real.sin, Real.cos⟩
        ({ (demoPairState : t_jit_boids3d ℝ) with
            drawingNeighbors := 0
            neighborhoodConnections :=
              [InitNeighborhoodLine
                (demoBoidAt 0 1 { x := 1, y := 0, z := 0 } { x := 1, y := 0, z := 0 }
                  { x := 1, y := 0, z := 0 } { x := 1, y := 0, z := 0 })
                (demoBoidAt 0 0 { x := 0, y := 0, z := 0 } { x := 0, y := 0, z := 0 }
                  { x := 1, y := 0, z := 0 } { x := 1, y := 0, z := 0 })] }) = some s1 ∧
      s1.neighborhoodConnections = [] ∧ sizeOfNeighborhoodConnections s1 = 0 :=
  ⟨rfl, adjacency_gate_off ⟨Real.sqrt, Real.sin, Real.cos⟩ _
    (fun i => demoPairState_valid i) rfl⟩

/-- C24 (confirmed).  `NormalizeVelocity` over the reals (host `sqrt` the real square
root): for every vector `v` with non-zero Euclidean norm the result is `v` divided by its
norm and has norm 1; when the norm is zero (which happens exactly for the zero vector) the
result is `v` unchanged, with no division. -/
theorem normalize_divides_by_norm (H : Host ℝ) (hsqrt : H.sqrt = Real.sqrt) (v : Vec3 ℝ) :
    (Real.sqrt (normSq v) ≠ 0 →
      NormalizeVelocity H v =
          { x := v.x / Real.sqrt (normSq v), y := v.y / Real.sqrt (normSq v),
            z := v.z / Real.sqrt (normSq v) } ∧
        Real.sqrt (normSq (NormalizeVelocity H v)) = 1) ∧
    (Real.sqrt (normSq v) = 0 → NormalizeVelocity H v = v) ∧
    (Real.sqrt (normSq v) = 0 ↔ v = { x := 0, y := 0, z := 0 }) ∧
    NormalizeVelocity H { x := 0, y := 0, z := 0 } = { x := 0, y := 0, z := 0 } := by
  have hn : v.x * v.x + v.y * v.y + v.z * v.z = normSq v := rfl
  have hiff : Real.sqrt (normSq v) = 0 ↔ v = { x := 0, y := 0, z := 0 } := by
    constructor
    · intro h0
      by_contra hv
      exact (Real.sqrt_pos.mpr (normSq_pos_of_ne_zero v hv)).ne' h0
    · intro hv
      rw [hv]
      simp [normSq]
  refine ⟨?_, ?_, hiff, NormalizeVelocity_zero H⟩
  · intro hne
    have hv : v ≠ { x := 0, y := 0, z := 0 } := fun hv => hne (hiff.mpr hv)
    refine ⟨?_, ?_⟩
    · simp only [NormalizeVelocity, hsqrt, hn, if_pos hne]
    · rw [NormalizeVelocity_unit H hsqrt v hv, Real.sqrt_one]
  · intro h0
    simp only [NormalizeVelocity, hsqrt, hn, h0, ne_eq, not_true_eq_false, if_false]

/-- Witness for C24: the vector `(3, 0, 4)` has norm 5 and is normalized to
`(3/5, 0, 4/5)`. -/
theorem normalize_divides_by_norm_witness :
    NormalizeVelocity ⟨Real.sqrt, Real.sin, Real.cos⟩ ({ x := 3, y := 0, z := 4 } : Vec3 ℝ)
      = { x := 3 / 5, y := 0, z := 4 / 5 } := by
  have h25 : Real.sqrt (normSq ({ x := 3, y := 0, z := 4 } : Vec3 ℝ)) = 5 := by
    have : normSq ({ x := 3, y := 0, z := 4 } : Vec3 ℝ) = 5 * 5 := by
      simp only [normSq]
      norm_num
    rw [this]
    exact Real.sqrt_mul_self (by norm_num)
  have h := ((normalize_divides_by_norm ⟨Real.sqrt, Real.sin, Real.cos⟩ rfl
    { x := 3, y := 0, z := 4 }).1 (by rw [h25]; norm_num)).1
  rw [h, h25]
  norm_num

/-- C25 (counterexample).  When the host random source returns a value whose low 16 bits
are all ones, `RandomInt(0, 360)` returns the upper bound 360. -/
theorem randomint_returns_max_counterexample :
    RandomInt 65535 (0 : ℚ) 360 = 360 ∧ ¬ (RandomInt 65535 (0 : ℚ) 360 < 360) := by
  constructor
  · norm_num [RandomInt]
  · norm_num [RandomInt]

/-- C25 (amended).  For every `min < max` and every value `r` returned by the host random
source, `RandomInt(min, max)` lies in the closed interval `[min, max]`; the upper bound is
returned exactly when the low 16 bits of `r` are all ones (`r mod 65536 = 65535`), and
otherwise the result is strictly below `max`. -/
theorem randomint_closed_range (r : Int) (minRange maxRange : F) (h : minRange < maxRange) :
    minRange ≤ RandomInt r minRange maxRange ∧ RandomInt r minRange maxRange ≤ maxRange ∧
    (RandomInt r minRange maxRange = maxRange ↔ r % 65536 = 65535) ∧
    (r % 65536 ≠ 65535 → RandomInt r minRange maxRange < maxRange) := by
  obtain ⟨h0, h1, h2⟩ := RandomInt_unit (F := F) r
  have hd : 0 < maxRange - minRange := sub_pos.mpr h
  have hle : RandomInt r minRange maxRange ≤ maxRange := by
    simp only [RandomInt]
    nlinarith [mul_le_mul_of_nonneg_right h1 hd.le]
  have hiff : RandomInt r minRange maxRange = maxRange ↔ r % 65536 = 65535 := by
    rw [← h2]
    simp only [RandomInt]
    constructor
    · intro e
      have e2 : (((r % 65536 : Int) : F) / 65535 - 1) * (maxRange - minRange) = 0 := by
        linear_combination e
      rcases mul_eq_zero.mp e2 with e3 | e3
      · linear_combination e3
      · exact absurd e3 hd.ne'
    · intro e
      rw [e]
      ring
  refine ⟨?_, hle, hiff, ?_⟩
  · simp only [RandomInt]
    nlinarith [mul_nonneg h0 hd.le]
  · intro hne
    exact lt_of_le_of_ne hle (fun e => hne (hiff.mp e))

/-- Witness for the amended C25: with `r = 32768` the result of `RandomInt(0, 360)` lies in
`[0, 360]` and is below 360. -/
theorem randomint_closed_range_witness :
    (0 : ℚ) < 360 ∧ (0 : ℚ) ≤ RandomInt 32768 0 360 ∧ RandomInt 32768 (0 : ℚ) 360 < 360 :=
  ⟨by norm_num, (randomint_closed_range 32768 (0 : ℚ) 360 (by norm_num)).1,
    (randomint_closed_range 32768 (0 : ℚ) 360 (by norm_num)).2.2.2 (by decide)⟩

/-- C30 (confirmed).  Cross-flock isolation: when `allowNeighborsFromDiffFlock` is 0, one
call of `CalcFlockCenterAndNeighborVel` for an agent returns the same centroid, alignment
vector, separation vector and adjacency store as the same call on the object with every
agent of another flock removed; the store is the previous store with lines appended, and
every appended line has equal flock IDs on its two endpoints. -/
theorem cross_flock_isolation (H : Host F) (s : t_jit_boids3d F) (theBoid : Boid F)
    (f : Fin MAX_FLOCKS) (separationNeighborVel : Vec3 F)
    (hallow : s.allowNeighborsFromDiffFlock = 0) :
    (CalcFlockCenterAndNeighborVel H s theBoid f separationNeighborVel).1.tempCenterPt
      = (CalcFlockCenterAndNeighborVel H (dropOtherFlocks s theBoid.flockID) theBoid f
          separationNeighborVel).1.tempCenterPt ∧
    (CalcFlockCenterAndNeighborVel H s theBoid f separationNeighborVel).2
      = (CalcFlockCenterAndNeighborVel H (dropOtherFlocks s theBoid.flockID) theBoid f
          separationNeighborVel).2 ∧
    (CalcFlockCenterAndNeighborVel H s theBoid f separationNeighborVel).1.neighborhoodConnections
      = (CalcFlockCenterAndNeighborVel H (dropOtherFlocks s theBoid.flockID) theBoid f
          separationNeighborVel).1.neighborhoodConnections ∧
    ∃ added,
      (CalcFlockCenterAndNeighborVel H s theBoid f
          separationNeighborVel).1.neighborhoodConnections
        = s.neighborhoodConnections ++ added ∧
      ∀ l ∈ added, l.flockIDA = l.flockIDB := by
  have hfold : ∀ acc : NeighborScan F,
      (allBoids (dropOtherFlocks s theBoid.flockID)).foldl
          (scanBoid H (dropOtherFlocks s theBoid.flockID) theBoid f) acc
        = (allBoids s).foldl (scanBoid H s theBoid f) acc := by
    intro acc
    rw [allBoids_dropOtherFlocks, scanBoid_dropOtherFlocks]
    refine (foldl_filter_skip (scanBoid H s theBoid f)
      (fun b => decide (b.flockID = theBoid.flockID)) ?_ (allBoids s) acc).symm
    intro acc2 it hp
    exact scanBoid_other_flock H s theBoid f acc2 it hallow (by simpa using hp)
  have hlines : (dropOtherFlocks s theBoid.flockID).neighborhoodConnections
      = s.neighborhoodConnections := rfl
  refine ⟨?_, ?_, ?_, ?_⟩
  · simp only [CalcFlockCenterAndNeighborVel, hfold, hlines]
  · simp only [CalcFlockCenterAndNeighborVel, hfold, hlines]
  · simp only [CalcFlockCenterAndNeighborVel, hfold, hlines]
  · simp only [CalcFlockCenterAndNeighborVel]
    exact scanFold_lines_append H s theBoid f hallow s.neighborhoodConnections (allBoids s) _
      ⟨[], (List.append_nil _).symm, fun x hx => absurd hx (List.not_mem_nil x)⟩

/-- Witness for C30: in the two-flock example with cross-flock neighbors switched off, the
scan for the agent of flock 0 returns the vectors it returns when flock 1's agent is
removed. -/
theorem cross_flock_isolation_witness :
    ({ (demoCarryState : t_jit_boids3d ℝ) with
        allowNeighborsFromDiffFlock := 0 }).allowNeighborsFromDiffFlock = 0 ∧
    (CalcFlockCenterAndNeighborVel ⟨Real.sqrt, Real.sin, Real.cos⟩
        { (demoCarryState : t_jit_boids3d ℝ) with allowNeighborsFromDiffFlock := 0 }
        (demoBoidAt 0 0 { x := 0, y := 0, z := 0 } { x := 0, y := 0, z := 0 }
          { x := 1, y := 0, z := 0 } { x := 1, y := 0, z := 0 }) 0
        { x := 0, y := 0, z := 0 }).2
      = (CalcFlockCenterAndNeighborVel ⟨Real.sqrt, Real.sin, Real.cos⟩
          (dropOtherFlocks
            { (demoCarryState : t_jit_boids3d ℝ) with allowNeighborsFromDiffFlock := 0 } 0)
          (demoBoidAt 0 0 { x := 0, y := 0, z := 0 } { x := 0, y := 0, z := 0 }
            { x := 1, y := 0, z := 0 } { x := 1, y := 0, z := 0 }) 0
          { x := 0, y := 0, z := 0 }).2 :=
  ⟨rfl, (cross_flock_isolation ⟨Real.sqrt, Real.sin, Real.cos⟩
    { (demoCarryState : t_jit_boids3d ℝ) with allowNeighborsFromDiffFlock := 0 }
    (demoBoidAt 0 0 { x := 0, y := 0, z := 0 } { x := 0, y := 0, z := 0 }
      { x := 1, y := 0, z := 0 } { x := 1, y := 0, z := 0 }) 0
    { x := 0, y := 0, z := 0 } rfl).2.1⟩

/-- C21 (code bug).  In the attractor example (one attractor at the origin with radius 5,
attract weight 2, agent 1 at distance 1 stored before agent 0 at distance 9), one tick
turns both agents from heading `(1, 0, 0)` to `(-1, 0, 0)`: the agent outside the radius is
steered by the attraction direction left in `goAttractVel` by the agent processed before
it, although `SeekAttractors` started from the zero vector returns the zero vector for
it. -/
theorem attraction_carried_to_out_of_range_agent :
    (∃ s1, FlightStep ⟨Real.sqrt, Real.sin, Real.cos⟩ (demoAttractState : t_jit_boids3d ℝ)
        = some s1 ∧
      (s1.flockLL 0).map (fun b => (b.globalID, b.oldPos, b.newDir))
        = [(1, { x := 1, y := 0, z := 0 }, { x := -1, y := 0, z := 0 }),
           (0, { x := 9, y := 0, z := 0 }, { x := -1, y := 0, z := 0 })]) ∧
    (demoAttractState : t_jit_boids3d ℝ).attractorLL.map
        (fun a => (a.loc, a.attractorRadius, a.onlyAttractedFlockID))
      = [({ x := 0, y := 0, z := 0 }, 5, -1)] ∧
    SeekAttractors ⟨Real.sqrt, Real.sin, Real.cos⟩ (demoAttractState : t_jit_boids3d ℝ)
        (demoBoidAt 0 0 { x := 9, y := 0, z := 0 } { x := 9, y := 0, z := 0 }
          { x := 1, y := 0, z := 0 } { x := 1, y := 0, z := 0 })
        { x := 0, y := 0, z := 0 } = { x := 0, y := 0, z := 0 } ∧
    SeekAttractors ⟨Real.sqrt, Real.sin, Real.cos⟩ (demoAttractState : t_jit_boids3d ℝ)
        (demoBoidAt 0 0 { x := 9, y := 0, z := 0 } { x := 9, y := 0, z := 0 }
          { x := 1, y := 0, z := 0 } { x := 1, y := 0, z := 0 })
        { x := -1, y := 0, z := 0 } = { x := -1, y := 0, z := 0 } := by
  refine ⟨demoAttractState_tick, ?_, ?_, ?_⟩
  · norm_num [demoAttractState, demoParams, jit_boids3d_new, jit_boids3d_attractpt,
      attractptLoop, jit_boids3d_addattractor, InitAttractor, addattractorScan]
  · norm_num [SeekAttractors, seekAttractorsLoop, demoAttractState, demoParams,
      jit_boids3d_new, jit_boids3d_attractpt, attractptLoop, jit_boids3d_addattractor,
      InitAttractor, addattractorScan, demoBoidAt, DistSqrToPt, NormalizeVelocity, sqrt_eighty_one]
  · norm_num [SeekAttractors, seekAttractorsLoop, demoAttractState, demoParams,
      jit_boids3d_new, jit_boids3d_attractpt, attractptLoop, jit_boids3d_addattractor,
      InitAttractor, addattractorScan, demoBoidAt, DistSqrToPt, NormalizeVelocity, sqrt_eighty_one]

/-- C27 (code bug).  In the carry example (separation weight 2; flock 0's agent has flock
1's agent as a close neighbor, flock 1 has neighbor radius 0 so its agent has no neighbor
at all), one tick turns the agent of flock 1 from heading `(1, 0, 0)` to `(-1, 0, 0)`: the
separation vector returned for it is the one left in `separationNeighborVel` by the agent
processed before it, although the scan started from the zero vector returns the zero
vector for it. -/
theorem separation_carried_to_agent_without_neighbors :
    (∃ s1, FlightStep ⟨Real.sqrt, Real.sin, Real.cos⟩ (demoCarryState : t_jit_boids3d ℝ)
        = some s1 ∧
      (s1.flockLL 1).map (fun b => (b.globalID, b.oldPos, b.newDir))
        = [(1, { x := 1, y := 0, z := 0 }, { x := -1, y := 0, z := 0 })]) ∧
    (demoCarryState : t_jit_boids3d ℝ).neighborRadius 1 = 0 ∧
    (CalcFlockCenterAndNeighborVel ⟨Real.sqrt, Real.sin, Real.cos⟩
        (demoCarryState : t_jit_boids3d ℝ)
        (demoBoidAt 1 1 { x := 1, y := 0, z := 0 } { x := 1, y := 0, z := 0 }
          { x := 1, y := 0, z := 0 } { x := 1, y := 0, z := 0 }) 1
        { x := 0, y := 0, z := 0 }).2.2 = { x := 0, y := 0, z := 0 } ∧
    (CalcFlockCenterAndNeighborVel ⟨Real.sqrt, Real.sin, Real.cos⟩
        (demoCarryState : t_jit_boids3d ℝ)
        (demoBoidAt 1 1 { x := 1, y := 0, z := 0 } { x := 1, y := 0, z := 0 }
          { x := 1, y := 0, z := 0 } { x := 1, y := 0, z := 0 }) 1
        { x := -1, y := 0, z := 0 }).2.2 = { x := -1, y := 0, z := 0 } := by
  have e1 : ((1 : Fin MAX_FLOCKS) = 0) = False := by simp
  have e2 : ((2 : Fin MAX_FLOCKS) = 0) = False := by decide
  have e3 : ((3 : Fin MAX_FLOCKS) = 0) = False := by decide
  have e4 : ((4 : Fin MAX_FLOCKS) = 0) = False := by decide
  have e5 : ((5 : Fin MAX_FLOCKS) = 0) = False := by decide
  have d0 : ((0 : Fin MAX_FLOCKS) = 1) = False := by simp
  have d2 : ((2 : Fin MAX_FLOCKS) = 1) = False := by decide
  have d3 : ((3 : Fin MAX_FLOCKS) = 1) = False := by decide
  have d4 : ((4 : Fin MAX_FLOCKS) = 1) = False := by decide
  have d5 : ((5 : Fin MAX_FLOCKS) = 1) = False := by decide
  refine ⟨demoCarryState_tick, ?_, ?_, ?_⟩
  · simp [demoCarryState]
  · norm_num [CalcFlockCenterAndNeighborVel, allBoids, flockSlots, scanBoid, demoCarryState,
      demoParams, jit_boids3d_new, demoBoidAt, DistSqrToPt, NormalizeVelocity, e1, e2, e3, e4, e5,
      d0, d2, d3, d4, d5]
  · norm_num [CalcFlockCenterAndNeighborVel, allBoids, flockSlots, scanBoid, demoCarryState,
      demoParams, jit_boids3d_new, demoBoidAt, DistSqrToPt, NormalizeVelocity, e1, e2, e3, e4, e5,
      d0, d2, d3, d4, d5]

/-- C28 (code bug).  Two agents of flock 0 (neighbor radius 3, match weight 2): A at rest at
the origin heading `(1, 0, 0)`, and B now at `(9, 0, 0)` heading `(1, 0, 0)` whose stored
previous position and heading are `(2, 0, 0)` and `(-1, 0, 0)`.  With A stored before B the
tick turns A to `(-1, 0, 0)` (B is scanned with its stale previous data, distance 2); with
B stored before A the tick leaves A heading `(1, 0, 0)` (B is scanned at `(9, 0, 0)`).  The
data used for B depends on the processing order. -/
theorem neighbor_data_depends_on_order :
    (∃ s1, FlightStep ⟨Real.sqrt, Real.sin, Real.cos⟩
        (demoOrderState demoOrderA demoOrderB : t_jit_boids3d ℝ) = some s1 ∧
      (s1.flockLL 0).map (fun b => (b.globalID, b.newDir))
        = [(0, { x := -1, y := 0, z := 0 }), (1, { x := 1, y := 0, z := 0 })]) ∧
    (∃ s2, FlightStep ⟨Real.sqrt, Real.sin, Real.cos⟩
        (demoOrderState demoOrderB demoOrderA : t_jit_boids3d ℝ) = some s2 ∧
      (s2.flockLL 0).map (fun b => (b.globalID, b.newDir))
        = [(1, { x := 1, y := 0, z := 0 }), (0, { x := 1, y := 0, z := 0 })]) ∧
    (demoOrderB : Boid ℝ).newPos = { x := 9, y := 0, z := 0 } ∧
    (demoOrderB : Boid ℝ).oldPos = { x := 2, y := 0, z := 0 } :=
  ⟨demoOrderState_tick_AB, demoOrderState_tick_BA, rfl, rfl⟩

/-- C26 (code bug).  `neighborsCount` is raised twice for every accumulated neighbor, so
the centroid written to `tempCenterPt` is the sum of the accumulated neighbors' previous
positions divided by TWICE their number: half their arithmetic mean.  In the pair example
the only qualifying neighbor of the agent at the origin is at `(1, 0, 0)`, and the centroid
is `(1/2, 0, 0)`, both for the single call and in `tempCenterPt` after a whole tick. -/
theorem centroid_is_half_the_mean :
    (∀ (H : Host F) (s : t_jit_boids3d F) (theBoid : Boid F) (f : Fin MAX_FLOCKS)
        (separationNeighborVel : Vec3 F),
      (CalcFlockCenterAndNeighborVel H s theBoid f separationNeighborVel).1.tempCenterPt
        = (if ((qualifyingNeighbors H s theBoid f).take 100).length = 0 then theBoid.oldPos
          else
            { x := (sumOldPos ((qualifyingNeighbors H s theBoid f).take 100)).x /
                (2 * (((qualifyingNeighbors H s theBoid f).take 100).length : F))
              y := (sumOldPos ((qualifyingNeighbors H s theBoid f).take 100)).y /
                (2 * (((qualifyingNeighbors H s theBoid f).take 100).length : F))
              z := (sumOldPos ((qualifyingNeighbors H s theBoid f).take 100)).z /
                (2 * (((qualifyingNeighbors H s theBoid f).take 100).length : F)) })) ∧
    (qualifyingNeighbors ⟨Real.sqrt, Real.sin, Real.cos⟩ (demoPairState : t_jit_boids3d ℝ)
        (demoBoidAt 0 0 { x := 0, y := 0, z := 0 } { x := 0, y := 0, z := 0 }
          { x := 1, y := 0, z := 0 } { x := 1, y := 0, z := 0 }) 0).map
        (fun b => (b.globalID, b.oldPos))
      = [(1, { x := 1, y := 0, z := 0 })] ∧
    (CalcFlockCenterAndNeighborVel ⟨Real.sqrt, Real.sin, Real.cos⟩
        (demoPairState : t_jit_boids3d ℝ)
        (demoBoidAt 0 0 { x := 0, y := 0, z := 0 } { x := 0, y := 0, z := 0 }
          { x := 1, y := 0, z := 0 } { x := 1, y := 0, z := 0 }) 0
        { x := 0, y := 0, z := 0 }).1.tempCenterPt = { x := 1 / 2, y := 0, z := 0 } ∧
    (∃ s1, FlightStep ⟨Real.sqrt, Real.sin, Real.cos⟩ (demoPairState : t_jit_boids3d ℝ)
        = some s1 ∧ s1.tempCenterPt = { x := 1 / 2, y := 0, z := 0 }) := by
  have e1 : ((1 : Fin MAX_FLOCKS) = 0) = False := by simp
  have e2 : ((2 : Fin MAX_FLOCKS) = 0) = False := by decide
  have e3 : ((3 : Fin MAX_FLOCKS) = 0) = False := by decide
  have e4 : ((4 : Fin MAX_FLOCKS) = 0) = False := by decide
  have e5 : ((5 : Fin MAX_FLOCKS) = 0) = False := by decide
  have hq : qualifyingNeighbors ⟨Real.sqrt, Real.sin, Real.cos⟩
      (demoPairState : t_jit_boids3d ℝ)
      (demoBoidAt 0 0 { x := 0, y := 0, z := 0 } { x := 0, y := 0, z := 0 }
        { x := 1, y := 0, z := 0 } { x := 1, y := 0, z := 0 }) 0
      = [(demoBoidAt 0 1 { x := 1, y := 0, z := 0 } { x := 1, y := 0, z := 0 }
          { x := 1, y := 0, z := 0 } { x := 1, y := 0, z := 0 } : Boid ℝ)] := by
    norm_num [qualifyingNeighbors, qualifies, allBoids, flockSlots, demoPairState, demoParams,
      jit_boids3d_new, demoBoidAt, DistSqrToPt, List.filter, e1, e2, e3, e4, e5]
  refine ⟨fun H s theBoid f sep => (CalcFlock_accumulated H s theBoid f sep).1, ?_, ?_, ?_⟩
  · rw [hq]
    rfl
  · rw [(CalcFlock_accumulated _ _ _ _ _).1, hq]
    norm_num [sumOldPos, demoBoidAt]
  · obtain ⟨s1, h, hc, _⟩ := demoPairState_tick
    exact ⟨s1, h, hc⟩

/-- C29 (code bug).  Because `neighborsCount` is raised twice per accumulated neighbor, the
test `neighborsCount < kMaxNeighbors` stops the accumulation after 100 neighbors, not 200:
the alignment vector returned is the normalized sum of the previous headings of the first
100 qualifying agents.  In the crowd example 101 agents qualify for agent 0 (their headings
sum to `(100, 1, 0)`), and the alignment vector returned is `(1, 0, 0)`: the 101st, the only
one heading `(0, 1, 0)`, does not contribute. -/
theorem neighbor_cap_is_one_hundred :
    (∀ (H : Host F) (s : t_jit_boids3d F) (theBoid : Boid F) (f : Fin MAX_FLOCKS)
        (separationNeighborVel : Vec3 F),
      (CalcFlockCenterAndNeighborVel H s theBoid f separationNeighborVel).2.1
        = NormalizeVelocity H (sumOldDir ((qualifyingNeighbors H s theBoid f).take 100))) ∧
    (qualifyingNeighbors ⟨Real.sqrt, Real.sin, Real.cos⟩ (demoCrowdState : t_jit_boids3d ℝ)
        demoOrderA 0).length = 101 ∧
    sumOldDir (qualifyingNeighbors ⟨Real.sqrt, Real.sin, Real.cos⟩
        (demoCrowdState : t_jit_boids3d ℝ) demoOrderA 0) = { x := 100, y := 1, z := 0 } ∧
    (CalcFlockCenterAndNeighborVel ⟨Real.sqrt, Real.sin, Real.cos⟩
        (demoCrowdState : t_jit_boids3d ℝ) demoOrderA 0
        { x := 0, y := 0, z := 0 }).2.1 = { x := 1, y := 0, z := 0 } ∧
    NormalizeVelocity ⟨Real.sqrt, Real.sin, Real.cos⟩
        (sumOldDir (qualifyingNeighbors ⟨Real.sqrt, Real.sin, Real.cos⟩
          (demoCrowdState : t_jit_boids3d ℝ) demoOrderA 0)) ≠ { x := 1, y := 0, z := 0 } := by
  have hsum : sumOldDir (qualifyingNeighbors ⟨Real.sqrt, Real.sin, Real.cos⟩
      (demoCrowdState : t_jit_boids3d ℝ) demoOrderA 0) = { x := 100, y := 1, z := 0 } := by
    have h := sumOldDir_demoCrowd
    simp only [sumOldDir, Vec3.mk.injEq] at h
    rw [qualifyingNeighbors_demoCrowdState]
    simp only [sumOldDir, List.map_append, List.sum_append, h.1, h.2.1, h.2.2, List.map_cons,
      List.map_nil, List.sum_cons, List.sum_nil, demoCrowdLast, demoBoidAt]
    norm_num
  refine ⟨fun H s theBoid f sep => (CalcFlock_accumulated H s theBoid f sep).2, ?_, hsum, ?_,
    ?_⟩
  · rw [qualifyingNeighbors_demoCrowdState]
    simp
  · rw [(CalcFlock_accumulated _ _ _ _ _).2, qualifyingNeighbors_demoCrowdState,
      List.take_left' (by simp), sumOldDir_demoCrowd]
    have h100 : Real.sqrt 10000 = 100 := by
      rw [show (10000 : ℝ) = 100 * 100 by norm_num]
      exact Real.sqrt_mul_self (by norm_num)
    norm_num [NormalizeVelocity, h100]
  · rw [hsum]
    intro h
    simp only [NormalizeVelocity] at h
    split_ifs at h with h0
    · simp only [Vec3.mk.injEq] at h
      have hy := h.2.1
      rw [div_eq_zero_iff] at hy
      rcases hy with hy | hy
      · norm_num at hy
      · exact h0 hy
    · norm_num at h

/-- C31 (confirmed).  Adjacency lines are deduplicated: from any state whose agents carry
flock IDs that are array indices, the tick is defined and afterwards no two distinct
records of the adjacency store join the same unordered pair of agent IDs. -/
theorem adjacency_lines_deduplicated (H : Host F) (s : t_jit_boids3d F)
    (hv : ∀ i, ∀ b ∈ s.flockLL i, ∃ f, flockIndex b.flockID = some f) :
    ∃ s1, FlightStep H s = some s1 ∧
      ∀ (i j : Nat) (l1 l2 : NeighborLine F),
        s1.neighborhoodConnections[i]? = some l1 → s1.neighborhoodConnections[j]? = some l2 →
        i ≠ j → ¬ ({l1.aID, l1.bID} : Finset Int) = {l2.aID, l2.bID} := by
  obtain ⟨s1, h⟩ := FlightStep_isSome H s hv
  refine ⟨s1, h, ?_⟩
  have hp : s1.neighborhoodConnections.Pairwise (fun l1 l2 => ¬ samePair l1 l2) :=
    FlightStep_lines H (fun ls => ls.Pairwise (fun l1 l2 => ¬ samePair l1 l2)) s s1
      (fun s2 theBoid f acc it _ hacc => scanBoid_lines_distinct H s2 theBoid f acc it hacc)
      List.Pairwise.nil h
  intro i j l1 l2 h1 h2 hij
  obtain ⟨hi, e1⟩ := List.getElem?_eq_some.mp h1
  obtain ⟨hj, e2⟩ := List.getElem?_eq_some.mp h2
  rw [List.pairwise_iff_getElem] at hp
  rcases Nat.lt_or_gt_of_ne hij with hlt | hgt
  · have := hp i j hi hj hlt
    rw [e1, e2] at this
    exact this
  · have := hp j i hj hi hgt
    rw [e1, e2] at this
    intro heq
    exact this heq.symm

/-- Witness for C31: the tick of the pair example (two mutual neighbors, drawing on) is
defined and its adjacency store holds no pair of IDs twice. -/
theorem adjacency_lines_deduplicated_witness :
    (∀ i, ∀ b ∈ (demoPairState : t_jit_boids3d ℝ).flockLL i,
      ∃ f, flockIndex b.flockID = some f) ∧
    ∃ s1, FlightStep ⟨Real.sqrt, Real.sin, Real.cos⟩ (demoPairState : t_jit_boids3d ℝ)
        = some s1 ∧
      ∀ (i j : Nat) (l1 l2 : NeighborLine ℝ),
        s1.neighborhoodConnections[i]? = some l1 → s1.neighborhoodConnections[j]? = some l2 →
        i ≠ j → ¬ ({l1.aID, l1.bID} : Finset Int) = {l2.aID, l2.bID} :=
  ⟨fun i => demoPairState_valid i,
    adjacency_lines_deduplicated ⟨Real.sqrt, Real.sin, Real.cos⟩
      (demoPairState : t_jit_boids3d ℝ) (fun i => demoPairState_valid i)⟩

/-- C32 (confirmed).  Speed clamp: from any state whose agents carry flock IDs that are
array indices the tick is defined, and every surviving agent `b` (flock ID `f`) is replaced
by a successor `b1` whose speed is `clampSpeed` of the raw magnitude of the un-normalized
composed heading; when `minspeed[f] <= maxspeed[f]` that is the raw magnitude if it lies in
`[minspeed[f], maxspeed[f]]`, `maxspeed[f]` if it is larger and `minspeed[f]` if it is
smaller, so the speed lies in the interval. -/
theorem speed_clamped_after_tick (H : Host F) (s : t_jit_boids3d F)
    (hv : ∀ i, ∀ b ∈ s.flockLL i, ∃ f, flockIndex b.flockID = some f) :
    ∃ s1, FlightStep H s = some s1 ∧ ∀ i,
      List.Forall₂
        (fun b b1 => ∃ (f : Fin MAX_FLOCKS) (done rest : List (Boid F))
            (s0 : t_jit_boids3d F) (L0 : FlightLocals F),
          flockIndex b.flockID = some f ∧ Frame s s0 ∧
          b1 = (steerBoid H i f done { b with age := b.age + 1 } rest s0 L0).1 ∧
          b1.speed = clampSpeed s f (H.sqrt
            ((steerComposed H i f done { b with age := b.age + 1 } rest s0 L0).x ^ 2 +
              (steerComposed H i f done { b with age := b.age + 1 } rest s0 L0).y ^ 2 +
              (steerComposed H i f done { b with age := b.age + 1 } rest s0 L0).z ^ 2)) ∧
          (s.minspeed f ≤ s.maxspeed f →
            ClampedTo (s.minspeed f) (s.maxspeed f)
              (H.sqrt
                ((steerComposed H i f done { b with age := b.age + 1 } rest s0 L0).x ^ 2 +
                  (steerComposed H i f done { b with age := b.age + 1 } rest s0 L0).y ^ 2 +
                  (steerComposed H i f done { b with age := b.age + 1 } rest s0 L0).z ^ 2))
              b1.speed))
        ((s.flockLL i).filter (survivesTick s.age)) (s1.flockLL i) := by
  obtain ⟨s1, h⟩ := FlightStep_isSome H s hv
  refine ⟨s1, h, fun i => ?_⟩
  obtain ⟨_, _, h3⟩ := FlightStep_spec H s s1 h
  refine (h3 i).1.imp ?_
  rintro b b1 ⟨f, done, rest, s0, L0, e1, e2, e3⟩
  have hsp : b1.speed = clampSpeed s f (H.sqrt
      ((steerComposed H i f done { b with age := b.age + 1 } rest s0 L0).x ^ 2 +
        (steerComposed H i f done { b with age := b.age + 1 } rest s0 L0).y ^ 2 +
        (steerComposed H i f done { b with age := b.age + 1 } rest s0 L0).z ^ 2)) := by
    rw [e3, steerBoid_speed]
    simp only [clampSpeed, e2.minspeed, e2.maxspeed]
  refine ⟨f, done, rest, s0, L0, e1, e2, e3, hsp, fun hle => ?_⟩
  rw [hsp]
  exact clampSpeed_clamped s f _ hle

/-- Witness for C32: in the pair example (speed bounds `[0, 0]`) the tick is defined and
every agent of flock 0 ends with a speed in `[0, 0]`. -/
theorem speed_clamped_after_tick_witness :
    (∀ i, ∀ b ∈ (demoPairState : t_jit_boids3d ℝ).flockLL i,
      ∃ f, flockIndex b.flockID = some f) ∧
    ∃ s1, FlightStep ⟨Real.sqrt, Real.sin, Real.cos⟩ (demoPairState : t_jit_boids3d ℝ)
        = some s1 ∧ ∀ b1 ∈ s1.flockLL 0, (0 : ℝ) ≤ b1.speed ∧ b1.speed ≤ 0 := by
  refine ⟨fun i => demoPairState_valid i, ?_⟩
  obtain ⟨s1, h, h2⟩ := speed_clamped_after_tick ⟨Real.sqrt, Real.sin, Real.cos⟩
    (demoPairState : t_jit_boids3d ℝ) (fun i => demoPairState_valid i)
  refine ⟨s1, h, fun b1 hb1 => ?_⟩
  obtain ⟨b, _, f, done, rest, s0, L0, _, _, _, _, hc⟩ := forall₂_mem_right (h2 0) b1 hb1
  have hc2 := hc (le_refl _)
  exact ⟨hc2.2.2.2.1, hc2.2.2.2.2⟩

/-- C33 (counterexample).  With the left and right bounds of the flight rectangle
exchanged (`left = 1`, `right = -1`), an agent at rest at the origin heading `(1, 0, 0)` has
its test point beyond the right face (`0 > -1 * 10`), yet `AvoidWalls` returns the
x component `1`, which is not `<= 0`: the left face is tested first. -/
theorem avoidwalls_inverted_rect_counterexample :
    (demoBoidAt 0 0 { x := 0, y := 0, z := 0 } { x := 0, y := 0, z := 0 }
        { x := 1, y := 0, z := 0 } { x := 1, y := 0, z := 0 } : Boid ℚ).oldPos.x +
      (demoBoidAt 0 0 { x := 0, y := 0, z := 0 } { x := 0, y := 0, z := 0 }
        { x := 1, y := 0, z := 0 } { x := 1, y := 0, z := 0 } : Boid ℚ).newDir.x *
        ((demoBoidAt 0 0 { x := 0, y := 0, z := 0 } { x := 0, y := 0, z := 0 }
          { x := 1, y := 0, z := 0 } { x := 1, y := 0, z := 0 } : Boid ℚ).speed *
          ((demoInvertedRect : t_jit_boids3d ℚ).speed 0 / 100))
      > (demoInvertedRect : t_jit_boids3d ℚ).flyrect.right * kFlyRectScalingFactor ∧
    (AvoidWalls (demoInvertedRect : t_jit_boids3d ℚ)
      (demoBoidAt 0 0 { x := 0, y := 0, z := 0 } { x := 0, y := 0, z := 0 }
        { x := 1, y := 0, z := 0 } { x := 1, y := 0, z := 0 }) 0).x = 1 ∧
    ¬ (AvoidWalls (demoInvertedRect : t_jit_boids3d ℚ)
      (demoBoidAt 0 0 { x := 0, y := 0, z := 0 } { x := 0, y := 0, z := 0 }
        { x := 1, y := 0, z := 0 } { x := 1, y := 0, z := 0 }) 0).x ≤ 0 := by
  refine ⟨?_, ?_, ?_⟩ <;>
    norm_num [AvoidWalls, demoInvertedRect, demoBoidAt, jit_boids3d_new, kFlyRectScalingFactor]

/-- C33 (amended).  `AvoidWalls` leaves the absolute value of each heading component
unchanged.  On each axis the two faces are tested in a fixed order (x: left then right;
y: top then bottom; z: front then back): if the test point lies beyond the face tested
first the component becomes `|v|` (x) or `-|v|` (y, z); otherwise, if it lies beyond the
other face, the component becomes `-|v|` (x) or `|v|` (y, z); otherwise it is unchanged.
Hence, when on an axis the lower bound does not exceed the upper bound, a test point beyond
the upper face gives a component `<= 0` and one beyond the lower face a component `>= 0`. -/
theorem avoidwalls_sign_flip (s : t_jit_boids3d F) (b : Boid F) (f : Fin MAX_FLOCKS) :
    (|(AvoidWalls s b f).x| = |b.newDir.x| ∧ |(AvoidWalls s b f).y| = |b.newDir.y| ∧
      |(AvoidWalls s b f).z| = |b.newDir.z|) ∧
    ((b.oldPos.x + b.newDir.x * (b.speed * (s.speed f / 100))
          < s.flyrect.left * kFlyRectScalingFactor → (AvoidWalls s b f).x = |b.newDir.x|) ∧
      (¬ b.oldPos.x + b.newDir.x * (b.speed * (s.speed f / 100))
          < s.flyrect.left * kFlyRectScalingFactor →
        b.oldPos.x + b.newDir.x * (b.speed * (s.speed f / 100))
          > s.flyrect.right * kFlyRectScalingFactor → (AvoidWalls s b f).x = - |b.newDir.x|) ∧
      (¬ b.oldPos.x + b.newDir.x * (b.speed * (s.speed f / 100))
          < s.flyrect.left * kFlyRectScalingFactor →
        ¬ b.oldPos.x + b.newDir.x * (b.speed * (s.speed f / 100))
          > s.flyrect.right * kFlyRectScalingFactor → (AvoidWalls s b f).x = b.newDir.x)) ∧
    ((b.oldPos.y + b.newDir.y * (b.speed * (s.speed f / 100))
          > s.flyrect.top * kFlyRectScalingFactor → (AvoidWalls s b f).y = - |b.newDir.y|) ∧
      (¬ b.oldPos.y + b.newDir.y * (b.speed * (s.speed f / 100))
          > s.flyrect.top * kFlyRectScalingFactor →
        b.oldPos.y + b.newDir.y * (b.speed * (s.speed f / 100))
          < s.flyrect.bottom * kFlyRectScalingFactor → (AvoidWalls s b f).y = |b.newDir.y|) ∧
      (¬ b.oldPos.y + b.newDir.y * (b.speed * (s.speed f / 100))
          > s.flyrect.top * kFlyRectScalingFactor →
        ¬ b.oldPos.y + b.newDir.y * (b.speed * (s.speed f / 100))
          < s.flyrect.bottom * kFlyRectScalingFactor → (AvoidWalls s b f).y = b.newDir.y)) ∧
    ((b.oldPos.z + b.newDir.z * (b.speed * (s.speed f / 100))
          > s.flyrect.front * kFlyRectScalingFactor → (AvoidWalls s b f).z = - |b.newDir.z|) ∧
      (¬ b.oldPos.z + b.newDir.z * (b.speed * (s.speed f / 100))
          > s.flyrect.front * kFlyRectScalingFactor →
        b.oldPos.z + b.newDir.z * (b.speed * (s.speed f / 100))
          < s.flyrect.back * kFlyRectScalingFactor → (AvoidWalls s b f).z = |b.newDir.z|) ∧
      (¬ b.oldPos.z + b.newDir.z * (b.speed * (s.speed f / 100))
          > s.flyrect.front * kFlyRectScalingFactor →
        ¬ b.oldPos.z + b.newDir.z * (b.speed * (s.speed f / 100))
          < s.flyrect.back * kFlyRectScalingFactor → (AvoidWalls s b f).z = b.newDir.z)) ∧
    (s.flyrect.left ≤ s.flyrect.right →
      (b.oldPos.x + b.newDir.x * (b.speed * (s.speed f / 100))
          > s.flyrect.right * kFlyRectScalingFactor → (AvoidWalls s b f).x ≤ 0) ∧
      (b.oldPos.x + b.newDir.x * (b.speed * (s.speed f / 100))
          < s.flyrect.left * kFlyRectScalingFactor → (AvoidWalls s b f).x ≥ 0)) ∧
    (s.flyrect.bottom ≤ s.flyrect.top →
      (b.oldPos.y + b.newDir.y * (b.speed * (s.speed f / 100))
          > s.flyrect.top * kFlyRectScalingFactor → (AvoidWalls s b f).y ≤ 0) ∧
      (b.oldPos.y + b.newDir.y * (b.speed * (s.speed f / 100))
          < s.flyrect.bottom * kFlyRectScalingFactor → (AvoidWalls s b f).y ≥ 0)) ∧
    (s.flyrect.back ≤ s.flyrect.front →
      (b.oldPos.z + b.newDir.z * (b.speed * (s.speed f / 100))
          > s.flyrect.front * kFlyRectScalingFactor → (AvoidWalls s b f).z ≤ 0) ∧
      (b.oldPos.z + b.newDir.z * (b.speed * (s.speed f / 100))
          < s.flyrect.back * kFlyRectScalingFactor → (AvoidWalls s b f).z ≥ 0)) := by
  have hk : (0 : F) < kFlyRectScalingFactor := by
    unfold kFlyRectScalingFactor
    norm_num
  refine ⟨⟨?_, ?_, ?_⟩, ⟨?_, ?_, ?_⟩, ⟨?_, ?_, ?_⟩, ⟨?_, ?_, ?_⟩, ?_, ?_, ?_⟩
  · simp only [AvoidWalls]
    split_ifs <;> simp
  · simp only [AvoidWalls]
    split_ifs <;> simp
  · simp only [AvoidWalls]
    split_ifs <;> simp
  · intro h1
    simp only [AvoidWalls, if_pos h1]
  · intro h1 h2
    simp only [AvoidWalls, if_neg h1, if_pos h2]
  · intro h1 h2
    simp only [AvoidWalls, if_neg h1, if_neg h2]
  · intro h1
    simp only [AvoidWalls, if_pos h1]
  · intro h1 h2
    simp only [AvoidWalls, if_neg h1, if_pos h2]
  · intro h1 h2
    simp only [AvoidWalls, if_neg h1, if_neg h2]
  · intro h1
    simp only [AvoidWalls, if_pos h1]
  · intro h1 h2
    simp only [AvoidWalls, if_neg h1, if_pos h2]
  · intro h1 h2
    simp only [AvoidWalls, if_neg h1, if_neg h2]
  · intro hle
    have hle2 := mul_le_mul_of_nonneg_right hle hk.le
    constructor
    · intro h1
      have h2 : ¬ b.oldPos.x + b.newDir.x * (b.speed * (s.speed f / 100))
          < s.flyrect.left * kFlyRectScalingFactor :=
        not_lt.mpr (le_trans hle2 h1.le)
      simp only [AvoidWalls, if_neg h2, if_pos h1]
      exact neg_nonpos.mpr (abs_nonneg _)
    · intro h1
      simp only [AvoidWalls, if_pos h1]
      exact abs_nonneg _
  · intro hle
    have hle2 := mul_le_mul_of_nonneg_right hle hk.le
    constructor
    · intro h1
      simp only [AvoidWalls, if_pos h1]
      exact neg_nonpos.mpr (abs_nonneg _)
    · intro h1
      have h2 : ¬ b.oldPos.y + b.newDir.y * (b.speed * (s.speed f / 100))
          > s.flyrect.top * kFlyRectScalingFactor :=
        not_lt.mpr (le_trans h1.le hle2)
      simp only [AvoidWalls, if_neg h2, if_pos h1]
      exact abs_nonneg _
  · intro hle
    have hle2 := mul_le_mul_of_nonneg_right hle hk.le
    constructor
    · intro h1
      simp only [AvoidWalls, if_pos h1]
      exact neg_nonpos.mpr (abs_nonneg _)
    · intro h1
      have h2 : ¬ b.oldPos.z + b.newDir.z * (b.speed * (s.speed f / 100))
          > s.flyrect.front * kFlyRectScalingFactor :=
        not_lt.mpr (le_trans h1.le hle2)
      simp only [AvoidWalls, if_neg h2, if_pos h1]
      exact abs_nonneg _

/-- Witness for the amended C33: with the default flight rectangle (`left = -1 <= right =
1`), an agent at `(11, 0, 0)` heading `(1, 0, 0)` has its test point beyond the right face
and its x component becomes `-1`, which is `<= 0`. -/
theorem avoidwalls_sign_flip_witness :
    (jit_boids3d_new : t_jit_boids3d ℚ).flyrect.left
      ≤ (jit_boids3d_new : t_jit_boids3d ℚ).flyrect.right ∧
    (AvoidWalls (jit_boids3d_new : t_jit_boids3d ℚ)
      (demoBoidAt 0 0 { x := 11, y := 0, z := 0 } { x := 11, y := 0, z := 0 }
        { x := 1, y := 0, z := 0 } { x := 1, y := 0, z := 0 }) 0).x = -1 ∧
    (AvoidWalls (jit_boids3d_new : t_jit_boids3d ℚ)
      (demoBoidAt 0 0 { x := 11, y := 0, z := 0 } { x := 11, y := 0, z := 0 }
        { x := 1, y := 0, z := 0 } { x := 1, y := 0, z := 0 }) 0).x ≤ 0 :=
  ⟨by norm_num [jit_boids3d_new],
    by norm_num [AvoidWalls, demoBoidAt, jit_boids3d_new, kFlyRectScalingFactor],
    ((avoidwalls_sign_flip (jit_boids3d_new : t_jit_boids3d ℚ)
      (demoBoidAt 0 0 { x := 11, y := 0, z := 0 } { x := 11, y := 0, z := 0 }
        { x := 1, y := 0, z := 0 } { x := 1, y := 0, z := 0 }) 0).2.2.2.2.1
      (by norm_num [jit_boids3d_new])).1
      (by norm_num [demoBoidAt, jit_boids3d_new, kFlyRectScalingFactor])⟩

/-- C34 (confirmed).  Snapshot and position integration: from any state whose agents carry
flock IDs that are array indices the tick is defined, and every surviving agent `b` (flock
ID `f`) is replaced, in order, by a successor `b1` with the same global ID whose previous
position and heading are the current position and heading of `b`, and whose current
position is, on each axis, its previous position plus
`newDir * (0.5 * speed) * (speed[f] / 100)` with `newDir` and `speed` those of `b1`. -/
theorem snapshot_and_integration (H : Host F) (s : t_jit_boids3d F)
    (hv : ∀ i, ∀ b ∈ s.flockLL i, ∃ f, flockIndex b.flockID = some f) :
    ∃ s1, FlightStep H s = some s1 ∧ ∀ i,
      List.Forall₂
        (fun b b1 => ∃ f : Fin MAX_FLOCKS, flockIndex b.flockID = some f ∧
          b1.globalID = b.globalID ∧ b1.oldPos = b.newPos ∧ b1.oldDir = b.newDir ∧
          b1.newPos =
            { x := b1.oldPos.x + b1.newDir.x * (1 / 2 * b1.speed) * (s.speed f / 100)
              y := b1.oldPos.y + b1.newDir.y * (1 / 2 * b1.speed) * (s.speed f / 100)
              z := b1.oldPos.z + b1.newDir.z * (1 / 2 * b1.speed) * (s.speed f / 100) })
        ((s.flockLL i).filter (survivesTick s.age)) (s1.flockLL i) := by
  obtain ⟨s1, h⟩ := FlightStep_isSome H s hv
  refine ⟨s1, h, fun i => ?_⟩
  obtain ⟨_, _, h3⟩ := FlightStep_spec H s s1 h
  refine (h3 i).1.imp ?_
  intro b b1 hst
  have hsnap := hst.snapshot
  have hid := hst.ids
  obtain ⟨f, done, rest, s0, L0, e1, e2, e3⟩ := hst
  refine ⟨f, e1, hid.1, hsnap.1, hsnap.2, ?_⟩
  rw [e3, steerBoid_newPos, e2.speed]

/-- Witness for C34: the tick of the pair example is defined and relates the agents of
flock 0 before and after as stated. -/
theorem snapshot_and_integration_witness :
    (∀ i, ∀ b ∈ (demoPairState : t_jit_boids3d ℝ).flockLL i,
      ∃ f, flockIndex b.flockID = some f) ∧
    ∃ s1, FlightStep ⟨Real.sqrt, Real.sin, Real.cos⟩ (demoPairState : t_jit_boids3d ℝ)
        = some s1 ∧
      ∀ b1 ∈ s1.flockLL 0, ∃ b ∈ (demoPairState : t_jit_boids3d ℝ).flockLL 0,
        b1.globalID = b.globalID ∧ b1.oldPos = b.newPos ∧ b1.oldDir = b.newDir := by
  refine ⟨fun i => demoPairState_valid i, ?_⟩
  obtain ⟨s1, h, h2⟩ := snapshot_and_integration ⟨Real.sqrt, Real.sin, Real.cos⟩
    (demoPairState : t_jit_boids3d ℝ) (fun i => demoPairState_valid i)
  refine ⟨s1, h, fun b1 hb1 => ?_⟩
  obtain ⟨b, hb, f, _, e1, e2, e3, _⟩ := forall₂_mem_right (h2 0) b1 hb1
  exact ⟨b, List.mem_of_mem_filter hb, e1, e2, e3⟩

/-- C35 (counterexample).  When the random source returns 0 the angle is 0 and `InitBoid`
assigns the heading `(sin 0, cos 0, (cos 0 + sin 0)/2) = (0, 1, 1/2)`, whose squared length
is `5/4`, so its Euclidean length is not 1. -/
theorem initboid_heading_not_unit_counterexample :
    (InitBoid ⟨Real.sqrt, Real.sin, Real.cos⟩ (jit_boids3d_new : t_jit_boids3d ℝ) 0).1.newDir
      = { x := 0, y := 1, z := 1 / 2 } ∧
    normSq (InitBoid ⟨Real.sqrt, Real.sin, Real.cos⟩
      (jit_boids3d_new : t_jit_boids3d ℝ) 0).1.newDir = 5 / 4 ∧
    Real.sqrt (normSq (InitBoid ⟨Real.sqrt, Real.sin, Real.cos⟩
      (jit_boids3d_new : t_jit_boids3d ℝ) 0).1.newDir) ≠ 1 := by
  have h1 : (InitBoid ⟨Real.sqrt, Real.sin, Real.cos⟩
      (jit_boids3d_new : t_jit_boids3d ℝ) 0).1.newDir = { x := 0, y := 1, z := 1 / 2 } := by
    simp [InitBoid, RandomInt]
  have h2 : normSq ({ x := 0, y := 1, z := 1 / 2 } : Vec3 ℝ) = 5 / 4 := by
    norm_num [normSq]
  refine ⟨h1, by rw [h1, h2], ?_⟩
  rw [h1, h2]
  intro h
  have h3 := Real.sq_sqrt (show (0 : ℝ) ≤ 5 / 4 by norm_num)
  rw [h] at h3
  norm_num at h3

/-- C35 (amended).  With the host sine and cosine the real ones, the heading assigned by
`InitBoid` for the angle `a = RandomInt(0, 360) * d2r` is
`(sin a, cos a, (cos a + sin a)/2)`; its squared Euclidean length is
`1 + ((cos a + sin a)/2)^2`, so its length is at least 1, and it is 1 exactly when
`cos a + sin a = 0`. -/
theorem initboid_heading_length (H : Host ℝ) (hsin : H.sin = Real.sin)
    (hcos : H.cos = Real.cos) (s : t_jit_boids3d ℝ) (r : Int) :
    (InitBoid H s r).1.newDir
      = { x := Real.sin (RandomInt r 0 360 * s.d2r)
          y := Real.cos (RandomInt r 0 360 * s.d2r)
          z := (Real.cos (RandomInt r 0 360 * s.d2r)
            + Real.sin (RandomInt r 0 360 * s.d2r)) * (1 / 2) } ∧
    normSq (InitBoid H s r).1.newDir
      = 1 + ((Real.cos (RandomInt r 0 360 * s.d2r)
          + Real.sin (RandomInt r 0 360 * s.d2r)) / 2) ^ 2 ∧
    1 ≤ Real.sqrt (normSq (InitBoid H s r).1.newDir) ∧
    (Real.sqrt (normSq (InitBoid H s r).1.newDir) = 1 ↔
      Real.cos (RandomInt r 0 360 * s.d2r) + Real.sin (RandomInt r 0 360 * s.d2r) = 0) := by
  have h1 : (InitBoid H s r).1.newDir
      = { x := Real.sin (RandomInt r 0 360 * s.d2r)
          y := Real.cos (RandomInt r 0 360 * s.d2r)
          z := (Real.cos (RandomInt r 0 360 * s.d2r)
            + Real.sin (RandomInt r 0 360 * s.d2r)) * (1 / 2) } := by
    simp only [InitBoid, hsin, hcos]
  have h2 : normSq (InitBoid H s r).1.newDir
      = 1 + ((Real.cos (RandomInt r 0 360 * s.d2r)
          + Real.sin (RandomInt r 0 360 * s.d2r)) / 2) ^ 2 := by
    rw [h1]
    simp only [normSq]
    have := Real.sin_sq_add_cos_sq (RandomInt r 0 360 * s.d2r)
    linear_combination this
  have hsq := sq_nonneg ((Real.cos (RandomInt r 0 360 * s.d2r)
    + Real.sin (RandomInt r 0 360 * s.d2r)) / 2)
  refine ⟨h1, h2, ?_, ?_⟩
  · rw [h2, Real.one_le_sqrt]
    linarith
  · rw [h2, Real.sqrt_eq_one]
    constructor
    · intro h
      have h0 : ((Real.cos (RandomInt r 0 360 * s.d2r)
          + Real.sin (RandomInt r 0 360 * s.d2r)) / 2) ^ 2 = 0 := by linarith
      have := pow_eq_zero_iff (two_ne_zero) |>.mp h0
      linarith
    · intro h
      rw [h]
      norm_num

/-- Witness for the amended C35: for the random value 0, on the initial simulation, the
squared length of the heading is `1 + ((cos a + sin a)/2)^2` for the angle `a` drawn. -/
theorem initboid_heading_length_witness :
    normSq (InitBoid ⟨Real.sqrt, Real.sin, Real.cos⟩
        (jit_boids3d_new : t_jit_boids3d ℝ) 0).1.newDir
      = 1 + ((Real.cos (RandomInt 0 0 360 * (jit_boids3d_new : t_jit_boids3d ℝ).d2r)
          + Real.sin (RandomInt 0 0 360 * (jit_boids3d_new : t_jit_boids3d ℝ).d2r)) / 2) ^ 2 :=
  (initboid_heading_length ⟨Real.sqrt, Real.sin, Real.cos⟩ rfl rfl
    (jit_boids3d_new : t_jit_boids3d ℝ) 0).2.1

/-- C37 (confirmed).  Inertia is never stored as zero: for every flock slot `f` and every
requested value `v`, `jit_boids3d_inertia` succeeds, changes only `inertia[f]`, and stores
`0.000001` when `v` is exactly 0 and `v` otherwise; the stored value is non-zero, and it is
still the divisor `inertia[f]` after any following tick. -/
theorem inertia_never_zero (s : t_jit_boids3d F) (v : F) (f : Fin MAX_FLOCKS) :
    ∃ s1, jit_boids3d_inertia s v ((f : Nat) : Int) = some (JIT_ERR_NONE, s1) ∧
      s1 = { s with inertia := Function.update s.inertia f (if v = 0 then 1 / 1000000 else v) } ∧
      s1.inertia f = (if v = 0 then 1 / 1000000 else v) ∧
      s1.inertia f ≠ 0 ∧
      ∀ (H : Host F) (s2 : t_jit_boids3d F), FlightStep H s1 = some s2 →
        s2.inertia f = s1.inertia f ∧ s2.inertia f ≠ 0 := by
  have hne : (if v = 0 then (1 : F) / 1000000 else v) ≠ 0 := by
    split_ifs with h
    · norm_num
    · exact h
  refine ⟨{ s with inertia := Function.update s.inertia f (if v = 0 then 1 / 1000000 else v) },
    ?_, rfl, ?_, ?_, ?_⟩
  · simp only [jit_boids3d_inertia, flockIndex_coe, kParamFloor]
    split_ifs <;> rfl
  · simp
  · simpa using hne
  · intro H s2 h2
    have hfr := (FlightStep_spec H _ s2 h2).1
    rw [hfr.inertia]
    simp only [Function.update_same]
    exact ⟨trivial, hne⟩

/-- C38 (confirmed).  Owning-flock invariant: in every state reachable from the initial
empty simulation by resize requests, ticks and parameter requests, every agent stored in
slot `i` has `flockID` equal to `i`; so the array index computed from its `flockID` is `i`,
the age test of a tick compares its age with `age[i]`, the tick is defined, and the agents
the tick keeps in slot `i` again have `flockID` equal to `i`. -/
theorem owning_flock_invariant (H : Host F) (s : t_jit_boids3d F) (hr : Reachable H s) :
    (∀ i, ∀ b ∈ s.flockLL i,
      b.flockID = ((i : Nat) : Int) ∧ flockIndex b.flockID = some i ∧
        survivesTick s.age b = keptByAge s i b) ∧
    ∃ s1, FlightStep H s = some s1 ∧
      ∀ i, ∀ b1 ∈ s1.flockLL i, b1.flockID = ((i : Nat) : Int) := by
  have hown : ∀ i, ∀ b ∈ s.flockLL i, b.flockID = ((i : Nat) : Int) :=
    fun i b hb => (hr.storeInv.2.2.1 i b hb).1
  refine ⟨fun i b hb => ⟨hown i b hb, by rw [hown i b hb, flockIndex_coe],
    survivesTick_eq_keptByAge s i b (hown i b hb)⟩, ?_⟩
  obtain ⟨s1, hs1⟩ := FlightStep_isSome H s
    (fun i b hb => ⟨i, by rw [hown i b hb, flockIndex_coe]⟩)
  exact ⟨s1, hs1, fun i b1 hb1 =>
    ((Reachable.tick s s1 hr hs1).storeInv.2.2.1 i b1 hb1).1⟩

/-- Witness for C38: the state reached by `age -1 0`, `[+3, 0, 0, 0, 0, 0]` and one tick
holds three agents of age 1 in flock 0, kept by the tick, and each has flock ID 0. -/
theorem owning_flock_invariant_witness :
    ∃ s1, FlightStep ⟨Real.sqrt, Real.sin, Real.cos⟩
        (demoSurvivors ⟨Real.sqrt, Real.sin, Real.cos⟩ : t_jit_boids3d ℝ) = some s1 ∧
      Reachable ⟨Real.sqrt, Real.sin, Real.cos⟩ s1 ∧
      (s1.flockLL 0).map Boid.age = [1, 1, 1] ∧
      ∀ b ∈ s1.flockLL 0, b.flockID = 0 := by
  obtain ⟨s1, h1, hr, _, hages, _⟩ :=
    demoSurvivors_tick
  refine ⟨s1, h1, hr, hages, fun b hb => ?_⟩
  have := ((owning_flock_invariant _ s1 hr).1 0 b hb).1
  simpa using this

/-- C39 (confirmed).  Flock filter of a new attractor: for every attractor store and
requested ID, `jit_boids3d_addattractor` puts one new attractor in front of the stored
ones, at the origin with radius 0; its flock filter `onlyAttractedFlockID` is `-1` when the
requested ID is non-zero and `0` when the requested ID is exactly 0, whatever ID is finally
assigned to it. -/
theorem new_attractor_flock_filter (s : t_jit_boids3d F) (newID : Int) :
    ∃ a, (jit_boids3d_addattractor s newID).attractorLL = a :: s.attractorLL ∧
      a.onlyAttractedFlockID = (if newID = 0 then 0 else -1) ∧
      (newID ≠ 0 → a.onlyAttractedFlockID = -1) ∧
      (newID = 0 → a.onlyAttractedFlockID = 0) ∧
      a.loc = { x := 0, y := 0, z := 0 } ∧ a.attractorRadius = 0 ∧
      a.id = (if (addattractorScan newID s.attractorLL 0).1 = false then newID
        else (addattractorScan newID s.attractorLL 0).2 + 1) := by
  unfold jit_boids3d_addattractor
  cases hl : s.attractorLL with
  | nil =>
    by_cases h0 : newID = 0
    · simp [h0, InitAttractor, addattractorScan]
    · simp [h0, InitAttractor, addattractorScan]
  | cons a0 rest =>
    by_cases h0 : newID = 0
    · simp [h0, InitAttractor]
    · simp [h0, InitAttractor]

/-- Witness for C39: a second request for ID 0 collides with the stored attractor 0; the
new attractor gets the ID 1 and still the flock filter 0.  A request for ID 7 gives the
filter `-1`. -/
theorem new_attractor_flock_filter_witness :
    (∃ a, (jit_boids3d_addattractor
          (jit_boids3d_addattractor (jit_boids3d_new : t_jit_boids3d ℚ) 0) 0).attractorLL
        = a :: (jit_boids3d_addattractor (jit_boids3d_new : t_jit_boids3d ℚ) 0).attractorLL ∧
      a.onlyAttractedFlockID = 0 ∧ a.id = 1) ∧
    ∃ a, (jit_boids3d_addattractor (jit_boids3d_new : t_jit_boids3d ℚ) 7).attractorLL
        = a :: (jit_boids3d_new : t_jit_boids3d ℚ).attractorLL ∧
      a.onlyAttractedFlockID = -1 := by
  constructor
  · obtain ⟨a, h1, _, _, h4, _, _, h7⟩ := new_attractor_flock_filter
      (jit_boids3d_addattractor (jit_boids3d_new : t_jit_boids3d ℚ) 0) 0
    refine ⟨a, h1, h4 rfl, ?_⟩
    rw [h7]
    decide
  · obtain ⟨a, h1, _, h3, _⟩ := new_attractor_flock_filter
      (jit_boids3d_new : t_jit_boids3d ℚ) 7
    exact ⟨a, h1, h3 (by decide)⟩

/-- C36 (confirmed).  The accel factors do not influence the simulation: a tick from the
state with any other accel factors is defined exactly when the tick from the state itself
is, and its result is the same state with the accel factors replaced; so the two results
agree in every agent (position, heading, speed, age), every flock count, the ID counter, the
centroid scratch field and the adjacency store. -/
theorem accel_has_no_influence (H : Host F) (s : t_jit_boids3d F) (a : Fin MAX_FLOCKS → F) :
    FlightStep H { s with accel := a }
      = (FlightStep H s).map (fun s1 => { s1 with accel := a }) ∧
    (FlightStep H { s with accel := a }).isSome = (FlightStep H s).isSome ∧
    ∀ s1 s2, FlightStep H s = some s1 → FlightStep H { s with accel := a } = some s2 →
      s2.flockLL = s1.flockLL ∧ s2.boidCount = s1.boidCount ∧
      s2.newBoidID = s1.newBoidID ∧ s2.tempCenterPt = s1.tempCenterPt ∧
      s2.neighborhoodConnections = s1.neighborhoodConnections := by
  have h := FlightStep_accel H s a
  refine ⟨h, ?_, ?_⟩
  · rw [h, Option.isSome_map']
  · intro s1 s2 h1 h2
    rw [h, h1, Option.map_some', Option.some.injEq] at h2
    subst h2
    exact ⟨rfl, rfl, rfl, rfl, rfl⟩

/-- Witness for C36: the pair example and the same state with every accel factor set to 5
have ticks that agree in the agent store and the adjacency store. -/
theorem accel_has_no_influence_witness :
    ∃ s1 s2, FlightStep ⟨Real.sqrt, Real.sin, Real.cos⟩ (demoPairState : t_jit_boids3d ℝ)
        = some s1 ∧
      FlightStep ⟨Real.sqrt, Real.sin, Real.cos⟩
        { (demoPairState : t_jit_boids3d ℝ) with accel := fun _ => 5 } = some s2 ∧
      s2.flockLL = s1.flockLL ∧ s2.neighborhoodConnections = s1.neighborhoodConnections := by
  obtain ⟨s1, h1, _⟩ := demoPairState_tick
  have h := accel_has_no_influence ⟨Real.sqrt, Real.sin, Real.cos⟩
    (demoPairState : t_jit_boids3d ℝ) (fun _ => 5)
  have h2 : FlightStep ⟨Real.sqrt, Real.sin, Real.cos⟩
      { (demoPairState : t_jit_boids3d ℝ) with accel := fun _ => 5 }
      = some { s1 with accel := fun _ => 5 } := by
    rw [h.1, h1]
    rfl
  exact ⟨s1, _, h1, h2, (h.2.2 s1 _ h1 h2).1, (h.2.2 s1 _ h1 h2).2.2.2.2⟩

/-- Witness for C37: requesting inertia 0 for flock 2 of the initial simulation stores
`0.000001`, and a following tick keeps it. -/
theorem inertia_never_zero_witness :
    ∃ s1 s2, jit_boids3d_inertia (jit_boids3d_new : t_jit_boids3d ℝ) 0
        (((2 : Fin MAX_FLOCKS) : Nat) : Int) = some (JIT_ERR_NONE, s1) ∧
      s1.inertia 2 = 1 / 1000000 ∧
      FlightStep ⟨Real.sqrt, Real.sin, Real.cos⟩ s1 = some s2 ∧ s2.inertia 2 ≠ 0 := by
  obtain ⟨s1, h1, h2, h3, _, h5⟩ := inertia_never_zero (jit_boids3d_new : t_jit_boids3d ℝ) 0 2
  obtain ⟨s2, hs2⟩ := FlightStep_isSome ⟨Real.sqrt, Real.sin, Real.cos⟩ s1 (by
    intro i b hb
    rw [h2] at hb
    simp [jit_boids3d_new] at hb)
  refine ⟨s1, s2, h1, ?_, hs2, (h5 _ s2 hs2).2⟩
  rw [h3]
  simp

/-- C40 (confirmed).  A lone agent keeps its direction, over the reals with the host `sqrt`
the real square root: in a state holding exactly one agent `b` (in slot `i`, with flock ID
`f`), no attractors, `inertia[f] > 0` and a non-zero current heading `h`, when the agent
passes the age test the tick is defined and leaves exactly one agent `b1`; its heading is
`AvoidWalls` applied to `h/|h|` (test point taken from the agent's position, its new speed
and the flight rectangle), so each component has absolute value `|h_k|/|h|`; its speed is
`inertia[f] * |h|` put through the speed clamp, which for `minspeed[f] <= maxspeed[f]` is
the clamp to `[minspeed[f], maxspeed[f]]`. -/
theorem lone_agent_keeps_direction (H : Host ℝ) (hsqrt : H.sqrt = Real.sqrt)
    (s : t_jit_boids3d ℝ) (i f : Fin MAX_FLOCKS) (b : Boid ℝ)
    (h1 : s.flockLL i = [b]) (h2 : ∀ j, j ≠ i → s.flockLL j = [])
    (hatt : s.attractorLL = []) (hf : flockIndex b.flockID = some f)
    (hin : 0 < s.inertia f) (hh : b.newDir ≠ { x := 0, y := 0, z := 0 })
    (hsurv : survivesTick s.age b = true) :
    ∃ s1 b1, FlightStep H s = some s1 ∧ s1.flockLL i = [b1] ∧
      (∀ j, j ≠ i → s1.flockLL j = []) ∧
      |b1.newDir.x| = |b.newDir.x| / Real.sqrt (normSq b.newDir) ∧
      |b1.newDir.y| = |b.newDir.y| / Real.sqrt (normSq b.newDir) ∧
      |b1.newDir.z| = |b.newDir.z| / Real.sqrt (normSq b.newDir) ∧
      (∃ (s2 : t_jit_boids3d ℝ) (b2 : Boid ℝ),
        b1.newDir = AvoidWalls s2 b2 f ∧
        b2.newDir = { x := b.newDir.x / Real.sqrt (normSq b.newDir)
                      y := b.newDir.y / Real.sqrt (normSq b.newDir)
                      z := b.newDir.z / Real.sqrt (normSq b.newDir) } ∧
        b2.oldPos = b.newPos ∧ b2.speed = b1.speed ∧
        s2.flyrect = s.flyrect ∧ s2.speed = s.speed) ∧
      b1.speed = clampSpeed s f (s.inertia f * Real.sqrt (normSq b.newDir)) ∧
      (s.minspeed f ≤ s.maxspeed f →
        ClampedTo (s.minspeed f) (s.maxspeed f)
          (s.inertia f * Real.sqrt (normSq b.newDir)) b1.speed) := by
  have hs0 : H.sqrt 0 = 0 := by rw [hsqrt, Real.sqrt_zero]
  have hpos : 0 < Real.sqrt (normSq b.newDir) :=
    Real.sqrt_pos.mpr (normSq_pos_of_ne_zero _ hh)
  have hstep := FlightStep_lone H s i f b h1 h2 hf hsurv
  have hc : steerComposed H i f [] { b with age := b.age + 1 } []
      ({ s with neighborhoodConnections := [] } : t_jit_boids3d ℝ)
      { goCenterVel := { x := 0, y := 0, z := 0 }, goAttractVel := { x := 0, y := 0, z := 0 },
        matchNeighborVel := { x := 0, y := 0, z := 0 },
        separationNeighborVel := { x := 0, y := 0, z := 0 } }
      = { x := s.inertia f * b.newDir.x, y := s.inertia f * b.newDir.y,
          z := s.inertia f * b.newDir.z } :=
    steerComposed_lone H hs0 { s with neighborhoodConnections := [] } i f
      { b with age := b.age + 1 } h2 hatt
  obtain ⟨s2, b2, w1, w2, w3, w4, w5, w6⟩ := steerBoid_walls H i f []
    { b with age := b.age + 1 } []
    ({ s with neighborhoodConnections := [] } : t_jit_boids3d ℝ)
    { goCenterVel := { x := 0, y := 0, z := 0 }, goAttractVel := { x := 0, y := 0, z := 0 },
      matchNeighborVel := { x := 0, y := 0, z := 0 },
      separationNeighborVel := { x := 0, y := 0, z := 0 } }
  rw [hc, NormalizeVelocity_scaled H hsqrt _ hin _ hh] at w2
  have hspeed : (steerBoid H i f [] { b with age := b.age + 1 } []
      ({ s with neighborhoodConnections := [] } : t_jit_boids3d ℝ)
      { goCenterVel := { x := 0, y := 0, z := 0 }, goAttractVel := { x := 0, y := 0, z := 0 },
        matchNeighborVel := { x := 0, y := 0, z := 0 },
        separationNeighborVel := { x := 0, y := 0, z := 0 } }).1.speed
      = clampSpeed s f (s.inertia f * Real.sqrt (normSq b.newDir)) := by
    rw [steerBoid_speed, hc, hsqrt]
    simp only [pow_two]
    rw [sqrt_scaled _ hin]
    rfl
  obtain ⟨a1, a2, a3⟩ := AvoidWalls_abs s2 b2 f
  refine ⟨_, _, hstep, ?_, ?_, ?_, ?_, ?_, ⟨s2, b2, w1, w2, w3, w4, w5, w6⟩, hspeed, ?_⟩
  · rw [steerBoid_flockLL]
    simp
  · intro j hj
    rw [steerBoid_flockLL]
    simp only [Function.update_noteq hj]
    exact h2 j hj
  · rw [w1, a1, w2, abs_div, abs_of_pos hpos]
  · rw [w1, a2, w2, abs_div, abs_of_pos hpos]
  · rw [w1, a3, w2, abs_div, abs_of_pos hpos]
  · intro hle
    rw [hspeed]
    exact clampSpeed_clamped s f _ hle

/-- Witness for C40: the lone agent of the example (heading `(3, 0, 4)`, inertia 2, speed
bounds `[0, 20]`) ends the tick with heading components of absolute value `3/5`, `0`, `4/5`
and speed `10`. -/
theorem lone_agent_keeps_direction_witness :
    ∃ s1 b1, FlightStep ⟨Real.sqrt, Real.sin, Real.cos⟩ (demoLoneState : t_jit_boids3d ℝ)
        = some s1 ∧ s1.flockLL 0 = [b1] ∧
      |b1.newDir.x| = 3 / 5 ∧ |b1.newDir.y| = 0 ∧ |b1.newDir.z| = 4 / 5 ∧ b1.speed = 10 := by
  have h25 : Real.sqrt (normSq ({ x := 3, y := 0, z := 4 } : Vec3 ℝ)) = 5 := by
    have : normSq ({ x := 3, y := 0, z := 4 } : Vec3 ℝ) = 5 * 5 := by
      simp only [normSq]
      norm_num
    rw [this]
    exact Real.sqrt_mul_self (by norm_num)
  obtain ⟨s1, b1, e1, e2, _, e4, e5, e6, _, e8, _⟩ :=
    lone_agent_keeps_direction ⟨Real.sqrt, Real.sin, Real.cos⟩ rfl
      (demoLoneState : t_jit_boids3d ℝ) 0 0
      (demoBoidAt 0 0 { x := 0, y := 0, z := 0 } { x := 0, y := 0, z := 0 }
        { x := 0, y := 0, z := 0 } { x := 3, y := 0, z := 4 })
      (by simp [demoLoneState])
      (by intro j hj; simp [demoLoneState, hj])
      rfl (by decide)
      (by norm_num [demoLoneState])
      (by simp [demoBoidAt])
      (by simp [survivesTick, demoBoidAt, flockIndex, demoLoneState])
  have d1 : (demoBoidAt 0 0 { x := 0, y := 0, z := 0 } { x := 0, y := 0, z := 0 }
      { x := 0, y := 0, z := 0 } { x := 3, y := 0, z := 4 } : Boid ℝ).newDir
      = { x := 3, y := 0, z := 4 } := rfl
  rw [d1, h25] at e4 e5 e6 e8
  refine ⟨s1, b1, e1, e2, ?_, ?_, ?_, ?_⟩
  · rw [e4]
    norm_num
  · rw [e5]
    norm_num
  · rw [e6]
    norm_num
  · rw [e8]
    norm_num [clampSpeed, demoLoneState, jit_boids3d_new]

end claims

end Boids3d
